import Mathlib

/-! SignalDistributor: RF link-budget selection and cascade check

A shallow embedding of `main.cpp` (fixed-amplifier variant) and
`signalDistributor.cpp` (dynamic variant).

Modelling conventions.

* The functions of the source are embedded twice.  The definitions at the top
  level read a C++ `double` as an exact rational number (`ℚ`): every decimal
  literal is taken at its written value and `+`, `-`, `*`, `/` are exact.  The
  definitions of the namespace `IEEE` read a `double` as the rational denoted
  by a binary64 value and round every literal and every operation to nearest,
  ties to even, as the compiled program does.
* Statements about the figures of the source catalogs and statements that do
  not depend on rounding are made on the exact definitions; statements
  quantified over all inputs whose truth depends on rounding are made on the
  definitions of `IEEE`.  On the globals of the source the two embeddings
  select the same amplifier and switch, and the metrics computed in double
  arithmetic are the doubles nearest the exact ones (last section).
* `std::numeric_limits<double>::max()` is the rational `2^1024 - 2^971`.
* The global catalogs `switches` and `amplifiers` are passed to the functions
  as explicit arguments; the catalogs written in the source are the constants
  `switches` and `amplifiers` below.
* A `for (const auto& x : xs)` loop that updates locals is a left fold over the
  list, the locals being the accumulator.
* Console output is a record of the printed values; the exit status is a
  function of the outcome.
-/

namespace SignalDistributor

/-! ## Data model shared by both files -/

/-- Switch record (`struct Switch`, identical in both files). -/
structure Switch where
  name : String
  gainOn1GHz : ℚ
  gainOn20GHz : ℚ
  gainOff1GHz : ℚ
  gainOff20GHz : ℚ
  p1dB : ℚ
  cost : ℚ
  deriving DecidableEq

/-- Value of `std::numeric_limits<double>::max()`, the largest finite double. -/
def DBL_MAX : ℚ := 2 ^ 1024 - 2 ^ 971

def FIXED_ATTENUATOR_GAIN : ℚ := -1.0
def POWER_DIVIDER_GAIN_1GHz : ℚ := -6.0
def POWER_DIVIDER_GAIN_20GHz : ℚ := -7.0
def INPUT_POWER : ℚ := 10.0
def REQUIRED_MAX_POWER_1GHz : ℚ := 19.0
def REQUIRED_MAX_POWER_20GHz : ℚ := 16.0
def REQUIRED_MIN_LEAKAGE_1GHz : ℚ := -145.0
def REQUIRED_MIN_LEAKAGE_20GHz : ℚ := -137.0

def SW_A : Switch := ⟨"SW-A", -0.7, -1.4, -65.0, -55.0, 28.0, 45.0⟩
def SW_B : Switch := ⟨"SW-B", -0.1, -2.0, -45.0, -20.0, 27.0, 19.0⟩
def SW_C : Switch := ⟨"SW-C", -1.3, -1.8, -60.0, -35.0, 35.0, 13.0⟩
def SW_D : Switch := ⟨"SW-D", -0.8, -1.6, -65.0, -45.0, 28.0, 35.0⟩
def SW_E : Switch := ⟨"SW-E", -1.5, -2.5, -60.0, -40.0, 27.5, 24.0⟩
def SW_F : Switch := ⟨"SW-F", -1.1, -1.5, -60.0, -34.0, 27.5, 22.0⟩

/-- Switch candidates (the global `switches`), as written in both files. -/
def switches : List Switch := [SW_A, SW_B, SW_C, SW_D, SW_E, SW_F]

/-! ## Switch selector -/

/-- Initial value of the local `bestSwitch` in `selectSwitch`: empty name, zero
gains and the largest double as cost. -/
def sentinelSwitch : Switch := ⟨"", 0.0, 0.0, 0.0, 0.0, 0.0, DBL_MAX⟩

/-- One iteration of the loop of `selectSwitch`: the new value of `bestSwitch`
after looking at `sw`. -/
def selectSwitchStep (inputPower ampGain1GHz ampGain20GHz : ℚ)
    (bestSwitch sw : Switch) : Switch :=
  if inputPower + ampGain1GHz + sw.gainOn1GHz ≥ REQUIRED_MAX_POWER_1GHz ∧
      inputPower + ampGain20GHz + sw.gainOn20GHz ≥ REQUIRED_MAX_POWER_20GHz ∧
      sw.p1dB ≥ inputPower then
    if sw.cost < bestSwitch.cost then sw else bestSwitch
  else bestSwitch

/-- The function `selectSwitch` of both files, over the catalog `switches`. -/
def selectSwitch (switches : List Switch)
    (inputPower ampGain1GHz ampGain20GHz : ℚ) : Switch :=
  switches.foldl (selectSwitchStep inputPower ampGain1GHz ampGain20GHz) sentinelSwitch

/-- The three selector constraints on a candidate switch, as a predicate used
to state properties of `selectSwitch`. -/
def Qualifies (inputPower ampGain1GHz ampGain20GHz : ℚ) (sw : Switch) : Prop :=
  inputPower + ampGain1GHz + sw.gainOn1GHz ≥ 19 ∧
  inputPower + ampGain20GHz + sw.gainOn20GHz ≥ 16 ∧
  sw.p1dB ≥ inputPower

instance (inputPower ampGain1GHz ampGain20GHz : ℚ) (sw : Switch) :
    Decidable (Qualifies inputPower ampGain1GHz ampGain20GHz sw) := by
  unfold Qualifies; infer_instance

/-- Two switches of equal cost, used to exercise the tie-break: they differ
only in name. -/
def tieFirst : Switch := ⟨"SW-T1", -1, -1, -60, -35, 35, 13⟩
def tieSecond : Switch := ⟨"SW-T2", -1, -1, -60, -35, 35, 13⟩

/-- Two qualifying switches whose common cost is the largest finite double. -/
def maxCostFirst : Switch := ⟨"SW-M1", -1, -1, -60, -35, 35, DBL_MAX⟩
def maxCostSecond : Switch := ⟨"SW-M2", -1, -1, -60, -35, 35, DBL_MAX⟩

/-! ## Attenuation calculator -/

/-- The function `std::max` on doubles: `(a < b) ? b : a`. -/
def std_max (a b : ℚ) : ℚ := if a < b then b else a

/-- The function `calculateAttenuation` of both files. -/
def calculateAttenuation (inputPower targetPower amplifierGain : ℚ) : ℚ :=
  let requiredAttenuation := inputPower + amplifierGain - targetPower
  std_max 0 requiredAttenuation

/-! ## Cascade evaluation and specification check -/

/-- What a completed run prints: the selected amplifier (dynamic variant only),
the selected switch, the four metrics, and which final line is written
(`true` for "System meets specifications!", `false` for "System failed to meet
specifications!"). -/
structure Report where
  selectedAmplifier : Option (String × ℚ)
  selectedSwitchName : String
  selectedSwitchCost : ℚ
  outputPower1GHz_maxPower : ℚ
  outputPower20GHz_maxPower : ℚ
  leakage1GHz : ℚ
  leakage20GHz : ℚ
  meetsSpecifications : Bool
  deriving DecidableEq

/-- Result of a run of `main`: either the error "No suitable switch found!"
or a completed report. -/
inductive Outcome where
  | noSuitableSwitch : Outcome
  | completed : Report → Outcome
  deriving DecidableEq

/-- Value returned by `main`. -/
def exitStatus : Outcome → Nat
  | Outcome.noSuitableSwitch => 1
  | Outcome.completed _ => 0

/-- The body of `main` after the switch has been found (`main.cpp` lines
86-116, `signalDistributor.cpp` lines 109-140): the two files differ only in
the amplifier the five amplifier values are read from and in the extra
"Selected Amplifier" line. -/
def evaluateChain (selectedAmplifier : Option (String × ℚ))
    (ampGain1GHz_min ampGain20GHz_min ampGain1GHz_max ampGain20GHz_max ampP1dB : ℚ)
    (selectedSwitch : Switch) : Report :=
  let attenuation1GHz_maxPower := calculateAttenuation INPUT_POWER ampP1dB ampGain1GHz_min
  let attenuation20GHz_maxPower := calculateAttenuation INPUT_POWER ampP1dB ampGain20GHz_min
  let totalGain1GHz_maxPower := ampGain1GHz_min + selectedSwitch.gainOn1GHz +
    FIXED_ATTENUATOR_GAIN + POWER_DIVIDER_GAIN_1GHz - attenuation1GHz_maxPower
  let totalGain20GHz_maxPower := ampGain20GHz_min + selectedSwitch.gainOn20GHz +
    FIXED_ATTENUATOR_GAIN + POWER_DIVIDER_GAIN_20GHz - attenuation20GHz_maxPower
  let outputPower1GHz_maxPower := INPUT_POWER + totalGain1GHz_maxPower
  let outputPower20GHz_maxPower := INPUT_POWER + totalGain20GHz_maxPower
  let leakage1GHz := INPUT_POWER + ampGain1GHz_max + selectedSwitch.gainOff1GHz +
    FIXED_ATTENUATOR_GAIN + POWER_DIVIDER_GAIN_1GHz
  let leakage20GHz := INPUT_POWER + ampGain20GHz_max + selectedSwitch.gainOff20GHz +
    FIXED_ATTENUATOR_GAIN + POWER_DIVIDER_GAIN_20GHz
  { selectedAmplifier := selectedAmplifier
    selectedSwitchName := selectedSwitch.name
    selectedSwitchCost := selectedSwitch.cost
    outputPower1GHz_maxPower := outputPower1GHz_maxPower
    outputPower20GHz_maxPower := outputPower20GHz_maxPower
    leakage1GHz := leakage1GHz
    leakage20GHz := leakage20GHz
    meetsSpecifications :=
      decide (outputPower1GHz_maxPower ≥ REQUIRED_MAX_POWER_1GHz ∧
        outputPower20GHz_maxPower ≥ REQUIRED_MAX_POWER_20GHz ∧
        leakage1GHz ≤ REQUIRED_MIN_LEAKAGE_1GHz ∧
        leakage20GHz ≤ REQUIRED_MIN_LEAKAGE_20GHz) }

/-- The pass condition in the words of the specification (sections 4.4 and
4.5): both output powers reach their minimum and both leakages stay at or
below their maximum, with
`outputPower(f) = inputPower + ampGain_min(f) + switch.gainOn(f) +
fixedAttenuatorLoss + dividerLoss(f) - attenuation(inputPower, amp.p1dB,
ampGain_min(f))` and
`leakage(f) = inputPower + ampGain_max(f) + switch.gainOff(f) +
fixedAttenuatorLoss + dividerLoss(f)`. -/
def SpecPass (ampGain1GHz_min ampGain20GHz_min ampGain1GHz_max ampGain20GHz_max ampP1dB : ℚ)
    (sw : Switch) : Prop :=
  INPUT_POWER + ampGain1GHz_min + sw.gainOn1GHz + FIXED_ATTENUATOR_GAIN +
      POWER_DIVIDER_GAIN_1GHz - calculateAttenuation INPUT_POWER ampP1dB ampGain1GHz_min
      ≥ 19 ∧
    INPUT_POWER + ampGain20GHz_min + sw.gainOn20GHz + FIXED_ATTENUATOR_GAIN +
      POWER_DIVIDER_GAIN_20GHz - calculateAttenuation INPUT_POWER ampP1dB ampGain20GHz_min
      ≥ 16 ∧
    INPUT_POWER + ampGain1GHz_max + sw.gainOff1GHz + FIXED_ATTENUATOR_GAIN +
      POWER_DIVIDER_GAIN_1GHz ≤ -145 ∧
    INPUT_POWER + ampGain20GHz_max + sw.gainOff20GHz + FIXED_ATTENUATOR_GAIN +
      POWER_DIVIDER_GAIN_20GHz ≤ -137

/-! ## Fixed-amplifier variant (`main.cpp`) -/

namespace Fixed

/-- Amplifier record of `main.cpp` (no typical gains). -/
structure Amplifier where
  name : String
  gain1GHz_min : ℚ
  gain1GHz_max : ℚ
  gain20GHz_min : ℚ
  gain20GHz_max : ℚ
  p1dB : ℚ
  cost : ℚ
  deriving DecidableEq

/-- The global `ampE` of `main.cpp`. -/
def ampE : Amplifier := ⟨"Amp-E", 14.0, 17.5, 13.0, 16.0, 20.0, 17.5⟩

/-- The function `main` of `main.cpp`, over the globals `ampE` and
`switches`. -/
def main (ampE : Amplifier) (switches : List Switch) : Outcome :=
  let ampGain1GHz_min := ampE.gain1GHz_min
  let ampGain20GHz_min := ampE.gain20GHz_min
  let ampGain1GHz_max := ampE.gain1GHz_max
  let ampGain20GHz_max := ampE.gain20GHz_max
  let selectedSwitch := selectSwitch switches INPUT_POWER ampGain1GHz_min ampGain20GHz_min
  if selectedSwitch.name = "" then Outcome.noSuitableSwitch
  else Outcome.completed (evaluateChain none ampGain1GHz_min ampGain20GHz_min
    ampGain1GHz_max ampGain20GHz_max ampE.p1dB selectedSwitch)

end Fixed

/-! ## Dynamic variant (`signalDistributor.cpp`) -/

namespace Dynamic

/-- Amplifier record of `signalDistributor.cpp`. -/
structure Amplifier where
  name : String
  gain1GHz_min : ℚ
  gain1GHz_typ : ℚ
  gain1GHz_max : ℚ
  gain20GHz_min : ℚ
  gain20GHz_typ : ℚ
  gain20GHz_max : ℚ
  p1dB : ℚ
  cost : ℚ
  deriving DecidableEq

def Amp_A : Amplifier := ⟨"Amp-A", 15.0, 17.0, 19.0, 14.0, 16.0, 18.0, 20.0, 20.0⟩
def Amp_B : Amplifier := ⟨"Amp-B", 12.0, 14.0, 15.0, 8.0, 11.0, 12.0, 26.0, 60.0⟩
def Amp_C : Amplifier := ⟨"Amp-C", 8.0, 10.0, 12.0, 8.0, 10.0, 12.0, 21.0, 21.0⟩
def Amp_D : Amplifier := ⟨"Amp-D", 12.0, 14.0, 15.0, 13.0, 15.0, 16.0, 29.0, 77.0⟩
def Amp_E : Amplifier := ⟨"Amp-E", 14.0, 15.0, 17.5, 13.0, 15.0, 17.5, 20.0, 17.5⟩
def Amp_F : Amplifier := ⟨"Amp-F", 13.5, 14.5, 15.0, 14.0, 15.0, 16.0, 11.0, 33.0⟩

/-- Amplifier candidates (the global `amplifiers`). -/
def amplifiers : List Amplifier := [Amp_A, Amp_B, Amp_C, Amp_D, Amp_E, Amp_F]

/-- The expression assigned to the local `score` in the loop of
`selectAmplifier`.  Division is that of `ℚ`, which agrees with the source for
non-zero divisors. -/
def score (amp : Amplifier) : ℚ :=
  0.5 * (1 / amp.gain1GHz_typ + 1 / amp.gain20GHz_typ) + 0.3 * (1 / amp.p1dB) + 0.2 * amp.cost

/-- One iteration of the loop of `selectAmplifier` on the pair of locals
`(bestAmp, bestScore)`. -/
def selectAmplifierStep (best : Amplifier × ℚ) (amp : Amplifier) : Amplifier × ℚ :=
  if score amp < best.2 then (amp, score amp) else best

/-- The function `selectAmplifier`, over the catalog `amplifiers`.  The local
`bestAmp` is declared without initialiser, so its numeric fields start
indeterminate: `uninit` stands for that starting value. -/
def selectAmplifier (uninit : Amplifier) (amplifiers : List Amplifier) : Amplifier :=
  (amplifiers.foldl selectAmplifierStep (uninit, DBL_MAX)).1

/-- The function `main` of `signalDistributor.cpp`, over the globals
`amplifiers` and `switches`. -/
def main (uninit : Amplifier) (amplifiers : List Amplifier) (switches : List Switch) :
    Outcome :=
  let bestAmp := selectAmplifier uninit amplifiers
  let ampGain1GHz_min := bestAmp.gain1GHz_min
  let ampGain20GHz_min := bestAmp.gain20GHz_min
  let ampGain1GHz_max := bestAmp.gain1GHz_max
  let ampGain20GHz_max := bestAmp.gain20GHz_max
  let selectedSwitch := selectSwitch switches INPUT_POWER ampGain1GHz_min ampGain20GHz_min
  if selectedSwitch.name = "" then Outcome.noSuitableSwitch
  else Outcome.completed (evaluateChain (some (bestAmp.name, bestAmp.cost))
    ampGain1GHz_min ampGain20GHz_min ampGain1GHz_max ampGain20GHz_max bestAmp.p1dB
    selectedSwitch)

end Dynamic

/-! ## Binary64 arithmetic

The definitions above compute in exact arithmetic.  The namespace `IEEE`
repeats the functions of the source with every arithmetic operation and every
decimal literal rounded to the nearest binary64 value, ties to even, which is
what the compiled program does when each operation is evaluated in binary64 on
its own (no extended precision, no fused multiply-add).  A double is
represented by the rational it denotes.  The exponent range is bounded below
(subnormals) and not above: a result beyond `DBL_MAX` stays finite and
compares like `+inf`.  NaN is not represented. -/

namespace IEEE

/-- Nearest integer, ties to the even one. -/
def roundHalfEven (x : ℚ) : ℤ :=
  if x - ⌊x⌋ < 1 / 2 then ⌊x⌋
  else if 1 / 2 < x - ⌊x⌋ then ⌊x⌋ + 1
  else if ⌊x⌋ % 2 = 0 then ⌊x⌋ else ⌊x⌋ + 1

/-- Binary exponent of the binade of a positive `x`, not below that of the
subnormal numbers. -/
def exponent (x : ℚ) : ℤ := max (Int.log 2 x) (-1022)

/-- Spacing of the doubles in the binade of `x`: 52 fraction bits. -/
def ulp (x : ℚ) : ℚ := (2 : ℚ) ^ (exponent x - 52)

/-- Nearest double of a non-negative rational. -/
def roundNonneg (x : ℚ) : ℚ := (roundHalfEven (x / ulp x) : ℚ) * ulp x

/-- Nearest double of a rational (round to nearest, ties to even). -/
def roundToDouble (x : ℚ) : ℚ := if x < 0 then -roundNonneg (-x) else roundNonneg x

/-- Value of a decimal literal of the source. -/
def lit (x : ℚ) : ℚ := roundToDouble x

/-- Operators `+`, `-`, `*`, `/` on doubles. -/
def add (a b : ℚ) : ℚ := roundToDouble (a + b)
def sub (a b : ℚ) : ℚ := roundToDouble (a - b)
def mul (a b : ℚ) : ℚ := roundToDouble (a * b)
def div (a b : ℚ) : ℚ := roundToDouble (a / b)

/-- The switches of the source as stored: the literals with a finite binary
expansion are written as they are, the others through `lit`. -/
def SW_A : Switch := ⟨"SW-A", lit (-0.7), lit (-1.4), -65, -55, 28, 45⟩
def SW_B : Switch := ⟨"SW-B", lit (-0.1), -2, -45, -20, 27, 19⟩
def SW_C : Switch := ⟨"SW-C", lit (-1.3), lit (-1.8), -60, -35, 35, 13⟩
def SW_D : Switch := ⟨"SW-D", lit (-0.8), lit (-1.6), -65, -45, 28, 35⟩
def SW_E : Switch := ⟨"SW-E", -1.5, -2.5, -60, -40, 27.5, 24⟩
def SW_F : Switch := ⟨"SW-F", lit (-1.1), -1.5, -60, -34, 27.5, 22⟩

/-- A switch whose loss at 1 GHz, 2^-60 dB, is below the spacing of the doubles
near 19. -/
def SW_T : Switch := ⟨"SW-T", -1 / 2 ^ 60, 0, -60, -35, 35, 13⟩

/-- A switch with 2 dB loss and 200 dB isolation, and a switch without name. -/
def SW_X : Switch := ⟨"SW-X", -2, -2, -200, -200, 35, 13⟩
def SW_unnamed : Switch := ⟨"", -1, -1, -60, -35, 35, 13⟩

/-- Two copies of SW-A under different names. -/
def SW_A1 : Switch := ⟨"SW-A1", lit (-0.7), lit (-1.4), -65, -55, 28, 45⟩
def SW_A2 : Switch := ⟨"SW-A2", lit (-0.7), lit (-1.4), -65, -55, 28, 45⟩

/-- The global `switches` as stored. -/
def switches : List Switch := [SW_A, SW_B, SW_C, SW_D, SW_E, SW_F]

/-- One iteration of the loop of `selectSwitch`, the sums evaluated left to
right in double arithmetic. -/
def selectSwitchStep (inputPower ampGain1GHz ampGain20GHz : ℚ)
    (bestSwitch sw : Switch) : Switch :=
  if add (add inputPower ampGain1GHz) sw.gainOn1GHz ≥ REQUIRED_MAX_POWER_1GHz ∧
      add (add inputPower ampGain20GHz) sw.gainOn20GHz ≥ REQUIRED_MAX_POWER_20GHz ∧
      sw.p1dB ≥ inputPower then
    if sw.cost < bestSwitch.cost then sw else bestSwitch
  else bestSwitch

/-- The function `selectSwitch` in double arithmetic. -/
def selectSwitch (switches : List Switch)
    (inputPower ampGain1GHz ampGain20GHz : ℚ) : Switch :=
  switches.foldl (selectSwitchStep inputPower ampGain1GHz ampGain20GHz) sentinelSwitch

/-- The three tests of the selector as the program evaluates them. -/
def Passes (inputPower ampGain1GHz ampGain20GHz : ℚ) (sw : Switch) : Prop :=
  add (add inputPower ampGain1GHz) sw.gainOn1GHz ≥ 19 ∧
  add (add inputPower ampGain20GHz) sw.gainOn20GHz ≥ 16 ∧
  sw.p1dB ≥ inputPower

instance (inputPower ampGain1GHz ampGain20GHz : ℚ) (sw : Switch) :
    Decidable (Passes inputPower ampGain1GHz ampGain20GHz sw) := by
  unfold Passes; infer_instance

/-- The function `calculateAttenuation` in double arithmetic. -/
def calculateAttenuation (inputPower targetPower amplifierGain : ℚ) : ℚ :=
  let requiredAttenuation := sub (add inputPower amplifierGain) targetPower
  std_max 0 requiredAttenuation

/-- The body of `main` after the switch has been found, in double arithmetic. -/
def evaluateChain (selectedAmplifier : Option (String × ℚ))
    (ampGain1GHz_min ampGain20GHz_min ampGain1GHz_max ampGain20GHz_max ampP1dB : ℚ)
    (selectedSwitch : Switch) : Report :=
  let attenuation1GHz_maxPower := calculateAttenuation INPUT_POWER ampP1dB ampGain1GHz_min
  let attenuation20GHz_maxPower := calculateAttenuation INPUT_POWER ampP1dB ampGain20GHz_min
  let totalGain1GHz_maxPower := sub (add (add (add ampGain1GHz_min selectedSwitch.gainOn1GHz)
    FIXED_ATTENUATOR_GAIN) POWER_DIVIDER_GAIN_1GHz) attenuation1GHz_maxPower
  let totalGain20GHz_maxPower := sub (add (add (add ampGain20GHz_min
    selectedSwitch.gainOn20GHz) FIXED_ATTENUATOR_GAIN) POWER_DIVIDER_GAIN_20GHz)
    attenuation20GHz_maxPower
  let outputPower1GHz_maxPower := add INPUT_POWER totalGain1GHz_maxPower
  let outputPower20GHz_maxPower := add INPUT_POWER totalGain20GHz_maxPower
  let leakage1GHz := add (add (add (add INPUT_POWER ampGain1GHz_max)
    selectedSwitch.gainOff1GHz) FIXED_ATTENUATOR_GAIN) POWER_DIVIDER_GAIN_1GHz
  let leakage20GHz := add (add (add (add INPUT_POWER ampGain20GHz_max)
    selectedSwitch.gainOff20GHz) FIXED_ATTENUATOR_GAIN) POWER_DIVIDER_GAIN_20GHz
  { selectedAmplifier := selectedAmplifier
    selectedSwitchName := selectedSwitch.name
    selectedSwitchCost := selectedSwitch.cost
    outputPower1GHz_maxPower := outputPower1GHz_maxPower
    outputPower20GHz_maxPower := outputPower20GHz_maxPower
    leakage1GHz := leakage1GHz
    leakage20GHz := leakage20GHz
    meetsSpecifications :=
      decide (outputPower1GHz_maxPower ≥ REQUIRED_MAX_POWER_1GHz ∧
        outputPower20GHz_maxPower ≥ REQUIRED_MAX_POWER_20GHz ∧
        leakage1GHz ≤ REQUIRED_MIN_LEAKAGE_1GHz ∧
        leakage20GHz ≤ REQUIRED_MIN_LEAKAGE_20GHz) }

/-- The pass condition on the values as the program computes them: the four
comparisons of `main`, each metric evaluated left to right in double
arithmetic. -/
def SpecPass (ampGain1GHz_min ampGain20GHz_min ampGain1GHz_max ampGain20GHz_max ampP1dB : ℚ)
    (sw : Switch) : Prop :=
  add INPUT_POWER (sub (add (add (add ampGain1GHz_min sw.gainOn1GHz) FIXED_ATTENUATOR_GAIN)
      POWER_DIVIDER_GAIN_1GHz) (calculateAttenuation INPUT_POWER ampP1dB ampGain1GHz_min))
      ≥ 19 ∧
    add INPUT_POWER (sub (add (add (add ampGain20GHz_min sw.gainOn20GHz)
      FIXED_ATTENUATOR_GAIN) POWER_DIVIDER_GAIN_20GHz)
      (calculateAttenuation INPUT_POWER ampP1dB ampGain20GHz_min)) ≥ 16 ∧
    add (add (add (add INPUT_POWER ampGain1GHz_max) sw.gainOff1GHz) FIXED_ATTENUATOR_GAIN)
      POWER_DIVIDER_GAIN_1GHz ≤ -145 ∧
    add (add (add (add INPUT_POWER ampGain20GHz_max) sw.gainOff20GHz) FIXED_ATTENUATOR_GAIN)
      POWER_DIVIDER_GAIN_20GHz ≤ -137

namespace Dynamic

/-- The expression assigned to the local `score` in `selectAmplifier`, in
double arithmetic.  Division is that of `ℚ` followed by rounding, which agrees
with the program for non-zero divisors. -/
def score (amp : SignalDistributor.Dynamic.Amplifier) : ℚ :=
  add (add (mul (lit 0.5) (add (div 1 amp.gain1GHz_typ) (div 1 amp.gain20GHz_typ)))
    (mul (lit 0.3) (div 1 amp.p1dB))) (mul (lit 0.2) amp.cost)

/-- Two amplifiers of cost 1e17; the second has the larger typical gain at
1 GHz. -/
def Amp_X1 : SignalDistributor.Dynamic.Amplifier :=
  ⟨"Amp-X1", 10, 10, 20, 10, 10, 20, 10, 100000000000000000⟩
def Amp_X2 : SignalDistributor.Dynamic.Amplifier :=
  ⟨"Amp-X2", 10, 20, 20, 10, 10, 20, 10, 100000000000000000⟩

/-- One iteration of the loop of `selectAmplifier` in double arithmetic. -/
def selectAmplifierStep (best : SignalDistributor.Dynamic.Amplifier × ℚ)
    (amp : SignalDistributor.Dynamic.Amplifier) : SignalDistributor.Dynamic.Amplifier × ℚ :=
  if score amp < best.2 then (amp, score amp) else best

/-- The function `selectAmplifier` in double arithmetic; `uninit` stands for
the uninitialised local `bestAmp`. -/
def selectAmplifier (uninit : SignalDistributor.Dynamic.Amplifier)
    (amplifiers : List SignalDistributor.Dynamic.Amplifier) :
    SignalDistributor.Dynamic.Amplifier :=
  (amplifiers.foldl selectAmplifierStep (uninit, DBL_MAX)).1

/-- The function `main` of `signalDistributor.cpp` in double arithmetic. -/
def main (uninit : SignalDistributor.Dynamic.Amplifier)
    (amplifiers : List SignalDistributor.Dynamic.Amplifier) (switches : List Switch) :
    Outcome :=
  let bestAmp := selectAmplifier uninit amplifiers
  let ampGain1GHz_min := bestAmp.gain1GHz_min
  let ampGain20GHz_min := bestAmp.gain20GHz_min
  let ampGain1GHz_max := bestAmp.gain1GHz_max
  let ampGain20GHz_max := bestAmp.gain20GHz_max
  let selectedSwitch := selectSwitch switches INPUT_POWER ampGain1GHz_min ampGain20GHz_min
  if selectedSwitch.name = "" then Outcome.noSuitableSwitch
  else Outcome.completed (evaluateChain (some (bestAmp.name, bestAmp.cost))
    ampGain1GHz_min ampGain20GHz_min ampGain1GHz_max ampGain20GHz_max bestAmp.p1dB
    selectedSwitch)

end Dynamic

namespace Fixed

/-- Amp-E with its minimum gain at 20 GHz lowered from 13.0 to 7.4. -/
def Amp_V : SignalDistributor.Fixed.Amplifier :=
  ⟨"Amp-V", 14, 17.5, lit 7.4, 16, 20, 17.5⟩

/-- An amplifier with gains 22.2 dB and p1dB 28 dBm. -/
def Amp_X : SignalDistributor.Fixed.Amplifier :=
  ⟨"Amp-X", lit 22.2, lit 22.2, lit 22.2, lit 22.2, 28, 30⟩

/-- The function `main` of `main.cpp` in double arithmetic. -/
def main (ampE : SignalDistributor.Fixed.Amplifier) (switches : List Switch) : Outcome :=
  let ampGain1GHz_min := ampE.gain1GHz_min
  let ampGain20GHz_min := ampE.gain20GHz_min
  let ampGain1GHz_max := ampE.gain1GHz_max
  let ampGain20GHz_max := ampE.gain20GHz_max
  let selectedSwitch := selectSwitch switches INPUT_POWER ampGain1GHz_min ampGain20GHz_min
  if selectedSwitch.name = "" then Outcome.noSuitableSwitch
  else Outcome.completed (evaluateChain none ampGain1GHz_min ampGain20GHz_min
    ampGain1GHz_max ampGain20GHz_max ampE.p1dB selectedSwitch)

end Fixed

end IEEE

/-! ## Values of the constants -/

theorem REQUIRED_MAX_POWER_1GHz_eq : REQUIRED_MAX_POWER_1GHz = 19 := by
  norm_num [REQUIRED_MAX_POWER_1GHz]

theorem REQUIRED_MAX_POWER_20GHz_eq : REQUIRED_MAX_POWER_20GHz = 16 := by
  norm_num [REQUIRED_MAX_POWER_20GHz]

theorem REQUIRED_MIN_LEAKAGE_1GHz_eq : REQUIRED_MIN_LEAKAGE_1GHz = -145 := by
  norm_num [REQUIRED_MIN_LEAKAGE_1GHz]

theorem REQUIRED_MIN_LEAKAGE_20GHz_eq : REQUIRED_MIN_LEAKAGE_20GHz = -137 := by
  norm_num [REQUIRED_MIN_LEAKAGE_20GHz]

theorem INPUT_POWER_eq : INPUT_POWER = 10 := by
  norm_num [INPUT_POWER]

theorem FIXED_ATTENUATOR_GAIN_eq : FIXED_ATTENUATOR_GAIN = -1 := by
  norm_num [FIXED_ATTENUATOR_GAIN]

theorem POWER_DIVIDER_GAIN_1GHz_eq : POWER_DIVIDER_GAIN_1GHz = -6 := by
  norm_num [POWER_DIVIDER_GAIN_1GHz]

theorem POWER_DIVIDER_GAIN_20GHz_eq : POWER_DIVIDER_GAIN_20GHz = -7 := by
  norm_num [POWER_DIVIDER_GAIN_20GHz]

/-! ## Lemmas on the selector loop -/

theorem selectSwitchStep_of_not (ip g1 g20 : ℚ) (b sw : Switch)
    (h : ¬ Qualifies ip g1 g20 sw) : selectSwitchStep ip g1 g20 b sw = b := by
  unfold selectSwitchStep
  unfold Qualifies at h
  rw [REQUIRED_MAX_POWER_1GHz_eq, REQUIRED_MAX_POWER_20GHz_eq, if_neg h]

theorem selectSwitchStep_of_lt (ip g1 g20 : ℚ) (b sw : Switch)
    (h : Qualifies ip g1 g20 sw) (hc : sw.cost < b.cost) :
    selectSwitchStep ip g1 g20 b sw = sw := by
  unfold selectSwitchStep
  unfold Qualifies at h
  rw [REQUIRED_MAX_POWER_1GHz_eq, REQUIRED_MAX_POWER_20GHz_eq, if_pos h, if_pos hc]

theorem selectSwitchStep_of_not_lt (ip g1 g20 : ℚ) (b sw : Switch)
    (hc : ¬ sw.cost < b.cost) : selectSwitchStep ip g1 g20 b sw = b := by
  unfold selectSwitchStep
  rw [if_neg hc, ite_self]

theorem sentinelSwitch_cost : sentinelSwitch.cost = DBL_MAX := rfl

/-- Evaluation of the selector on the catalog of the source for the call made
by `main` with Amp-E: every step of the loop is traced. -/
theorem selectSwitch_switches_eval : selectSwitch switches 10 14 13 = SW_C := by
  have qA : Qualifies 10 14 13 SW_A := by norm_num [Qualifies, SW_A]
  have qB : Qualifies 10 14 13 SW_B := by norm_num [Qualifies, SW_B]
  have qC : Qualifies 10 14 13 SW_C := by norm_num [Qualifies, SW_C]
  have cA : SW_A.cost < sentinelSwitch.cost := by norm_num [SW_A, sentinelSwitch, DBL_MAX]
  have cB : SW_B.cost < SW_A.cost := by norm_num [SW_A, SW_B]
  have cC : SW_C.cost < SW_B.cost := by norm_num [SW_B, SW_C]
  have cD : ¬ SW_D.cost < SW_C.cost := by norm_num [SW_C, SW_D]
  have cE : ¬ SW_E.cost < SW_C.cost := by norm_num [SW_C, SW_E]
  have cF : ¬ SW_F.cost < SW_C.cost := by norm_num [SW_C, SW_F]
  unfold selectSwitch switches
  rw [List.foldl_cons, selectSwitchStep_of_lt _ _ _ _ _ qA cA,
    List.foldl_cons, selectSwitchStep_of_lt _ _ _ _ _ qB cB,
    List.foldl_cons, selectSwitchStep_of_lt _ _ _ _ _ qC cC,
    List.foldl_cons, selectSwitchStep_of_not_lt _ _ _ _ _ cD,
    List.foldl_cons, selectSwitchStep_of_not_lt _ _ _ _ _ cE,
    List.foldl_cons, selectSwitchStep_of_not_lt _ _ _ _ _ cF, List.foldl_nil]

/-- On the catalog of the source, with the gains of Amp-E, all six switches
satisfy the three constraints. -/
theorem switches_all_qualify : ∀ t ∈ switches, Qualifies 10 14 13 t := by
  intro t ht
  simp only [switches, List.mem_cons, List.mem_singleton, List.mem_nil_iff, or_false] at ht
  rcases ht with rfl | rfl | rfl | rfl | rfl | rfl <;>
    norm_num [Qualifies, SW_A, SW_B, SW_C, SW_D, SW_E, SW_F]

/-- The call of `selectSwitch` made by `main` in `main.cpp` returns SW-C. -/
theorem selectSwitch_ampE_eval :
    selectSwitch switches INPUT_POWER Fixed.ampE.gain1GHz_min Fixed.ampE.gain20GHz_min
      = SW_C := by
  have h1 : Fixed.ampE.gain1GHz_min = 14 := by norm_num [Fixed.ampE]
  have h2 : Fixed.ampE.gain20GHz_min = 13 := by norm_num [Fixed.ampE]
  rw [INPUT_POWER_eq, h1, h2]
  exact selectSwitch_switches_eval

/-- The flag of the report computed by `evaluateChain` is the pass condition
of the specification. -/
theorem evaluateChain_meets_iff (label : Option (String × ℚ))
    (g1min g20min g1max g20max p1dB : ℚ) (sw : Switch) :
    (evaluateChain label g1min g20min g1max g20max p1dB sw).meetsSpecifications = true ↔
      SpecPass g1min g20min g1max g20max p1dB sw := by
  unfold evaluateChain SpecPass
  simp only [decide_eq_true_eq, REQUIRED_MAX_POWER_1GHz_eq, REQUIRED_MAX_POWER_20GHz_eq,
    REQUIRED_MIN_LEAKAGE_1GHz_eq, REQUIRED_MIN_LEAKAGE_20GHz_eq]
  have e1 : INPUT_POWER + (g1min + sw.gainOn1GHz + FIXED_ATTENUATOR_GAIN +
        POWER_DIVIDER_GAIN_1GHz - calculateAttenuation INPUT_POWER p1dB g1min) =
      INPUT_POWER + g1min + sw.gainOn1GHz + FIXED_ATTENUATOR_GAIN +
        POWER_DIVIDER_GAIN_1GHz - calculateAttenuation INPUT_POWER p1dB g1min := by ring
  have e2 : INPUT_POWER + (g20min + sw.gainOn20GHz + FIXED_ATTENUATOR_GAIN +
        POWER_DIVIDER_GAIN_20GHz - calculateAttenuation INPUT_POWER p1dB g20min) =
      INPUT_POWER + g20min + sw.gainOn20GHz + FIXED_ATTENUATOR_GAIN +
        POWER_DIVIDER_GAIN_20GHz - calculateAttenuation INPUT_POWER p1dB g20min := by ring
  rw [e1, e2]

/-! ## Attenuation calculator: claims -/

/-- C5: for all inputs the value of `calculateAttenuation` is non-negative. -/
theorem calculateAttenuation_nonneg (inputPower targetPower amplifierGain : ℚ) :
    calculateAttenuation inputPower targetPower amplifierGain ≥ 0 := by
  unfold calculateAttenuation std_max
  simp only
  split
  · rename_i h; exact le_of_lt h
  · exact le_refl _

/-- C6: `calculateAttenuation inputPower ceiling gain` is `0` whenever
`inputPower + gain ≤ ceiling`. -/
theorem calculateAttenuation_eq_zero (inputPower ceiling gain : ℚ)
    (h : inputPower + gain ≤ ceiling) :
    calculateAttenuation inputPower ceiling gain = 0 := by
  unfold calculateAttenuation std_max
  simp only
  rw [if_neg]
  intro hpos
  linarith

/-- Witness for C6: Amp-C of the dynamic catalog (minimum gain 8, p1dB 21)
driven at 10 dBm needs no pad. -/
theorem calculateAttenuation_eq_zero_witness :
    (10 : ℚ) + 8 ≤ 21 ∧ calculateAttenuation 10 21 8 = 0 :=
  ⟨by norm_num, calculateAttenuation_eq_zero 10 21 8 (by norm_num)⟩

/-! ## Amplifier selector: evaluation on the catalog of the source -/

/-- The sentinel value exceeds every figure of the source catalogs. -/
theorem thousand_lt_DBL_MAX : (1000 : ℚ) < DBL_MAX := by
  norm_num [DBL_MAX]

/-- Scores of the six amplifiers of the source catalog. -/
theorem score_amplifiers :
    Dynamic.score Dynamic.Amp_A = 55429 / 13600 ∧ Dynamic.score Dynamic.Amp_B = 60524 / 5005 ∧
      Dynamic.score Dynamic.Amp_C = 151 / 35 ∧ Dynamic.score Dynamic.Amp_D = 188539 / 12180 ∧
      Dynamic.score Dynamic.Amp_E = 2149 / 600 ∧ Dynamic.score Dynamic.Amp_F = 32036 / 4785 := by
  refine ⟨?_, ?_, ?_, ?_, ?_, ?_⟩ <;>
    norm_num [Dynamic.score, Dynamic.Amp_A, Dynamic.Amp_B, Dynamic.Amp_C, Dynamic.Amp_D,
      Dynamic.Amp_E, Dynamic.Amp_F]

theorem selectAmplifier_eq_foldl (uninit : Dynamic.Amplifier)
    (l : List Dynamic.Amplifier) :
    Dynamic.selectAmplifier uninit l =
      (l.foldl Dynamic.selectAmplifierStep (uninit, DBL_MAX)).1 := rfl

theorem amplifiers_eq :
    Dynamic.amplifiers = [Dynamic.Amp_A, Dynamic.Amp_B, Dynamic.Amp_C, Dynamic.Amp_D,
      Dynamic.Amp_E, Dynamic.Amp_F] := rfl

/-- Evaluation of the amplifier selector on the catalog of the source: Amp-A is
taken first, Amp-E replaces it, nothing else scores lower. -/
theorem selectAmplifier_amplifiers_eval (uninit : Dynamic.Amplifier) :
    Dynamic.selectAmplifier uninit Dynamic.amplifiers = Dynamic.Amp_E := by
  obtain ⟨sA, sB, sC, sD, sE, sF⟩ := score_amplifiers
  have stepA : Dynamic.selectAmplifierStep (uninit, DBL_MAX) Dynamic.Amp_A =
      (Dynamic.Amp_A, 55429 / 13600) := by
    unfold Dynamic.selectAmplifierStep
    rw [sA, if_pos (lt_trans (by norm_num) thousand_lt_DBL_MAX)]
  have stepB : Dynamic.selectAmplifierStep (Dynamic.Amp_A, 55429 / 13600) Dynamic.Amp_B =
      (Dynamic.Amp_A, 55429 / 13600) := by
    unfold Dynamic.selectAmplifierStep
    rw [sB, if_neg (by norm_num)]
  have stepC : Dynamic.selectAmplifierStep (Dynamic.Amp_A, 55429 / 13600) Dynamic.Amp_C =
      (Dynamic.Amp_A, 55429 / 13600) := by
    unfold Dynamic.selectAmplifierStep
    rw [sC, if_neg (by norm_num)]
  have stepD : Dynamic.selectAmplifierStep (Dynamic.Amp_A, 55429 / 13600) Dynamic.Amp_D =
      (Dynamic.Amp_A, 55429 / 13600) := by
    unfold Dynamic.selectAmplifierStep
    rw [sD, if_neg (by norm_num)]
  have stepE : Dynamic.selectAmplifierStep (Dynamic.Amp_A, 55429 / 13600) Dynamic.Amp_E =
      (Dynamic.Amp_E, 2149 / 600) := by
    unfold Dynamic.selectAmplifierStep
    rw [sE, if_pos (by norm_num)]
  have stepF : Dynamic.selectAmplifierStep (Dynamic.Amp_E, 2149 / 600) Dynamic.Amp_F =
      (Dynamic.Amp_E, 2149 / 600) := by
    unfold Dynamic.selectAmplifierStep
    rw [sF, if_neg (by norm_num)]
  rw [selectAmplifier_eq_foldl, amplifiers_eq, List.foldl_cons, stepA, List.foldl_cons, stepB, List.foldl_cons, stepC,
    List.foldl_cons, stepD, List.foldl_cons, stepE, List.foldl_cons, stepF, List.foldl_nil]

/-! ## Scenarios -/

/-- C10 (Scenario 1): in the fixed-amplifier variant the call
`selectSwitch(10.0, 14.0, 13.0)` made by `main` on the catalog of the source
returns SW-C, whose cost is 13.0; SW-C satisfies the three constraints and is
the lowest-cost switch among the catalog switches that satisfy them (every
other one costs strictly more). -/
theorem scenario1_selects_SW_C :
    INPUT_POWER = 10 ∧ Fixed.ampE.gain1GHz_min = 14 ∧ Fixed.ampE.gain20GHz_min = 13 ∧
      selectSwitch switches 10 14 13 = SW_C ∧
      (selectSwitch switches 10 14 13).name = "SW-C" ∧
      (selectSwitch switches 10 14 13).cost = 13 ∧
      SW_C ∈ switches ∧ Qualifies 10 14 13 SW_C ∧
      ∀ t ∈ switches, Qualifies 10 14 13 t →
        SW_C.cost ≤ t.cost ∧ (t ≠ SW_C → SW_C.cost < t.cost) := by
  refine ⟨INPUT_POWER_eq, by norm_num [Fixed.ampE], by norm_num [Fixed.ampE],
    selectSwitch_switches_eval, ?_, ?_, by simp [switches],
    by norm_num [Qualifies, SW_C], ?_⟩
  · rw [selectSwitch_switches_eval]; rfl
  · rw [selectSwitch_switches_eval]; norm_num [SW_C]
  · intro t ht _
    simp only [switches, List.mem_cons, List.mem_singleton, List.mem_nil_iff, or_false] at ht
    rcases ht with rfl | rfl | rfl | rfl | rfl | rfl
    · exact ⟨by norm_num [SW_A, SW_C], fun _ => by norm_num [SW_A, SW_C]⟩
    · exact ⟨by norm_num [SW_B, SW_C], fun _ => by norm_num [SW_B, SW_C]⟩
    · exact ⟨le_refl _, fun h => absurd rfl h⟩
    · exact ⟨by norm_num [SW_D, SW_C], fun _ => by norm_num [SW_D, SW_C]⟩
    · exact ⟨by norm_num [SW_E, SW_C], fun _ => by norm_num [SW_E, SW_C]⟩
    · exact ⟨by norm_num [SW_F, SW_C], fun _ => by norm_num [SW_F, SW_C]⟩

/-! ## Runs of the two programs -/

theorem Fixed_main_of_found (amp : Fixed.Amplifier) (catalog : List Switch) (sw : Switch)
    (hsel : selectSwitch catalog INPUT_POWER amp.gain1GHz_min amp.gain20GHz_min = sw)
    (hname : sw.name ≠ "") :
    Fixed.main amp catalog = Outcome.completed (evaluateChain none amp.gain1GHz_min
      amp.gain20GHz_min amp.gain1GHz_max amp.gain20GHz_max amp.p1dB sw) := by
  unfold Fixed.main
  simp only
  rw [hsel, if_neg hname]

theorem Fixed_main_of_notFound (amp : Fixed.Amplifier) (catalog : List Switch)
    (hname : (selectSwitch catalog INPUT_POWER amp.gain1GHz_min amp.gain20GHz_min).name = "") :
    Fixed.main amp catalog = Outcome.noSuitableSwitch := by
  unfold Fixed.main
  simp only
  rw [if_pos hname]

theorem Dynamic_main_of_found (uninit : Dynamic.Amplifier) (amps : List Dynamic.Amplifier)
    (catalog : List Switch) (amp : Dynamic.Amplifier) (sw : Switch)
    (hamp : Dynamic.selectAmplifier uninit amps = amp)
    (hsel : selectSwitch catalog INPUT_POWER amp.gain1GHz_min amp.gain20GHz_min = sw)
    (hname : sw.name ≠ "") :
    Dynamic.main uninit amps catalog = Outcome.completed (evaluateChain
      (some (amp.name, amp.cost)) amp.gain1GHz_min amp.gain20GHz_min amp.gain1GHz_max
      amp.gain20GHz_max amp.p1dB sw) := by
  unfold Dynamic.main
  simp only
  rw [hamp, hsel, if_neg hname]

theorem Dynamic_main_of_notFound (uninit : Dynamic.Amplifier)
    (amps : List Dynamic.Amplifier) (catalog : List Switch)
    (hname : (selectSwitch catalog INPUT_POWER
      (Dynamic.selectAmplifier uninit amps).gain1GHz_min
      (Dynamic.selectAmplifier uninit amps).gain20GHz_min).name = "") :
    Dynamic.main uninit amps catalog = Outcome.noSuitableSwitch := by
  unfold Dynamic.main
  simp only
  rw [if_pos hname]

/-- The four metrics of a report, as the expressions of `main`. -/
theorem evaluateChain_metrics (label : Option (String × ℚ))
    (g1min g20min g1max g20max p1dB : ℚ) (sw : Switch) :
    (evaluateChain label g1min g20min g1max g20max p1dB sw).outputPower1GHz_maxPower =
        INPUT_POWER + (g1min + sw.gainOn1GHz + FIXED_ATTENUATOR_GAIN +
          POWER_DIVIDER_GAIN_1GHz - calculateAttenuation INPUT_POWER p1dB g1min) ∧
      (evaluateChain label g1min g20min g1max g20max p1dB sw).outputPower20GHz_maxPower =
        INPUT_POWER + (g20min + sw.gainOn20GHz + FIXED_ATTENUATOR_GAIN +
          POWER_DIVIDER_GAIN_20GHz - calculateAttenuation INPUT_POWER p1dB g20min) ∧
      (evaluateChain label g1min g20min g1max g20max p1dB sw).leakage1GHz =
        INPUT_POWER + g1max + sw.gainOff1GHz + FIXED_ATTENUATOR_GAIN +
          POWER_DIVIDER_GAIN_1GHz ∧
      (evaluateChain label g1min g20min g1max g20max p1dB sw).leakage20GHz =
        INPUT_POWER + g20max + sw.gainOff20GHz + FIXED_ATTENUATOR_GAIN +
          POWER_DIVIDER_GAIN_20GHz :=
  ⟨rfl, rfl, rfl, rfl⟩

/-- The run of `main.cpp` on its own globals completes with the report of
Amp-E and SW-C. -/
theorem Fixed_main_run :
    Fixed.main Fixed.ampE switches = Outcome.completed (evaluateChain none
      Fixed.ampE.gain1GHz_min Fixed.ampE.gain20GHz_min Fixed.ampE.gain1GHz_max
      Fixed.ampE.gain20GHz_max Fixed.ampE.p1dB SW_C) :=
  Fixed_main_of_found Fixed.ampE switches SW_C selectSwitch_ampE_eval (by decide)

/-- The four metrics printed by `main.cpp` on its own globals. -/
theorem Fixed_run_metrics :
    (evaluateChain none Fixed.ampE.gain1GHz_min Fixed.ampE.gain20GHz_min
        Fixed.ampE.gain1GHz_max Fixed.ampE.gain20GHz_max Fixed.ampE.p1dB
        SW_C).outputPower1GHz_maxPower = 117 / 10 ∧
      (evaluateChain none Fixed.ampE.gain1GHz_min Fixed.ampE.gain20GHz_min
        Fixed.ampE.gain1GHz_max Fixed.ampE.gain20GHz_max Fixed.ampE.p1dB
        SW_C).outputPower20GHz_maxPower = 102 / 10 ∧
      (evaluateChain none Fixed.ampE.gain1GHz_min Fixed.ampE.gain20GHz_min
        Fixed.ampE.gain1GHz_max Fixed.ampE.gain20GHz_max Fixed.ampE.p1dB
        SW_C).leakage1GHz = -395 / 10 ∧
      (evaluateChain none Fixed.ampE.gain1GHz_min Fixed.ampE.gain20GHz_min
        Fixed.ampE.gain1GHz_max Fixed.ampE.gain20GHz_max Fixed.ampE.p1dB
        SW_C).leakage20GHz = -17 := by
  obtain ⟨h1, h2, h3, h4⟩ := evaluateChain_metrics none Fixed.ampE.gain1GHz_min
    Fixed.ampE.gain20GHz_min Fixed.ampE.gain1GHz_max Fixed.ampE.gain20GHz_max
    Fixed.ampE.p1dB SW_C
  rw [h1, h2, h3, h4]
  refine ⟨?_, ?_, ?_, ?_⟩ <;>
    norm_num [calculateAttenuation, std_max, Fixed.ampE, SW_C, INPUT_POWER,
      FIXED_ATTENUATOR_GAIN, POWER_DIVIDER_GAIN_1GHz, POWER_DIVIDER_GAIN_20GHz]

/-- With Amp-E and SW-C the pass condition of the specification fails. -/
theorem Fixed_run_not_SpecPass :
    ¬ SpecPass Fixed.ampE.gain1GHz_min Fixed.ampE.gain20GHz_min Fixed.ampE.gain1GHz_max
      Fixed.ampE.gain20GHz_max Fixed.ampE.p1dB SW_C := by
  intro h
  have h1 := h.1
  norm_num [calculateAttenuation, std_max, Fixed.ampE, SW_C, INPUT_POWER,
    FIXED_ATTENUATOR_GAIN, POWER_DIVIDER_GAIN_1GHz] at h1

/-- C11, counterexample: the run of `main.cpp` on its own globals (Amp-E,
inputPower 10.0, SW-C selected) completes with a report whose four metrics do
not satisfy the four threshold comparisons. -/
theorem scenario2_thresholds_not_met :
    ∃ r, Fixed.main Fixed.ampE switches = Outcome.completed r ∧
      ¬ (r.outputPower1GHz_maxPower ≥ 19 ∧ r.outputPower20GHz_maxPower ≥ 16 ∧
        r.leakage1GHz ≤ -145 ∧ r.leakage20GHz ≤ -137) := by
  refine ⟨_, Fixed_main_run, ?_⟩
  rintro ⟨h1, -, -, -⟩
  rw [Fixed_run_metrics.1] at h1
  norm_num at h1

/-- C11, amended (Scenario 2): in the fixed-amplifier variant (Amp-E,
inputPower 10.0, SW-C selected) the computed values are 11.7 and 10.2 dBm
output at 1 GHz and 20 GHz and -39.5 and -17.0 dBm leakage; each of the four
threshold comparisons fails, and the boolean pass result is false, which
matches the recomputation from the formulas of the specification. -/
theorem scenario2_computed_values :
    ∃ r, Fixed.main Fixed.ampE switches = Outcome.completed r ∧
      r.selectedSwitchName = "SW-C" ∧
      r.outputPower1GHz_maxPower = 117 / 10 ∧ r.outputPower20GHz_maxPower = 102 / 10 ∧
      r.leakage1GHz = -395 / 10 ∧ r.leakage20GHz = -17 ∧
      r.outputPower1GHz_maxPower < 19 ∧ r.outputPower20GHz_maxPower < 16 ∧
      r.leakage1GHz > -145 ∧ r.leakage20GHz > -137 ∧
      r.meetsSpecifications = false ∧
      (r.meetsSpecifications = true ↔
        SpecPass Fixed.ampE.gain1GHz_min Fixed.ampE.gain20GHz_min Fixed.ampE.gain1GHz_max
          Fixed.ampE.gain20GHz_max Fixed.ampE.p1dB SW_C) := by
  obtain ⟨h1, h2, h3, h4⟩ := Fixed_run_metrics
  refine ⟨_, Fixed_main_run, rfl, h1, h2, h3, h4, ?_, ?_, ?_, ?_, ?_,
    evaluateChain_meets_iff _ _ _ _ _ _ _⟩
  · rw [h1]; norm_num
  · rw [h2]; norm_num
  · rw [h3]; norm_num
  · rw [h4]; norm_num
  · rw [Bool.eq_false_iff]
    intro hm
    exact Fixed_run_not_SpecPass ((evaluateChain_meets_iff _ _ _ _ _ _ _).mp hm)

/-! ## Amplifier scoring: scenarios -/

/-- C12 (Scenario 3): with the catalog and the weights 0.5, 0.3, 0.2 of the
dynamic variant, the score of Amp-F (32036/4785, about 6.70) is greater than
the score of Amp-E (2149/600, about 3.58). -/
theorem scenario3_score_F_gt_score_E :
    Dynamic.score Dynamic.Amp_F > Dynamic.score Dynamic.Amp_E ∧
      Dynamic.score Dynamic.Amp_F = 32036 / 4785 ∧
      Dynamic.score Dynamic.Amp_E = 2149 / 600 ∧
      Dynamic.Amp_E ∈ Dynamic.amplifiers ∧ Dynamic.Amp_F ∈ Dynamic.amplifiers := by
  obtain ⟨-, -, -, -, sE, sF⟩ := score_amplifiers
  refine ⟨?_, sF, sE, by simp [Dynamic.amplifiers], by simp [Dynamic.amplifiers]⟩
  rw [sE, sF]; norm_num

/-- C13, counterexample: Amp-B is a catalog amplifier with better power
handling than Amp-F (p1dB 26.0 against 11.0), yet the score of Amp-F is not
greater than the score of Amp-B. -/
theorem score_F_not_gt_score_B :
    Dynamic.Amp_B ∈ Dynamic.amplifiers ∧ Dynamic.Amp_B.p1dB > Dynamic.Amp_F.p1dB ∧
      ¬ (Dynamic.score Dynamic.Amp_F > Dynamic.score Dynamic.Amp_B) := by
  obtain ⟨-, sB, -, -, -, sF⟩ := score_amplifiers
  refine ⟨by simp [Dynamic.amplifiers], by norm_num [Dynamic.Amp_B, Dynamic.Amp_F], ?_⟩
  rw [sB, sF]; norm_num

/-- C13, amended: among the catalog amplifiers with better power handling than
Amp-F (p1dB above 11.0), Amp-F scores strictly above every one other than
Amp-B and Amp-D, and strictly below Amp-B and Amp-D. -/
theorem score_F_against_better_power_handling (A : Dynamic.Amplifier)
    (hA : A ∈ Dynamic.amplifiers) (hp : A.p1dB > Dynamic.Amp_F.p1dB) :
    (A ≠ Dynamic.Amp_B → A ≠ Dynamic.Amp_D →
        Dynamic.score Dynamic.Amp_F > Dynamic.score A) ∧
      ((A = Dynamic.Amp_B ∨ A = Dynamic.Amp_D) →
        Dynamic.score Dynamic.Amp_F < Dynamic.score A) := by
  obtain ⟨sA, sB, sC, sD, sE, sF⟩ := score_amplifiers
  simp only [Dynamic.amplifiers, List.mem_cons, List.mem_singleton, List.mem_nil_iff,
    or_false] at hA
  rcases hA with rfl | rfl | rfl | rfl | rfl | rfl
  · exact ⟨fun _ _ => by rw [sA, sF]; norm_num, fun h => absurd h (by decide)⟩
  · exact ⟨fun h _ => absurd rfl h, fun _ => by rw [sB, sF]; norm_num⟩
  · exact ⟨fun _ _ => by rw [sC, sF]; norm_num, fun h => absurd h (by decide)⟩
  · exact ⟨fun _ h => absurd rfl h, fun _ => by rw [sD, sF]; norm_num⟩
  · exact ⟨fun _ _ => by rw [sE, sF]; norm_num, fun h => absurd h (by decide)⟩
  · exact absurd hp (lt_irrefl _)

/-- Witness for C13 (amended): Amp-E has p1dB 20.0 and is neither Amp-B nor
Amp-D. -/
theorem score_F_against_better_power_handling_witness :
    Dynamic.Amp_E ∈ Dynamic.amplifiers ∧ Dynamic.Amp_E.p1dB > Dynamic.Amp_F.p1dB ∧
      ((Dynamic.Amp_E ≠ Dynamic.Amp_B → Dynamic.Amp_E ≠ Dynamic.Amp_D →
          Dynamic.score Dynamic.Amp_F > Dynamic.score Dynamic.Amp_E) ∧
        ((Dynamic.Amp_E = Dynamic.Amp_B ∨ Dynamic.Amp_E = Dynamic.Amp_D) →
          Dynamic.score Dynamic.Amp_F < Dynamic.score Dynamic.Amp_E)) :=
  have hmem : Dynamic.Amp_E ∈ Dynamic.amplifiers := by simp [Dynamic.amplifiers]
  have hp : Dynamic.Amp_E.p1dB > Dynamic.Amp_F.p1dB := by
    norm_num [Dynamic.Amp_E, Dynamic.Amp_F]
  ⟨hmem, hp, score_F_against_better_power_handling Dynamic.Amp_E hmem hp⟩

/-- The call of `selectSwitch` made by `main` in `signalDistributor.cpp`, once
Amp-E has been selected, returns SW-C. -/
theorem selectSwitch_Amp_E_eval :
    selectSwitch switches INPUT_POWER Dynamic.Amp_E.gain1GHz_min
      Dynamic.Amp_E.gain20GHz_min = SW_C := by
  have h1 : Dynamic.Amp_E.gain1GHz_min = 14 := by norm_num [Dynamic.Amp_E]
  have h2 : Dynamic.Amp_E.gain20GHz_min = 13 := by norm_num [Dynamic.Amp_E]
  rw [INPUT_POWER_eq, h1, h2]
  exact selectSwitch_switches_eval

/-- The run of `signalDistributor.cpp` on its own globals completes with the
report of Amp-E and SW-C, whatever the uninitialised local holds. -/
theorem Dynamic_main_run (uninit : Dynamic.Amplifier) :
    Dynamic.main uninit Dynamic.amplifiers switches = Outcome.completed (evaluateChain
      (some (Dynamic.Amp_E.name, Dynamic.Amp_E.cost)) Dynamic.Amp_E.gain1GHz_min
      Dynamic.Amp_E.gain20GHz_min Dynamic.Amp_E.gain1GHz_max Dynamic.Amp_E.gain20GHz_max
      Dynamic.Amp_E.p1dB SW_C) :=
  Dynamic_main_of_found uninit Dynamic.amplifiers switches Dynamic.Amp_E SW_C
    (selectAmplifier_amplifiers_eval uninit) selectSwitch_Amp_E_eval (by decide)

theorem selectSwitch_nil (ip g1 g20 : ℚ) : selectSwitch [] ip g1 g20 = sentinelSwitch := rfl

theorem sentinelSwitch_name : sentinelSwitch.name = "" := rfl

/-- The four metrics printed by `signalDistributor.cpp` on its own globals. -/
theorem Dynamic_run_metrics :
    (evaluateChain (some (Dynamic.Amp_E.name, Dynamic.Amp_E.cost))
        Dynamic.Amp_E.gain1GHz_min Dynamic.Amp_E.gain20GHz_min Dynamic.Amp_E.gain1GHz_max
        Dynamic.Amp_E.gain20GHz_max Dynamic.Amp_E.p1dB
        SW_C).outputPower1GHz_maxPower = 117 / 10 ∧
      (evaluateChain (some (Dynamic.Amp_E.name, Dynamic.Amp_E.cost))
        Dynamic.Amp_E.gain1GHz_min Dynamic.Amp_E.gain20GHz_min Dynamic.Amp_E.gain1GHz_max
        Dynamic.Amp_E.gain20GHz_max Dynamic.Amp_E.p1dB
        SW_C).outputPower20GHz_maxPower = 102 / 10 ∧
      (evaluateChain (some (Dynamic.Amp_E.name, Dynamic.Amp_E.cost))
        Dynamic.Amp_E.gain1GHz_min Dynamic.Amp_E.gain20GHz_min Dynamic.Amp_E.gain1GHz_max
        Dynamic.Amp_E.gain20GHz_max Dynamic.Amp_E.p1dB
        SW_C).leakage1GHz = -395 / 10 ∧
      (evaluateChain (some (Dynamic.Amp_E.name, Dynamic.Amp_E.cost))
        Dynamic.Amp_E.gain1GHz_min Dynamic.Amp_E.gain20GHz_min Dynamic.Amp_E.gain1GHz_max
        Dynamic.Amp_E.gain20GHz_max Dynamic.Amp_E.p1dB
        SW_C).leakage20GHz = -155 / 10 := by
  obtain ⟨h1, h2, h3, h4⟩ := evaluateChain_metrics
    (some (Dynamic.Amp_E.name, Dynamic.Amp_E.cost)) Dynamic.Amp_E.gain1GHz_min
    Dynamic.Amp_E.gain20GHz_min Dynamic.Amp_E.gain1GHz_max Dynamic.Amp_E.gain20GHz_max
    Dynamic.Amp_E.p1dB SW_C
  rw [h1, h2, h3, h4]
  refine ⟨?_, ?_, ?_, ?_⟩ <;>
    norm_num [calculateAttenuation, std_max, Dynamic.Amp_E, SW_C, INPUT_POWER,
      FIXED_ATTENUATOR_GAIN, POWER_DIVIDER_GAIN_1GHz, POWER_DIVIDER_GAIN_20GHz]

/-- A report whose output power at 1 GHz is below 19 carries the failure
flag. -/
theorem evaluateChain_fails_of_output1_lt (label : Option (String × ℚ))
    (g1min g20min g1max g20max p1dB : ℚ) (sw : Switch)
    (hlt : (evaluateChain label g1min g20min g1max g20max p1dB sw).outputPower1GHz_maxPower
      < 19) :
    (evaluateChain label g1min g20min g1max g20max p1dB sw).meetsSpecifications = false := by
  rw [Bool.eq_false_iff]
  intro hm
  have h1 := ((evaluateChain_meets_iff _ _ _ _ _ _ _).mp hm).1
  rw [(evaluateChain_metrics label g1min g20min g1max g20max p1dB sw).1] at hlt
  linarith

/-! ## Error path and exit status: claims -/

/-- C14: over a catalog with zero switches `selectSwitch` yields the NotFound
sentinel (empty name) for all inputs, never a catalog switch, and both programs
turn it into the "No suitable switch found" outcome with exit status 1. -/
theorem selectSwitch_empty_catalog (inputPower ampGain1GHz ampGain20GHz : ℚ) :
    selectSwitch [] inputPower ampGain1GHz ampGain20GHz = sentinelSwitch ∧
      (selectSwitch [] inputPower ampGain1GHz ampGain20GHz).name = "" ∧
      (∀ amp : Fixed.Amplifier,
        Fixed.main amp [] = Outcome.noSuitableSwitch ∧ exitStatus (Fixed.main amp []) = 1) ∧
      (∀ (uninit : Dynamic.Amplifier) (amps : List Dynamic.Amplifier),
        Dynamic.main uninit amps [] = Outcome.noSuitableSwitch ∧
          exitStatus (Dynamic.main uninit amps []) = 1) := by
  refine ⟨selectSwitch_nil _ _ _, ?_, ?_, ?_⟩
  · rw [selectSwitch_nil]; rfl
  · intro amp
    have h : Fixed.main amp [] = Outcome.noSuitableSwitch :=
      Fixed_main_of_notFound amp [] (by rw [selectSwitch_nil]; rfl)
    rw [h]
    exact ⟨rfl, rfl⟩
  · intro uninit amps
    have h : Dynamic.main uninit amps [] = Outcome.noSuitableSwitch :=
      Dynamic_main_of_notFound uninit amps [] (by rw [selectSwitch_nil]; rfl)
    rw [h]
    exact ⟨rfl, rfl⟩

/-! ## Catalog invariant: claims -/

/-- C16: every amplifier of the dynamic catalog has min ≤ typical ≤ max at
1 GHz and at 20 GHz, and Amp-E of the fixed variant has min ≤ max at both
frequencies. -/
theorem catalog_gain_bounds_ordered :
    (∀ a ∈ Dynamic.amplifiers,
        a.gain1GHz_min ≤ a.gain1GHz_typ ∧ a.gain1GHz_typ ≤ a.gain1GHz_max ∧
        a.gain20GHz_min ≤ a.gain20GHz_typ ∧ a.gain20GHz_typ ≤ a.gain20GHz_max) ∧
      Fixed.ampE.gain1GHz_min ≤ Fixed.ampE.gain1GHz_max ∧
      Fixed.ampE.gain20GHz_min ≤ Fixed.ampE.gain20GHz_max := by
  refine ⟨?_, by norm_num [Fixed.ampE], by norm_num [Fixed.ampE]⟩
  intro a ha
  simp only [Dynamic.amplifiers, List.mem_cons, List.mem_singleton, List.mem_nil_iff,
    or_false] at ha
  rcases ha with rfl | rfl | rfl | rfl | rfl | rfl <;>
    norm_num [Dynamic.Amp_A, Dynamic.Amp_B, Dynamic.Amp_C, Dynamic.Amp_D, Dynamic.Amp_E,
      Dynamic.Amp_F]

/-! ## Cascade: closed form in exact arithmetic -/

/-- The padded amplifier output `inputPower + gain - attenuation` is the
smaller of `inputPower + gain` and the ceiling. -/
theorem padded_level_eq_min (inputPower ceiling gain : ℚ) :
    inputPower + gain - calculateAttenuation inputPower ceiling gain =
      min (inputPower + gain) ceiling := by
  unfold calculateAttenuation std_max
  simp only
  by_cases hpos : 0 < inputPower + gain - ceiling
  · rw [if_pos hpos, min_eq_right (by linarith)]
    ring
  · rw [if_neg hpos, min_eq_left (by linarith [not_lt.mp hpos])]
    ring

/-- Closed form of the two output powers of a report and independence of its
leakages from the compression limit. -/
theorem evaluateChain_capped (label : Option (String × ℚ))
    (g1min g20min g1max g20max p1dB : ℚ) (sw : Switch) :
    ((evaluateChain label g1min g20min g1max g20max p1dB sw).outputPower1GHz_maxPower =
        min (INPUT_POWER + g1min) p1dB + sw.gainOn1GHz + FIXED_ATTENUATOR_GAIN +
          POWER_DIVIDER_GAIN_1GHz ∧
      (evaluateChain label g1min g20min g1max g20max p1dB sw).outputPower20GHz_maxPower =
        min (INPUT_POWER + g20min) p1dB + sw.gainOn20GHz + FIXED_ATTENUATOR_GAIN +
          POWER_DIVIDER_GAIN_20GHz) ∧
      ((evaluateChain label g1min g20min g1max g20max p1dB sw).outputPower1GHz_maxPower ≤
        p1dB + sw.gainOn1GHz + FIXED_ATTENUATOR_GAIN + POWER_DIVIDER_GAIN_1GHz ∧
      (evaluateChain label g1min g20min g1max g20max p1dB sw).outputPower20GHz_maxPower ≤
        p1dB + sw.gainOn20GHz + FIXED_ATTENUATOR_GAIN + POWER_DIVIDER_GAIN_20GHz) ∧
      ∀ otherP1dB : ℚ,
        (evaluateChain label g1min g20min g1max g20max otherP1dB sw).leakage1GHz =
          (evaluateChain label g1min g20min g1max g20max p1dB sw).leakage1GHz ∧
        (evaluateChain label g1min g20min g1max g20max otherP1dB sw).leakage20GHz =
          (evaluateChain label g1min g20min g1max g20max p1dB sw).leakage20GHz := by
  obtain ⟨h1, h2, -, -⟩ := evaluateChain_metrics label g1min g20min g1max g20max p1dB sw
  have e1 := padded_level_eq_min INPUT_POWER p1dB g1min
  have e2 := padded_level_eq_min INPUT_POWER p1dB g20min
  have m1 := min_le_right (INPUT_POWER + g1min) p1dB
  have m2 := min_le_right (INPUT_POWER + g20min) p1dB
  rw [h1, h2]
  refine ⟨⟨by linarith, by linarith⟩, ⟨by linarith, by linarith⟩, fun _ => ⟨rfl, rfl⟩⟩

/-! ## The catalogs of the source against the thresholds: claims -/

/-- Every switch of the source catalog loses at least 0.1 dB when on at 1 GHz
and isolates by at most 65 dB when off at 1 GHz. -/
theorem switches_gain_bounds :
    ∀ s ∈ switches, s.gainOn1GHz ≤ -1 / 10 ∧ -65 ≤ s.gainOff1GHz := by
  intro s hs
  simp only [switches, List.mem_cons, List.mem_singleton, List.mem_nil_iff, or_false] at hs
  rcases hs with rfl | rfl | rfl | rfl | rfl | rfl <;>
    norm_num [SW_A, SW_B, SW_C, SW_D, SW_E, SW_F]

/-- For every amplifier of the dynamic catalog the capped output at 1 GHz is at
most 22 dBm and the maximum gain at 1 GHz is at least 12 dB. -/
theorem amplifiers_level_bounds :
    ∀ a ∈ Dynamic.amplifiers,
      min (INPUT_POWER + a.gain1GHz_min) a.p1dB ≤ 22 ∧ 12 ≤ a.gain1GHz_max := by
  intro a ha
  simp only [Dynamic.amplifiers, List.mem_cons, List.mem_singleton, List.mem_nil_iff,
    or_false] at ha
  rw [min_le_iff, INPUT_POWER_eq]
  rcases ha with rfl | rfl | rfl | rfl | rfl | rfl <;>
    norm_num [Dynamic.Amp_A, Dynamic.Amp_B, Dynamic.Amp_C, Dynamic.Amp_D, Dynamic.Amp_E,
      Dynamic.Amp_F]

/-- A chain whose capped amplifier output is at most 22 dBm, whose maximum
gain is at least 12 dB and whose switch obeys the bounds of the source catalog
misses the output threshold and the leakage threshold at 1 GHz. -/
theorem evaluateChain_fails_of_bounds (label : Option (String × ℚ))
    (g1min g20min g1max g20max p1dB : ℚ) (sw : Switch)
    (hcap : min (INPUT_POWER + g1min) p1dB ≤ 22) (hmax : 12 ≤ g1max)
    (hon : sw.gainOn1GHz ≤ -1 / 10) (hoff : -65 ≤ sw.gainOff1GHz) :
    (evaluateChain label g1min g20min g1max g20max p1dB sw).outputPower1GHz_maxPower < 19 ∧
      (evaluateChain label g1min g20min g1max g20max p1dB sw).leakage1GHz > -145 ∧
      (evaluateChain label g1min g20min g1max g20max p1dB sw).meetsSpecifications = false := by
  have hout :
      (evaluateChain label g1min g20min g1max g20max p1dB sw).outputPower1GHz_maxPower
        < 19 := by
    rw [(evaluateChain_capped label g1min g20min g1max g20max p1dB sw).1.1,
      FIXED_ATTENUATOR_GAIN_eq, POWER_DIVIDER_GAIN_1GHz_eq]
    linarith
  refine ⟨hout, ?_, evaluateChain_fails_of_output1_lt _ _ _ _ _ _ _ hout⟩
  rw [(evaluateChain_metrics label g1min g20min g1max g20max p1dB sw).2.2.1,
    INPUT_POWER_eq, FIXED_ATTENUATOR_GAIN_eq, POWER_DIVIDER_GAIN_1GHz_eq]
  linarith

/-- C19: with the constants and catalogs of the source, every pair of a
catalog amplifier (the six of the dynamic variant, or Amp-E of the fixed
variant) and a catalog switch gives an output power at 1 GHz below 19.0 and a
leakage at 1 GHz above -145.0, so the pass flag is false; in particular both
programs, run on their own globals, report "System failed to meet
specifications". -/
theorem no_catalog_pair_meets_specifications :
    (∀ a ∈ Dynamic.amplifiers, ∀ s ∈ switches,
        (evaluateChain (some (a.name, a.cost)) a.gain1GHz_min a.gain20GHz_min
          a.gain1GHz_max a.gain20GHz_max a.p1dB s).outputPower1GHz_maxPower < 19 ∧
        (evaluateChain (some (a.name, a.cost)) a.gain1GHz_min a.gain20GHz_min
          a.gain1GHz_max a.gain20GHz_max a.p1dB s).leakage1GHz > -145 ∧
        (evaluateChain (some (a.name, a.cost)) a.gain1GHz_min a.gain20GHz_min
          a.gain1GHz_max a.gain20GHz_max a.p1dB s).meetsSpecifications = false) ∧
      (∀ s ∈ switches,
        (evaluateChain none Fixed.ampE.gain1GHz_min Fixed.ampE.gain20GHz_min
          Fixed.ampE.gain1GHz_max Fixed.ampE.gain20GHz_max Fixed.ampE.p1dB
          s).outputPower1GHz_maxPower < 19 ∧
        (evaluateChain none Fixed.ampE.gain1GHz_min Fixed.ampE.gain20GHz_min
          Fixed.ampE.gain1GHz_max Fixed.ampE.gain20GHz_max Fixed.ampE.p1dB
          s).leakage1GHz > -145 ∧
        (evaluateChain none Fixed.ampE.gain1GHz_min Fixed.ampE.gain20GHz_min
          Fixed.ampE.gain1GHz_max Fixed.ampE.gain20GHz_max Fixed.ampE.p1dB
          s).meetsSpecifications = false) ∧
      (∃ r, Fixed.main Fixed.ampE switches = Outcome.completed r ∧
        r.meetsSpecifications = false) ∧
      (∀ uninit : Dynamic.Amplifier,
        ∃ r, Dynamic.main uninit Dynamic.amplifiers switches = Outcome.completed r ∧
          r.meetsSpecifications = false) := by
  have hfixed : min (INPUT_POWER + Fixed.ampE.gain1GHz_min) Fixed.ampE.p1dB ≤ 22 ∧
      12 ≤ Fixed.ampE.gain1GHz_max := by
    rw [min_le_iff, INPUT_POWER_eq]
    norm_num [Fixed.ampE]
  have hC : SW_C ∈ switches := by simp [switches]
  have hE : Dynamic.Amp_E ∈ Dynamic.amplifiers := by simp [Dynamic.amplifiers]
  refine ⟨?_, ?_, ?_, ?_⟩
  · intro a ha s hs
    exact evaluateChain_fails_of_bounds _ _ _ _ _ _ _ (amplifiers_level_bounds a ha).1
      (amplifiers_level_bounds a ha).2 (switches_gain_bounds s hs).1
      (switches_gain_bounds s hs).2
  · intro s hs
    exact evaluateChain_fails_of_bounds _ _ _ _ _ _ _ hfixed.1 hfixed.2
      (switches_gain_bounds s hs).1 (switches_gain_bounds s hs).2
  · exact ⟨_, Fixed_main_run,
      (evaluateChain_fails_of_bounds _ _ _ _ _ _ _ hfixed.1 hfixed.2
        (switches_gain_bounds SW_C hC).1 (switches_gain_bounds SW_C hC).2).2.2⟩
  · intro uninit
    exact ⟨_, Dynamic_main_run uninit,
      (evaluateChain_fails_of_bounds _ _ _ _ _ _ _
        (amplifiers_level_bounds Dynamic.Amp_E hE).1
        (amplifiers_level_bounds Dynamic.Amp_E hE).2
        (switches_gain_bounds SW_C hC).1 (switches_gain_bounds SW_C hC).2).2.2⟩

/-! ## Comparison of the two variants: claims -/

/-- C20: on the catalogs of the source the dynamic variant selects Amp-E and
then SW-C, the components of the fixed variant; the two programs report equal
max-power outputs at 1 GHz and 20 GHz and equal leakage at 1 GHz, and different
leakage at 20 GHz (-17.0 against -15.5), the `gain20GHz_max` of Amp-E being
16.0 in `main.cpp` and 17.5 in `signalDistributor.cpp`. -/
theorem variants_agree_except_leakage20 (uninit : Dynamic.Amplifier) :
    Dynamic.selectAmplifier uninit Dynamic.amplifiers = Dynamic.Amp_E ∧
      Dynamic.Amp_E.name = Fixed.ampE.name ∧
      selectSwitch switches INPUT_POWER Dynamic.Amp_E.gain1GHz_min
        Dynamic.Amp_E.gain20GHz_min = SW_C ∧
      selectSwitch switches INPUT_POWER Fixed.ampE.gain1GHz_min
        Fixed.ampE.gain20GHz_min = SW_C ∧
      Fixed.ampE.gain20GHz_max = 16 ∧ Dynamic.Amp_E.gain20GHz_max = 35 / 2 ∧
      ∃ rf rd, Fixed.main Fixed.ampE switches = Outcome.completed rf ∧
        Dynamic.main uninit Dynamic.amplifiers switches = Outcome.completed rd ∧
        rd.selectedAmplifier = some ("Amp-E", 35 / 2) ∧
        rf.selectedSwitchName = "SW-C" ∧ rd.selectedSwitchName = "SW-C" ∧
        rf.outputPower1GHz_maxPower = rd.outputPower1GHz_maxPower ∧
        rf.outputPower20GHz_maxPower = rd.outputPower20GHz_maxPower ∧
        rf.leakage1GHz = rd.leakage1GHz ∧
        rf.leakage20GHz ≠ rd.leakage20GHz ∧
        rf.leakage20GHz = -17 ∧ rd.leakage20GHz = -31 / 2 := by
  obtain ⟨f1, f2, f3, f4⟩ := Fixed_run_metrics
  obtain ⟨d1, d2, d3, d4⟩ := Dynamic_run_metrics
  refine ⟨selectAmplifier_amplifiers_eval uninit, rfl, selectSwitch_Amp_E_eval,
    selectSwitch_ampE_eval, by norm_num [Fixed.ampE], by norm_num [Dynamic.Amp_E],
    _, _, Fixed_main_run, Dynamic_main_run uninit, ?_, rfl, rfl, ?_, ?_, ?_, ?_, ?_, ?_⟩
  · show some (Dynamic.Amp_E.name, Dynamic.Amp_E.cost) = some ("Amp-E", 35 / 2)
    have hc : Dynamic.Amp_E.cost = 35 / 2 := by norm_num [Dynamic.Amp_E]
    rw [hc]
    rfl
  · rw [f1, d1]
  · rw [f2, d2]
  · rw [f3, d3]
  · rw [f4, d4]; norm_num
  · rw [f4]
  · rw [d4]; norm_num

/-! ## Rounding to binary64: properties -/

namespace IEEE

theorem floor_le_roundHalfEven (x : ℚ) : ⌊x⌋ ≤ roundHalfEven x := by
  unfold roundHalfEven
  split_ifs <;> omega

theorem roundHalfEven_le_floor_add_one (x : ℚ) : roundHalfEven x ≤ ⌊x⌋ + 1 := by
  unfold roundHalfEven
  split_ifs <;> omega

theorem roundHalfEven_intCast (n : ℤ) : roundHalfEven (n : ℚ) = n := by
  unfold roundHalfEven
  rw [Int.floor_intCast, sub_self, if_pos (by norm_num)]

theorem roundHalfEven_le (b : ℤ) (x : ℚ) (h : x ≤ (b : ℚ)) : roundHalfEven x ≤ b := by
  have hf : ⌊x⌋ ≤ b := by
    have h1 : ((⌊x⌋ : ℤ) : ℚ) ≤ (b : ℚ) := le_trans (Int.floor_le x) h
    exact_mod_cast h1
  rcases eq_or_lt_of_le hf with heq | hlt
  · have hx : x = (b : ℚ) := le_antisymm h (heq ▸ Int.floor_le x)
    rw [hx, roundHalfEven_intCast]
  · have h2 := roundHalfEven_le_floor_add_one x
    omega

theorem roundHalfEven_of_near (x : ℚ) (m : ℤ) (h1 : (m : ℚ) - 1 / 2 < x)
    (h2 : x < (m : ℚ) + 1 / 2) : roundHalfEven x = m := by
  have hlo : m - 1 ≤ roundHalfEven x := by
    have : m - 1 ≤ ⌊x⌋ := Int.le_floor.mpr (by push_cast; linarith)
    exact le_trans this (floor_le_roundHalfEven x)
  have hhi : roundHalfEven x ≤ m + 1 := roundHalfEven_le (m + 1) x (by push_cast; linarith)
  unfold roundHalfEven at *
  have hfl : ((⌊x⌋ : ℤ) : ℚ) ≤ x := Int.floor_le x
  have hfl2 : x < ((⌊x⌋ : ℤ) : ℚ) + 1 := Int.lt_floor_add_one x
  have hcases : ⌊x⌋ = m - 1 ∨ ⌊x⌋ = m := by
    have a1 : m - 1 ≤ ⌊x⌋ := Int.le_floor.mpr (by push_cast; linarith)
    have a2 : ⌊x⌋ < m + 1 := Int.floor_lt.mpr (by push_cast; linarith)
    omega
  rcases hcases with hc | hc
  · rw [hc] at hfl hfl2 ⊢
    push_cast at hfl hfl2 ⊢
    rw [if_neg (by linarith), if_pos (by linarith)]
    ring
  · rw [hc] at hfl hfl2 ⊢
    rw [if_pos (by linarith)]

theorem roundHalfEven_of_tie_above (x : ℚ) (m : ℤ) (h : x = (m : ℚ) + 1 / 2)
    (hev : m % 2 = 0) : roundHalfEven x = m := by
  have hfloor : ⌊x⌋ = m := by
    rw [Int.floor_eq_iff]
    constructor <;> linarith
  unfold roundHalfEven
  rw [hfloor, if_neg (by linarith), if_neg (by linarith), if_pos hev]

theorem roundHalfEven_of_tie_below (x : ℚ) (m : ℤ) (h : x = (m : ℚ) - 1 / 2)
    (hev : m % 2 = 0) : roundHalfEven x = m := by
  have hfloor : ⌊x⌋ = m - 1 := by
    rw [Int.floor_eq_iff]
    push_cast
    constructor <;> linarith
  unfold roundHalfEven
  rw [hfloor]
  push_cast
  rw [if_neg (by linarith), if_neg (by linarith), if_neg (by omega)]
  ring

theorem exponent_eq (x : ℚ) (e : ℤ) (hx : 0 < x) (he : -1022 ≤ e)
    (hlo : (2 : ℚ) ^ e ≤ x) (hhi : x < (2 : ℚ) ^ (e + 1)) : exponent x = e := by
  have h1 : e ≤ Int.log 2 x :=
    (Int.zpow_le_iff_le_log (by norm_num) hx).mp (by rw [Nat.cast_ofNat]; exact hlo)
  have h2 : Int.log 2 x < e + 1 :=
    (Int.lt_zpow_iff_log_lt (by norm_num) hx).mp (by rw [Nat.cast_ofNat]; exact hhi)
  unfold exponent
  rw [max_eq_left (by omega)]
  omega

theorem roundNonneg_zero : roundNonneg 0 = 0 := by
  unfold roundNonneg
  rw [zero_div]
  have h : roundHalfEven 0 = 0 := by
    have := roundHalfEven_intCast 0
    rwa [Int.cast_zero] at this
  rw [h, Int.cast_zero, zero_mul]

theorem roundToDouble_zero : roundToDouble 0 = 0 := by
  unfold roundToDouble
  rw [if_neg (lt_irrefl _), roundNonneg_zero]

theorem roundToDouble_neg (x : ℚ) : roundToDouble (-x) = -roundToDouble x := by
  unfold roundToDouble
  rcases lt_trichotomy x 0 with h | h | h
  · rw [if_neg (by linarith), if_pos h, neg_neg]
  · subst h
    simp only [neg_zero, lt_self_iff_false, if_false, roundNonneg_zero]
  · rw [if_pos (by linarith), if_neg (by linarith), neg_neg]


theorem roundNonneg_eq (x r : ℚ) (e m : ℤ) (hx : 0 < x) (he : -1022 ≤ e)
    (hlo : (2 : ℚ) ^ e ≤ x) (hhi : x < (2 : ℚ) ^ (e + 1))
    (hm : roundHalfEven (x / (2 : ℚ) ^ (e - 52)) = m)
    (hr : (m : ℚ) * (2 : ℚ) ^ (e - 52) = r) : roundNonneg x = r := by
  unfold roundNonneg ulp
  rw [exponent_eq x e hx he hlo hhi, hm, hr]

/-- Evaluation of the rounding at a positive argument that is strictly nearer to
`m * 2^(e-52)` than to any other multiple of `2^(e-52)`. -/
theorem roundToDouble_pos_near (x r : ℚ) (e m : ℤ) (hx : 0 < x) (he : -1022 ≤ e)
    (hlo : (2 : ℚ) ^ e ≤ x) (hhi : x < (2 : ℚ) ^ (e + 1))
    (h1 : (m : ℚ) - 1 / 2 < x / (2 : ℚ) ^ (e - 52))
    (h2 : x / (2 : ℚ) ^ (e - 52) < (m : ℚ) + 1 / 2)
    (hr : (m : ℚ) * (2 : ℚ) ^ (e - 52) = r) : roundToDouble x = r := by
  unfold roundToDouble
  rw [if_neg (not_lt.mpr hx.le)]
  exact roundNonneg_eq x r e m hx he hlo hhi (roundHalfEven_of_near _ m h1 h2) hr

theorem roundToDouble_pos_tie_above (x r : ℚ) (e m : ℤ) (hx : 0 < x) (he : -1022 ≤ e)
    (hlo : (2 : ℚ) ^ e ≤ x) (hhi : x < (2 : ℚ) ^ (e + 1))
    (h : x / (2 : ℚ) ^ (e - 52) = (m : ℚ) + 1 / 2) (hev : m % 2 = 0)
    (hr : (m : ℚ) * (2 : ℚ) ^ (e - 52) = r) : roundToDouble x = r := by
  unfold roundToDouble
  rw [if_neg (not_lt.mpr hx.le)]
  exact roundNonneg_eq x r e m hx he hlo hhi (roundHalfEven_of_tie_above _ m h hev) hr

theorem roundToDouble_pos_tie_below (x r : ℚ) (e m : ℤ) (hx : 0 < x) (he : -1022 ≤ e)
    (hlo : (2 : ℚ) ^ e ≤ x) (hhi : x < (2 : ℚ) ^ (e + 1))
    (h : x / (2 : ℚ) ^ (e - 52) = (m : ℚ) - 1 / 2) (hev : m % 2 = 0)
    (hr : (m : ℚ) * (2 : ℚ) ^ (e - 52) = r) : roundToDouble x = r := by
  unfold roundToDouble
  rw [if_neg (not_lt.mpr hx.le)]
  exact roundNonneg_eq x r e m hx he hlo hhi (roundHalfEven_of_tie_below _ m h hev) hr

/-- Evaluation at a negative argument, from the evaluation at its opposite. -/
theorem roundToDouble_of_neg (x r : ℚ) (h : roundToDouble (-x) = -r) : roundToDouble x = r := by
  have h2 := roundToDouble_neg x
  rw [h] at h2
  linarith

theorem roundToDouble_eq_zero (x : ℚ) (h : x = 0) : roundToDouble x = 0 := by
  rw [h, roundToDouble_zero]

/-- Evaluation of the rounding at a concrete positive argument: `e` is its
binade, `m * 2^(e-52)` the nearest double. -/
theorem roundToDouble_near (x r : ℚ) (e m : ℤ)
    (h : 0 < x ∧ -1022 ≤ e ∧ (2 : ℚ) ^ e ≤ x ∧ x < (2 : ℚ) ^ (e + 1) ∧
      (m : ℚ) - 1 / 2 < x / (2 : ℚ) ^ (e - 52) ∧
      x / (2 : ℚ) ^ (e - 52) < (m : ℚ) + 1 / 2 ∧ (m : ℚ) * (2 : ℚ) ^ (e - 52) = r) :
    roundToDouble x = r :=
  roundToDouble_pos_near x r e m h.1 h.2.1 h.2.2.1 h.2.2.2.1 h.2.2.2.2.1 h.2.2.2.2.2.1
    h.2.2.2.2.2.2

/-- Evaluation at a concrete positive argument half-way between two doubles,
the lower of which has an even significand. -/
theorem roundToDouble_tie_above (x r : ℚ) (e m : ℤ)
    (h : 0 < x ∧ -1022 ≤ e ∧ (2 : ℚ) ^ e ≤ x ∧ x < (2 : ℚ) ^ (e + 1) ∧
      x / (2 : ℚ) ^ (e - 52) = (m : ℚ) + 1 / 2 ∧ m % 2 = 0 ∧
      (m : ℚ) * (2 : ℚ) ^ (e - 52) = r) :
    roundToDouble x = r :=
  roundToDouble_pos_tie_above x r e m h.1 h.2.1 h.2.2.1 h.2.2.2.1 h.2.2.2.2.1 h.2.2.2.2.2.1
    h.2.2.2.2.2.2

/-- Evaluation at a concrete positive argument half-way between two doubles,
the upper of which has an even significand. -/
theorem roundToDouble_tie_below (x r : ℚ) (e m : ℤ)
    (h : 0 < x ∧ -1022 ≤ e ∧ (2 : ℚ) ^ e ≤ x ∧ x < (2 : ℚ) ^ (e + 1) ∧
      x / (2 : ℚ) ^ (e - 52) = (m : ℚ) - 1 / 2 ∧ m % 2 = 0 ∧
      (m : ℚ) * (2 : ℚ) ^ (e - 52) = r) :
    roundToDouble x = r :=
  roundToDouble_pos_tie_below x r e m h.1 h.2.1 h.2.2.1 h.2.2.2.1 h.2.2.2.2.1 h.2.2.2.2.2.1
    h.2.2.2.2.2.2

end IEEE

/-! ## Switch selector in double arithmetic: loop lemmas -/

theorem ieee_selectSwitchStep_of_not (ip g1 g20 : ℚ) (b sw : Switch)
    (h : ¬ IEEE.Passes ip g1 g20 sw) : IEEE.selectSwitchStep ip g1 g20 b sw = b := by
  unfold IEEE.selectSwitchStep
  unfold IEEE.Passes at h
  rw [REQUIRED_MAX_POWER_1GHz_eq, REQUIRED_MAX_POWER_20GHz_eq, if_neg h]

theorem ieee_selectSwitchStep_of_lt (ip g1 g20 : ℚ) (b sw : Switch)
    (h : IEEE.Passes ip g1 g20 sw) (hc : sw.cost < b.cost) :
    IEEE.selectSwitchStep ip g1 g20 b sw = sw := by
  unfold IEEE.selectSwitchStep
  unfold IEEE.Passes at h
  rw [REQUIRED_MAX_POWER_1GHz_eq, REQUIRED_MAX_POWER_20GHz_eq, if_pos h, if_pos hc]

theorem ieee_selectSwitchStep_of_not_lt (ip g1 g20 : ℚ) (b sw : Switch)
    (hc : ¬ sw.cost < b.cost) : IEEE.selectSwitchStep ip g1 g20 b sw = b := by
  unfold IEEE.selectSwitchStep
  rw [if_neg hc, ite_self]

theorem ieee_selectSwitch_eq_foldl (l : List Switch) (ip g1 g20 : ℚ) :
    IEEE.selectSwitch l ip g1 g20 =
      l.foldl (IEEE.selectSwitchStep ip g1 g20) sentinelSwitch := rfl

/-- Loop invariant of `selectSwitch` in double arithmetic: starting from `b`,
the loop ends either on `b` itself or on a switch of the list that passes the
tests and is strictly cheaper than `b`; its cost is at most the cost of `b` and
of every switch of the list that passes the tests. -/
theorem ieee_foldl_selectSwitchStep_spec (ip g1 g20 : ℚ) (l : List Switch) :
    ∀ b : Switch,
      (l.foldl (IEEE.selectSwitchStep ip g1 g20) b = b ∨
        (l.foldl (IEEE.selectSwitchStep ip g1 g20) b ∈ l ∧
          IEEE.Passes ip g1 g20 (l.foldl (IEEE.selectSwitchStep ip g1 g20) b) ∧
          (l.foldl (IEEE.selectSwitchStep ip g1 g20) b).cost < b.cost)) ∧
      (l.foldl (IEEE.selectSwitchStep ip g1 g20) b).cost ≤ b.cost ∧
      ∀ t ∈ l, IEEE.Passes ip g1 g20 t →
        (l.foldl (IEEE.selectSwitchStep ip g1 g20) b).cost ≤ t.cost := by
  induction l with
  | nil => intro b; simp
  | cons x xs ih =>
    intro b
    simp only [List.foldl_cons, List.mem_cons]
    by_cases hq : IEEE.Passes ip g1 g20 x
    · by_cases hc : x.cost < b.cost
      · rw [ieee_selectSwitchStep_of_lt ip g1 g20 b x hq hc]
        obtain ⟨h1, h2, h3⟩ := ih x
        refine ⟨?_, le_trans h2 hc.le, ?_⟩
        · rcases h1 with h1 | ⟨hm, hq2, hlt⟩
          · right; rw [h1]; exact ⟨Or.inl rfl, hq, hc⟩
          · right; exact ⟨Or.inr hm, hq2, lt_trans hlt hc⟩
        · intro t ht hqt
          rcases ht with rfl | ht
          · exact h2
          · exact h3 t ht hqt
      · rw [ieee_selectSwitchStep_of_not_lt ip g1 g20 b x hc]
        obtain ⟨h1, h2, h3⟩ := ih b
        refine ⟨?_, h2, ?_⟩
        · rcases h1 with h1 | ⟨hm, hq2, hlt⟩
          · left; exact h1
          · right; exact ⟨Or.inr hm, hq2, hlt⟩
        · intro t ht hqt
          rcases ht with rfl | ht
          · exact le_trans h2 (not_lt.mp hc)
          · exact h3 t ht hqt
    · rw [ieee_selectSwitchStep_of_not ip g1 g20 b x hq]
      obtain ⟨h1, h2, h3⟩ := ih b
      refine ⟨?_, h2, ?_⟩
      · rcases h1 with h1 | ⟨hm, hq2, hlt⟩
        · left; exact h1
        · right; exact ⟨Or.inr hm, hq2, hlt⟩
      · intro t ht hqt
        rcases ht with rfl | ht
        · exact absurd hqt hq
        · exact h3 t ht hqt

/-- The loop keeps `b` when no switch of the list that passes the tests is
strictly cheaper than `b`. -/
theorem ieee_foldl_selectSwitchStep_keep (ip g1 g20 : ℚ) (l : List Switch) (b : Switch)
    (h : ∀ t ∈ l, IEEE.Passes ip g1 g20 t → b.cost ≤ t.cost) :
    l.foldl (IEEE.selectSwitchStep ip g1 g20) b = b := by
  induction l with
  | nil => rfl
  | cons x xs ih =>
    have hx : IEEE.selectSwitchStep ip g1 g20 b x = b := by
      by_cases hq : IEEE.Passes ip g1 g20 x
      · exact ieee_selectSwitchStep_of_not_lt ip g1 g20 b x
          (not_lt.mpr (h x (List.mem_cons_self x xs) hq))
      · exact ieee_selectSwitchStep_of_not ip g1 g20 b x hq
    rw [List.foldl_cons, hx]
    exact ih (fun t ht hqt => h t (List.mem_cons_of_mem x ht) hqt)

/-- Without a switch that passes the tests the selector returns the
sentinel. -/
theorem ieee_selectSwitch_of_none (l : List Switch) (ip g1 g20 : ℚ)
    (h : ∀ s ∈ l, ¬ IEEE.Passes ip g1 g20 s) :
    IEEE.selectSwitch l ip g1 g20 = sentinelSwitch :=
  ieee_foldl_selectSwitchStep_keep ip g1 g20 l sentinelSwitch
    (fun t ht hqt => absurd hqt (h t ht))

/-- Over a catalog of named switches cheaper than the sentinel, the selector
returns a record with empty name exactly when no switch passes the tests. -/
theorem ieee_selectSwitch_name_empty_iff (l : List Switch) (ip g1 g20 : ℚ)
    (hname : ∀ s ∈ l, s.name ≠ "") (hcost : ∀ s ∈ l, s.cost < DBL_MAX) :
    (IEEE.selectSwitch l ip g1 g20).name = "" ↔ ∀ s ∈ l, ¬ IEEE.Passes ip g1 g20 s := by
  obtain ⟨h1, -, h3⟩ := ieee_foldl_selectSwitchStep_spec ip g1 g20 l sentinelSwitch
  constructor
  · intro hempty s hs hqs
    rcases h1 with h1 | ⟨hm, -, -⟩
    · have hle := h3 s hs hqs
      rw [h1, sentinelSwitch_cost] at hle
      exact absurd (hcost s hs) (not_lt.mpr hle)
    · exact hname _ hm hempty
  · intro hno
    rw [ieee_selectSwitch_of_none l ip g1 g20 hno]
    rfl

/-! ## Switch selector in double arithmetic: evaluations -/

/-- The 1 GHz sum of the selector for SW-T: the loss of 2^-60 dB is absorbed. -/
theorem ieee_sum_10_9_SW_T :
    IEEE.add (IEEE.add 10 9) (-1 / 2 ^ 60) = 19 := by
  simp only [IEEE.add]
  rw [show IEEE.roundToDouble (10 + 9) = 19 from
    IEEE.roundToDouble_near _ _ (4) 5348024557502464 (by norm_num)]
  exact IEEE.roundToDouble_near _ _ (4) 5348024557502464 (by norm_num)

theorem ieee_sum_10_16_zero :
    IEEE.add (IEEE.add 10 16) 0 = 26 := by
  simp only [IEEE.add]
  rw [show IEEE.roundToDouble (10 + 16) = 26 from
    IEEE.roundToDouble_near _ _ (4) 7318349394477056 (by norm_num)]
  exact IEEE.roundToDouble_near _ _ (4) 7318349394477056 (by norm_num)

theorem ieee_sum_10_14_neg_one :
    IEEE.add (IEEE.add 10 14) (-1) = 23 := by
  simp only [IEEE.add]
  rw [show IEEE.roundToDouble (10 + 14) = 24 from
    IEEE.roundToDouble_near _ _ (4) 6755399441055744 (by norm_num)]
  exact IEEE.roundToDouble_near _ _ (4) 6473924464345088 (by norm_num)

theorem ieee_sum_10_13_neg_one :
    IEEE.add (IEEE.add 10 13) (-1) = 22 := by
  simp only [IEEE.add]
  rw [show IEEE.roundToDouble (10 + 13) = 23 from
    IEEE.roundToDouble_near _ _ (4) 6473924464345088 (by norm_num)]
  exact IEEE.roundToDouble_near _ _ (4) 6192449487634432 (by norm_num)

theorem ieee_lit_7_4 :
    IEEE.lit 7.4 = 4165829655317709 / 562949953421312 := by
  simp only [IEEE.lit]
  exact IEEE.roundToDouble_near _ _ (2) 8331659310635418 (by norm_num)

theorem ieee_lit_neg_1_4 :
    IEEE.lit (-1.4) = -3152519739159347 / 2251799813685248 := by
  simp only [IEEE.lit]
  exact IEEE.roundToDouble_of_neg _ _ (IEEE.roundToDouble_near _ _ (0) 6305039478318694 (by norm_num))

theorem ieee_lit_neg_0_7 :
    IEEE.lit (-0.7) = -3152519739159347 / 4503599627370496 := by
  simp only [IEEE.lit]
  exact IEEE.roundToDouble_of_neg _ _ (IEEE.roundToDouble_near _ _ (-1) 6305039478318694 (by norm_num))

/-- The 20 GHz sum of the selector for SW-A at inputPower 10.0 and gain 7.4. -/
theorem ieee_sum20_7_4_SW_A :
    IEEE.add (IEEE.add 10 (IEEE.lit 7.4)) (IEEE.lit (-1.4)) = 9007199254740991 / 562949953421312 := by
  simp only [IEEE.add, IEEE.lit]
  rw [show IEEE.roundToDouble 7.4 = (4165829655317709 / 562949953421312) from
    IEEE.roundToDouble_near _ _ (2) 8331659310635418 (by norm_num)]
  rw [show IEEE.roundToDouble (10 + (4165829655317709 / 562949953421312)) = (2448832297382707 / 140737488355328) from
    IEEE.roundToDouble_tie_above _ _ (4) 4897664594765414 (by norm_num)]
  rw [show IEEE.roundToDouble (-1.4) = (-3152519739159347 / 2251799813685248) from
    IEEE.roundToDouble_of_neg _ _ (IEEE.roundToDouble_near _ _ (0) 6305039478318694 (by norm_num))]
  exact IEEE.roundToDouble_near _ _ (3) 9007199254740991 (by norm_num)

/-- The 20 GHz sum of the selector for SW-B at inputPower 10.0 and gain 7.4. -/
theorem ieee_sum20_7_4_SW_B :
    IEEE.add (IEEE.add 10 (IEEE.lit 7.4)) (-2) = 2167357320672051 / 140737488355328 := by
  simp only [IEEE.add, IEEE.lit]
  rw [show IEEE.roundToDouble 7.4 = (4165829655317709 / 562949953421312) from
    IEEE.roundToDouble_near _ _ (2) 8331659310635418 (by norm_num)]
  rw [show IEEE.roundToDouble (10 + (4165829655317709 / 562949953421312)) = (2448832297382707 / 140737488355328) from
    IEEE.roundToDouble_tie_above _ _ (4) 4897664594765414 (by norm_num)]
  exact IEEE.roundToDouble_near _ _ (3) 8669429282688204 (by norm_num)

/-- The 20 GHz sum of the selector for SW-C at inputPower 10.0 and gain 7.4. -/
theorem ieee_sum20_7_4_SW_C :
    IEEE.add (IEEE.add 10 (IEEE.lit 7.4)) (IEEE.lit (-1.8)) = 4391009636686233 / 281474976710656 := by
  simp only [IEEE.add, IEEE.lit]
  rw [show IEEE.roundToDouble 7.4 = (4165829655317709 / 562949953421312) from
    IEEE.roundToDouble_near _ _ (2) 8331659310635418 (by norm_num)]
  rw [show IEEE.roundToDouble (10 + (4165829655317709 / 562949953421312)) = (2448832297382707 / 140737488355328) from
    IEEE.roundToDouble_tie_above _ _ (4) 4897664594765414 (by norm_num)]
  rw [show IEEE.roundToDouble (-1.8) = (-8106479329266893 / 4503599627370496) from
    IEEE.roundToDouble_of_neg _ _ (IEEE.roundToDouble_near _ _ (0) 8106479329266893 (by norm_num))]
  exact IEEE.roundToDouble_near _ _ (3) 8782019273372466 (by norm_num)

/-- The 20 GHz sum of the selector for SW-D at inputPower 10.0 and gain 7.4. -/
theorem ieee_sum20_7_4_SW_D :
    IEEE.add (IEEE.add 10 (IEEE.lit 7.4)) (IEEE.lit (-1.6)) = 8894609264056729 / 562949953421312 := by
  simp only [IEEE.add, IEEE.lit]
  rw [show IEEE.roundToDouble 7.4 = (4165829655317709 / 562949953421312) from
    IEEE.roundToDouble_near _ _ (2) 8331659310635418 (by norm_num)]
  rw [show IEEE.roundToDouble (10 + (4165829655317709 / 562949953421312)) = (2448832297382707 / 140737488355328) from
    IEEE.roundToDouble_tie_above _ _ (4) 4897664594765414 (by norm_num)]
  rw [show IEEE.roundToDouble (-1.6) = (-3602879701896397 / 2251799813685248) from
    IEEE.roundToDouble_of_neg _ _ (IEEE.roundToDouble_near _ _ (0) 7205759403792794 (by norm_num))]
  exact IEEE.roundToDouble_near _ _ (3) 8894609264056729 (by norm_num)

/-- The 20 GHz sum of the selector for SW-E at inputPower 10.0 and gain 7.4. -/
theorem ieee_sum20_7_4_SW_E :
    IEEE.add (IEEE.add 10 (IEEE.lit 7.4)) (-2.5) = 2096988576494387 / 140737488355328 := by
  simp only [IEEE.add, IEEE.lit]
  rw [show IEEE.roundToDouble 7.4 = (4165829655317709 / 562949953421312) from
    IEEE.roundToDouble_near _ _ (2) 8331659310635418 (by norm_num)]
  rw [show IEEE.roundToDouble (10 + (4165829655317709 / 562949953421312)) = (2448832297382707 / 140737488355328) from
    IEEE.roundToDouble_tie_above _ _ (4) 4897664594765414 (by norm_num)]
  exact IEEE.roundToDouble_near _ _ (3) 8387954305977548 (by norm_num)

/-- The 20 GHz sum of the selector for SW-F at inputPower 10.0 and gain 7.4. -/
theorem ieee_sum20_7_4_SW_F :
    IEEE.add (IEEE.add 10 (IEEE.lit 7.4)) (-1.5) = 2237726064849715 / 140737488355328 := by
  simp only [IEEE.add, IEEE.lit]
  rw [show IEEE.roundToDouble 7.4 = (4165829655317709 / 562949953421312) from
    IEEE.roundToDouble_near _ _ (2) 8331659310635418 (by norm_num)]
  rw [show IEEE.roundToDouble (10 + (4165829655317709 / 562949953421312)) = (2448832297382707 / 140737488355328) from
    IEEE.roundToDouble_tie_above _ _ (4) 4897664594765414 (by norm_num)]
  exact IEEE.roundToDouble_near _ _ (3) 8950904259398860 (by norm_num)

/-- SW-T passes the three tests of the selector at (10, 9, 16). -/
theorem ieee_passes_SW_T : IEEE.Passes 10 9 16 IEEE.SW_T := by
  unfold IEEE.Passes
  refine ⟨?_, ?_, ?_⟩
  · show IEEE.add (IEEE.add 10 9) (-1 / 2 ^ 60) ≥ 19
    rw [ieee_sum_10_9_SW_T]
  · show IEEE.add (IEEE.add 10 16) 0 ≥ 16
    rw [ieee_sum_10_16_zero]
    norm_num
  · show (35 : ℚ) ≥ 10
    norm_num

theorem ieee_SW_T_cost_lt : IEEE.SW_T.cost < DBL_MAX :=
  lt_trans (show (13 : ℚ) < 1000 by norm_num) thousand_lt_DBL_MAX

/-- The selector in double arithmetic returns SW-T from the one-switch catalog
at (10, 9, 16). -/
theorem ieee_selectSwitch_SW_T : IEEE.selectSwitch [IEEE.SW_T] 10 9 16 = IEEE.SW_T := by
  rw [ieee_selectSwitch_eq_foldl, List.foldl_cons, List.foldl_nil,
    ieee_selectSwitchStep_of_lt _ _ _ _ _ ieee_passes_SW_T
      (by rw [sentinelSwitch_cost]; exact ieee_SW_T_cost_lt)]

/-- At (10.0, 14.0, 7.4) no switch of the source catalog passes the 20 GHz test
as the program evaluates it. -/
theorem ieee_switches_none_passes_7_4 :
    ∀ s ∈ IEEE.switches, ¬ IEEE.Passes 10 14 (IEEE.lit 7.4) s := by
  intro s hs
  simp only [IEEE.switches, List.mem_cons, List.mem_singleton, List.mem_nil_iff,
    or_false] at hs
  rcases hs with rfl | rfl | rfl | rfl | rfl | rfl
  · rintro ⟨-, h, -⟩
    change IEEE.add (IEEE.add 10 (IEEE.lit 7.4)) (IEEE.lit (-1.4)) ≥ 16 at h
    rw [ieee_sum20_7_4_SW_A] at h
    norm_num at h
  · rintro ⟨-, h, -⟩
    change IEEE.add (IEEE.add 10 (IEEE.lit 7.4)) (-2) ≥ 16 at h
    rw [ieee_sum20_7_4_SW_B] at h
    norm_num at h
  · rintro ⟨-, h, -⟩
    change IEEE.add (IEEE.add 10 (IEEE.lit 7.4)) (IEEE.lit (-1.8)) ≥ 16 at h
    rw [ieee_sum20_7_4_SW_C] at h
    norm_num at h
  · rintro ⟨-, h, -⟩
    change IEEE.add (IEEE.add 10 (IEEE.lit 7.4)) (IEEE.lit (-1.6)) ≥ 16 at h
    rw [ieee_sum20_7_4_SW_D] at h
    norm_num at h
  · rintro ⟨-, h, -⟩
    change IEEE.add (IEEE.add 10 (IEEE.lit 7.4)) (-2.5) ≥ 16 at h
    rw [ieee_sum20_7_4_SW_E] at h
    norm_num at h
  · rintro ⟨-, h, -⟩
    change IEEE.add (IEEE.add 10 (IEEE.lit 7.4)) (-1.5) ≥ 16 at h
    rw [ieee_sum20_7_4_SW_F] at h
    norm_num at h

/-- At (10.0, 14.0, 7.4) the selector in double arithmetic returns the sentinel
on the source catalog. -/
theorem ieee_selectSwitch_switches_7_4 :
    IEEE.selectSwitch IEEE.switches 10 14 (IEEE.lit 7.4) = sentinelSwitch :=
  ieee_selectSwitch_of_none _ _ _ _ ieee_switches_none_passes_7_4

/-- SW-A as stored satisfies the three constraints at (10.0, 14.0, 7.4) in
exact arithmetic on the stored values. -/
theorem qualifies_stored_SW_A_7_4 : Qualifies 10 14 (IEEE.lit 7.4) IEEE.SW_A := by
  unfold Qualifies
  refine ⟨?_, ?_, ?_⟩
  · show (10 : ℚ) + 14 + IEEE.lit (-0.7) ≥ 19
    rw [ieee_lit_neg_0_7]
    norm_num
  · show (10 : ℚ) + IEEE.lit 7.4 + IEEE.lit (-1.4) ≥ 16
    rw [ieee_lit_7_4, ieee_lit_neg_1_4]
    norm_num
  · show (28 : ℚ) ≥ 10
    norm_num

/-- SW-A satisfies the three constraints at (10.0, 14.0, 7.4) in exact
arithmetic on the decimal values. -/
theorem qualifies_decimal_SW_A_7_4 : Qualifies 10 14 7.4 SW_A := by
  norm_num [Qualifies, SW_A]

theorem ieee_switches_names :
    ∀ s ∈ IEEE.switches, s.name ≠ "" := by
  intro s hs
  simp only [IEEE.switches, List.mem_cons, List.mem_singleton, List.mem_nil_iff,
    or_false] at hs
  rcases hs with rfl | rfl | rfl | rfl | rfl | rfl <;> decide

theorem ieee_switches_costs :
    ∀ s ∈ IEEE.switches, s.cost < DBL_MAX := by
  intro s hs
  simp only [IEEE.switches, List.mem_cons, List.mem_singleton, List.mem_nil_iff,
    or_false] at hs
  rcases hs with rfl | rfl | rfl | rfl | rfl | rfl
  · exact lt_trans (show (45 : ℚ) < 1000 by norm_num) thousand_lt_DBL_MAX
  · exact lt_trans (show (19 : ℚ) < 1000 by norm_num) thousand_lt_DBL_MAX
  · exact lt_trans (show (13 : ℚ) < 1000 by norm_num) thousand_lt_DBL_MAX
  · exact lt_trans (show (35 : ℚ) < 1000 by norm_num) thousand_lt_DBL_MAX
  · exact lt_trans (show (24 : ℚ) < 1000 by norm_num) thousand_lt_DBL_MAX
  · exact lt_trans (show (22 : ℚ) < 1000 by norm_num) thousand_lt_DBL_MAX

/-! ## Switch selector in double arithmetic: claims -/

/-- C1, counterexample: on the one-switch catalog SW-T (loss 2^-60 dB at 1 GHz)
with inputPower 10, ampGain1GHz 9 and ampGain20GHz 16 the program's sum
(10 + 9) + gainOn1GHz rounds to 19.0, so SW-T is returned, although
10 + 9 + gainOn1GHz is below 19.0. -/
theorem selectSwitch_returns_switch_below_threshold :
    IEEE.selectSwitch [IEEE.SW_T] 10 9 16 = IEEE.SW_T ∧
      IEEE.SW_T ∈ [IEEE.SW_T] ∧ IEEE.SW_T ≠ sentinelSwitch ∧
      ¬ ((10 : ℚ) + 9 + IEEE.SW_T.gainOn1GHz ≥ 19) := by
  refine ⟨ieee_selectSwitch_SW_T, List.mem_singleton.mpr rfl, by decide, ?_⟩
  show ¬ ((10 : ℚ) + 9 + (-1 / 2 ^ 60) ≥ 19)
  norm_num

/-- C1, amended: whenever `selectSwitch` returns something other than the
empty-name sentinel, the returned switch is a switch of the catalog and passes
the three tests as the program evaluates them: the sums
(inputPower + ampGain) + gainOn, each addition rounded to double, reach 19.0
and 16.0, and its p1dB is at least inputPower. A catalog switch failing one of
these tests is never returned. -/
theorem selectSwitch_returns_passing (catalog : List Switch)
    (inputPower ampGain1GHz ampGain20GHz : ℚ) (S : Switch)
    (hret : IEEE.selectSwitch catalog inputPower ampGain1GHz ampGain20GHz = S)
    (hS : S ≠ sentinelSwitch) :
    S ∈ catalog ∧
      IEEE.add (IEEE.add inputPower ampGain1GHz) S.gainOn1GHz ≥ 19 ∧
      IEEE.add (IEEE.add inputPower ampGain20GHz) S.gainOn20GHz ≥ 16 ∧
      S.p1dB ≥ inputPower := by
  subst hret
  obtain ⟨h1, -, -⟩ := ieee_foldl_selectSwitchStep_spec inputPower ampGain1GHz
    ampGain20GHz catalog sentinelSwitch
  rcases h1 with h1 | ⟨hm, hq, -⟩
  · exact absurd h1 hS
  · exact ⟨hm, hq⟩

/-- Witness for C1 (amended): the catalog SW-T at (10, 9, 16). -/
theorem selectSwitch_returns_passing_witness :
    IEEE.selectSwitch [IEEE.SW_T] 10 9 16 = IEEE.SW_T ∧ IEEE.SW_T ≠ sentinelSwitch ∧
      (IEEE.SW_T ∈ [IEEE.SW_T] ∧
        IEEE.add (IEEE.add 10 9) IEEE.SW_T.gainOn1GHz ≥ 19 ∧
        IEEE.add (IEEE.add 10 16) IEEE.SW_T.gainOn20GHz ≥ 16 ∧
        IEEE.SW_T.p1dB ≥ 10) :=
  ⟨ieee_selectSwitch_SW_T, by decide,
    selectSwitch_returns_passing [IEEE.SW_T] 10 9 16 IEEE.SW_T ieee_selectSwitch_SW_T
      (by decide)⟩

/-- C3, counterexample: the source catalog has non-empty names and costs below
the sentinel cost, and SW-A satisfies the three constraints at
(10.0, 14.0, 7.4), yet the program returns the NotFound sentinel. -/
theorem selectSwitch_notFound_although_qualifying :
    (∀ s ∈ IEEE.switches, s.name ≠ "") ∧ (∀ s ∈ IEEE.switches, s.cost < DBL_MAX) ∧
      IEEE.SW_A ∈ IEEE.switches ∧ Qualifies 10 14 (IEEE.lit 7.4) IEEE.SW_A ∧
      Qualifies 10 14 7.4 SW_A ∧
      IEEE.selectSwitch IEEE.switches 10 14 (IEEE.lit 7.4) = sentinelSwitch ∧
      (IEEE.selectSwitch IEEE.switches 10 14 (IEEE.lit 7.4)).name = "" := by
  refine ⟨ieee_switches_names, ieee_switches_costs, by simp [IEEE.switches],
    qualifies_stored_SW_A_7_4, qualifies_decimal_SW_A_7_4, ieee_selectSwitch_switches_7_4, ?_⟩
  rw [ieee_selectSwitch_switches_7_4]
  rfl

/-- C3, amended: over a catalog whose switches all have a non-empty name and
a cost strictly below the sentinel cost, `selectSwitch` returns the NotFound
sentinel (equivalently a record with empty name, which is what `main` tests)
if and only if no catalog switch passes the three tests as the program
evaluates them, with the sums rounded to double. -/
theorem selectSwitch_notFound_iff_none_passes (catalog : List Switch)
    (inputPower ampGain1GHz ampGain20GHz : ℚ)
    (hname : ∀ s ∈ catalog, s.name ≠ "")
    (hcost : ∀ s ∈ catalog, s.cost < DBL_MAX) :
    (IEEE.selectSwitch catalog inputPower ampGain1GHz ampGain20GHz = sentinelSwitch ↔
        ∀ s ∈ catalog, ¬ IEEE.Passes inputPower ampGain1GHz ampGain20GHz s) ∧
      ((IEEE.selectSwitch catalog inputPower ampGain1GHz ampGain20GHz).name = "" ↔
        ∀ s ∈ catalog, ¬ IEEE.Passes inputPower ampGain1GHz ampGain20GHz s) := by
  have hiff := ieee_selectSwitch_name_empty_iff catalog inputPower ampGain1GHz
    ampGain20GHz hname hcost
  refine ⟨⟨fun heq => hiff.mp (by rw [heq]; rfl),
    ieee_selectSwitch_of_none catalog inputPower ampGain1GHz ampGain20GHz⟩, hiff⟩

/-- Witness for C3 (amended): the source catalog at (10.0, 14.0, 7.4), where
the sentinel is returned. -/
theorem selectSwitch_notFound_iff_none_passes_witness :
    (∀ s ∈ IEEE.switches, s.name ≠ "") ∧ (∀ s ∈ IEEE.switches, s.cost < DBL_MAX) ∧
      ((IEEE.selectSwitch IEEE.switches 10 14 (IEEE.lit 7.4) = sentinelSwitch ↔
          ∀ s ∈ IEEE.switches, ¬ IEEE.Passes 10 14 (IEEE.lit 7.4) s) ∧
        ((IEEE.selectSwitch IEEE.switches 10 14 (IEEE.lit 7.4)).name = "" ↔
          ∀ s ∈ IEEE.switches, ¬ IEEE.Passes 10 14 (IEEE.lit 7.4) s)) :=
  ⟨ieee_switches_names, ieee_switches_costs,
    selectSwitch_notFound_iff_none_passes IEEE.switches 10 14 (IEEE.lit 7.4)
      ieee_switches_names ieee_switches_costs⟩

theorem ieee_passes_maxCost :
    IEEE.Passes 10 14 13 maxCostFirst ∧ IEEE.Passes 10 14 13 maxCostSecond := by
  constructor <;>
  · unfold IEEE.Passes
    refine ⟨?_, ?_, ?_⟩
    · show IEEE.add (IEEE.add 10 14) (-1) ≥ 19
      rw [ieee_sum_10_14_neg_one]
      norm_num
    · show IEEE.add (IEEE.add 10 13) (-1) ≥ 16
      rw [ieee_sum_10_13_neg_one]
      norm_num
    · show (35 : ℚ) ≥ 10
      norm_num

theorem ieee_passes_tie :
    IEEE.Passes 10 14 13 tieFirst ∧ IEEE.Passes 10 14 13 tieSecond := by
  constructor <;>
  · unfold IEEE.Passes
    refine ⟨?_, ?_, ?_⟩
    · show IEEE.add (IEEE.add 10 14) (-1) ≥ 19
      rw [ieee_sum_10_14_neg_one]
      norm_num
    · show IEEE.add (IEEE.add 10 13) (-1) ≥ 16
      rw [ieee_sum_10_13_neg_one]
      norm_num
    · show (35 : ℚ) ≥ 10
      norm_num

/-- The two copies of SW-A satisfy the three constraints at (10.0, 14.0, 7.4)
in exact arithmetic on the stored values. -/
theorem qualifies_stored_copies_7_4 :
    Qualifies 10 14 (IEEE.lit 7.4) IEEE.SW_A1 ∧ Qualifies 10 14 (IEEE.lit 7.4) IEEE.SW_A2 := by
  constructor <;>
  · unfold Qualifies
    refine ⟨?_, ?_, ?_⟩
    · show (10 : ℚ) + 14 + IEEE.lit (-0.7) ≥ 19
      rw [ieee_lit_neg_0_7]
      norm_num
    · show (10 : ℚ) + IEEE.lit 7.4 + IEEE.lit (-1.4) ≥ 16
      rw [ieee_lit_7_4, ieee_lit_neg_1_4]
      norm_num
    · show (28 : ℚ) ≥ 10
      norm_num

/-- At (10.0, 14.0, 7.4) the selector in double arithmetic rejects both copies
of SW-A and returns the sentinel. -/
theorem ieee_selectSwitch_copies_7_4 :
    IEEE.selectSwitch [IEEE.SW_A1, IEEE.SW_A2] 10 14 (IEEE.lit 7.4) = sentinelSwitch := by
  apply ieee_selectSwitch_of_none
  intro s hs
  simp only [List.mem_cons, List.mem_singleton, List.mem_nil_iff, or_false] at hs
  rcases hs with rfl | rfl
  · rintro ⟨-, h, -⟩
    change IEEE.add (IEEE.add 10 (IEEE.lit 7.4)) (IEEE.lit (-1.4)) ≥ 16 at h
    rw [ieee_sum20_7_4_SW_A] at h
    norm_num at h
  · rintro ⟨-, h, -⟩
    change IEEE.add (IEEE.add 10 (IEEE.lit 7.4)) (IEEE.lit (-1.4)) ≥ 16 at h
    rw [ieee_sum20_7_4_SW_A] at h
    norm_num at h

/-- C4, counterexample: (1) `maxCostFirst` and `maxCostSecond` both satisfy the
three constraints, in exact and in double arithmetic, and share the minimum
cost among the qualifying switches of the two-switch catalog (the largest
finite double), yet `selectSwitch` returns the sentinel and not the first of
them; (2) the two copies SW-A1 and SW-A2 of SW-A both satisfy the three
constraints at (10.0, 14.0, 7.4) and tie at cost 45, below the sentinel cost,
yet the program, whose 20 GHz sum is 15.999999999999998, returns the sentinel
and not SW-A1. -/
theorem selectSwitch_tie_at_max_cost :
    (Qualifies 10 14 13 maxCostFirst ∧ Qualifies 10 14 13 maxCostSecond ∧
      IEEE.Passes 10 14 13 maxCostFirst ∧ IEEE.Passes 10 14 13 maxCostSecond ∧
      maxCostFirst.cost = maxCostSecond.cost ∧
      (∀ t ∈ [maxCostFirst, maxCostSecond], Qualifies 10 14 13 t →
        maxCostFirst.cost ≤ t.cost) ∧
      selectSwitch [maxCostFirst, maxCostSecond] 10 14 13 = sentinelSwitch ∧
      selectSwitch [maxCostFirst, maxCostSecond] 10 14 13 ≠ maxCostFirst ∧
      IEEE.selectSwitch [maxCostFirst, maxCostSecond] 10 14 13 = sentinelSwitch ∧
      IEEE.selectSwitch [maxCostFirst, maxCostSecond] 10 14 13 ≠ maxCostFirst) ∧
    (Qualifies 10 14 (IEEE.lit 7.4) IEEE.SW_A1 ∧ Qualifies 10 14 (IEEE.lit 7.4) IEEE.SW_A2 ∧
      IEEE.SW_A1.cost = IEEE.SW_A2.cost ∧ IEEE.SW_A1.cost < DBL_MAX ∧
      IEEE.selectSwitch [IEEE.SW_A1, IEEE.SW_A2] 10 14 (IEEE.lit 7.4) = sentinelSwitch ∧
      IEEE.selectSwitch [IEEE.SW_A1, IEEE.SW_A2] 10 14 (IEEE.lit 7.4) ≠ IEEE.SW_A1) := by
  have hexact : selectSwitch [maxCostFirst, maxCostSecond] 10 14 13 = sentinelSwitch := by
    show List.foldl (selectSwitchStep 10 14 13) sentinelSwitch
      [maxCostFirst, maxCostSecond] = sentinelSwitch
    rw [List.foldl_cons,
      selectSwitchStep_of_not_lt _ _ _ sentinelSwitch maxCostFirst (lt_irrefl DBL_MAX),
      List.foldl_cons,
      selectSwitchStep_of_not_lt _ _ _ sentinelSwitch maxCostSecond (lt_irrefl DBL_MAX),
      List.foldl_nil]
  have hieee : IEEE.selectSwitch [maxCostFirst, maxCostSecond] 10 14 13 = sentinelSwitch := by
    rw [ieee_selectSwitch_eq_foldl, List.foldl_cons,
      ieee_selectSwitchStep_of_not_lt _ _ _ sentinelSwitch maxCostFirst (lt_irrefl DBL_MAX),
      List.foldl_cons,
      ieee_selectSwitchStep_of_not_lt _ _ _ sentinelSwitch maxCostSecond (lt_irrefl DBL_MAX),
      List.foldl_nil]
  refine ⟨⟨by norm_num [Qualifies, maxCostFirst], by norm_num [Qualifies, maxCostSecond],
    ieee_passes_maxCost.1, ieee_passes_maxCost.2, rfl, ?_, hexact, ?_, hieee, ?_⟩,
    ⟨qualifies_stored_copies_7_4.1, qualifies_stored_copies_7_4.2, rfl,
      lt_trans (show (45 : ℚ) < 1000 by norm_num) thousand_lt_DBL_MAX,
      ieee_selectSwitch_copies_7_4, ?_⟩⟩
  · intro t ht _
    simp only [List.mem_cons, List.mem_singleton, List.mem_nil_iff, or_false] at ht
    rcases ht with rfl | rfl <;> exact le_refl _
  · rw [hexact]; decide
  · rw [hieee]; decide
  · rw [ieee_selectSwitch_copies_7_4]
    intro h
    have hn : sentinelSwitch.name = IEEE.SW_A1.name := by rw [h]
    exact absurd hn (by decide)

/-- C4, amended: if `S` passes the three tests as the program evaluates them
(sums rounded to double), costs less than the sentinel cost, is strictly
cheaper than every passing switch placed before it in the catalog and at most
as expensive as every passing switch placed after it (so `S` is the first
switch in catalog order attaining the minimum cost among passing switches),
then `selectSwitch` returns `S`: a later switch of equal cost never replaces
it. -/
theorem selectSwitch_first_of_minimum_passing (pre post : List Switch) (S : Switch)
    (inputPower ampGain1GHz ampGain20GHz : ℚ)
    (hq : IEEE.Passes inputPower ampGain1GHz ampGain20GHz S)
    (hmax : S.cost < DBL_MAX)
    (hpre : ∀ t ∈ pre, IEEE.Passes inputPower ampGain1GHz ampGain20GHz t → S.cost < t.cost)
    (hpost : ∀ t ∈ post,
      IEEE.Passes inputPower ampGain1GHz ampGain20GHz t → S.cost ≤ t.cost) :
    IEEE.selectSwitch (pre ++ S :: post) inputPower ampGain1GHz ampGain20GHz = S := by
  rw [ieee_selectSwitch_eq_foldl, List.foldl_append, List.foldl_cons]
  obtain ⟨h1, -, -⟩ := ieee_foldl_selectSwitchStep_spec inputPower ampGain1GHz
    ampGain20GHz pre sentinelSwitch
  have hlt : S.cost <
      (pre.foldl (IEEE.selectSwitchStep inputPower ampGain1GHz ampGain20GHz)
        sentinelSwitch).cost := by
    rcases h1 with h1 | ⟨hm, hqb, -⟩
    · rw [h1, sentinelSwitch_cost]; exact hmax
    · exact hpre _ hm hqb
  rw [ieee_selectSwitchStep_of_lt _ _ _ _ _ hq hlt]
  exact ieee_foldl_selectSwitchStep_keep _ _ _ post S hpost

/-- Witness for C4 (amended): in the catalog SW-A, SW-T1, SW-T2 the last two
pass the tests and tie at cost 13, and the first of them is returned. -/
theorem selectSwitch_first_of_minimum_passing_witness :
    IEEE.Passes 10 14 13 tieFirst ∧ IEEE.Passes 10 14 13 tieSecond ∧
      tieFirst.cost < DBL_MAX ∧
      (∀ t ∈ [IEEE.SW_A], IEEE.Passes 10 14 13 t → tieFirst.cost < t.cost) ∧
      (∀ t ∈ [tieSecond], IEEE.Passes 10 14 13 t → tieFirst.cost ≤ t.cost) ∧
      tieSecond.cost = tieFirst.cost ∧
      IEEE.selectSwitch ([IEEE.SW_A] ++ tieFirst :: [tieSecond]) 10 14 13 = tieFirst :=
  have hmax : tieFirst.cost < DBL_MAX :=
    lt_trans (show (13 : ℚ) < 1000 by norm_num) thousand_lt_DBL_MAX
  have hpre : ∀ t ∈ [IEEE.SW_A], IEEE.Passes 10 14 13 t → tieFirst.cost < t.cost := by
    intro t ht _
    rw [List.mem_singleton] at ht
    subst ht
    show (13 : ℚ) < 45
    norm_num
  have hpost : ∀ t ∈ [tieSecond], IEEE.Passes 10 14 13 t → tieFirst.cost ≤ t.cost := by
    intro t ht _
    rw [List.mem_singleton] at ht
    subst ht
    exact le_refl _
  ⟨ieee_passes_tie.1, ieee_passes_tie.2, hmax, hpre, hpost, rfl,
    selectSwitch_first_of_minimum_passing [IEEE.SW_A] [tieSecond] tieFirst 10 14 13
      ieee_passes_tie.1 hmax hpre hpost⟩

/-! ## Attenuation calculator in double arithmetic -/

theorem ieee_lit_11_1 :
    IEEE.lit 11.1 = 6248744482976563 / 562949953421312 := by
  simp only [IEEE.lit]
  exact IEEE.roundToDouble_near _ _ (3) 6248744482976563 (by norm_num)

/-- The raw attenuation `inputPower + amplifierGain - targetPower` of the program at (10.0, 11.1, 17.5). -/
theorem ieee_raw_10_17_5_11_1 :
    IEEE.sub (IEEE.add 10 17.5) (IEEE.lit 11.1) = 2308094809027379 / 140737488355328 := by
  simp only [IEEE.add, IEEE.lit, IEEE.sub]
  rw [show IEEE.roundToDouble (10 + 17.5) = (55 / 2) from
    IEEE.roundToDouble_near _ _ (4) 7740561859543040 (by norm_num)]
  rw [show IEEE.roundToDouble 11.1 = (6248744482976563 / 562949953421312) from
    IEEE.roundToDouble_near _ _ (3) 6248744482976563 (by norm_num)]
  exact IEEE.roundToDouble_tie_above _ _ (4) 4616189618054758 (by norm_num)

/-- The padded level at (10.0, 11.1, 17.5), computed in double arithmetic from the pad of the program. -/
theorem ieee_padded_10_17_5_11_1 :
    IEEE.sub (IEEE.add 10 17.5) (2308094809027379 / 140737488355328) = 1562186120744141 / 140737488355328 := by
  simp only [IEEE.add, IEEE.sub]
  rw [show IEEE.roundToDouble (10 + 17.5) = (55 / 2) from
    IEEE.roundToDouble_near _ _ (4) 7740561859543040 (by norm_num)]
  exact IEEE.roundToDouble_near _ _ (3) 6248744482976564 (by norm_num)

theorem ieee_add_10_14 :
    IEEE.add 10 14 = 24 := by
  simp only [IEEE.add]
  exact IEEE.roundToDouble_near _ _ (4) 6755399441055744 (by norm_num)

theorem ieee_sub_24_20 :
    IEEE.sub (10 + 14) 20 = 4 := by
  simp only [IEEE.sub]
  exact IEEE.roundToDouble_near _ _ (2) 4503599627370496 (by norm_num)


/-- The pad of the program at (10.0, 11.1, 17.5). -/
theorem ieee_pad_10_17_5_11_1 :
    IEEE.calculateAttenuation 10 (IEEE.lit 11.1) 17.5 = 2308094809027379 / 140737488355328 := by
  unfold IEEE.calculateAttenuation std_max
  simp only []
  rw [ieee_raw_10_17_5_11_1, if_pos (by norm_num)]

/-- C7, counterexample: at inputPower 10.0, ceiling 11.1 and gain 17.5 the pad
of the program is 16.39999999999999858 (the ceiling is stored as
11.09999999999999964) and the padded level, 11.10000000000000142, exceeds the
ceiling, whether the outer subtraction is exact or rounded to double; it is
not equal to the ceiling although inputPower + gain is above the ceiling. -/
theorem padded_level_exceeds_ceiling :
    ¬ ((10 : ℚ) + 17.5 - IEEE.calculateAttenuation 10 (IEEE.lit 11.1) 17.5 ≤ IEEE.lit 11.1) ∧
      ¬ (IEEE.sub (IEEE.add 10 17.5) (IEEE.calculateAttenuation 10 (IEEE.lit 11.1) 17.5) ≤
        IEEE.lit 11.1) ∧
      (10 : ℚ) + 17.5 ≥ IEEE.lit 11.1 ∧
      (10 : ℚ) + 17.5 - IEEE.calculateAttenuation 10 (IEEE.lit 11.1) 17.5 ≠ IEEE.lit 11.1 ∧
      IEEE.sub (IEEE.add 10 17.5) (IEEE.calculateAttenuation 10 (IEEE.lit 11.1) 17.5) ≠
        IEEE.lit 11.1 := by
  rw [ieee_pad_10_17_5_11_1, ieee_padded_10_17_5_11_1, ieee_lit_11_1]
  norm_num

/-- C7, amended: for all inputPower, ceiling and gain for which the two
operations of the program, inputPower + gain and (inputPower + gain) - ceiling,
incur no rounding, the padded level
inputPower + gain - calculateAttenuation(inputPower, ceiling, gain) never
exceeds the ceiling, and it equals the ceiling exactly when
inputPower + gain >= ceiling. -/
theorem padded_level_le_ceiling_of_exact (inputPower ceiling gain : ℚ)
    (hsum : IEEE.add inputPower gain = inputPower + gain)
    (hdiff : IEEE.sub (inputPower + gain) ceiling = inputPower + gain - ceiling) :
    inputPower + gain - IEEE.calculateAttenuation inputPower ceiling gain ≤ ceiling ∧
      (inputPower + gain - IEEE.calculateAttenuation inputPower ceiling gain = ceiling ↔
        inputPower + gain ≥ ceiling) := by
  unfold IEEE.calculateAttenuation std_max
  simp only []
  rw [hsum, hdiff]
  by_cases hpos : 0 < inputPower + gain - ceiling
  · rw [if_pos hpos]
    refine ⟨by linarith, ⟨fun _ => by linarith, fun _ => by ring⟩⟩
  · rw [if_neg hpos]
    have hle : inputPower + gain ≤ ceiling := by linarith [not_lt.mp hpos]
    refine ⟨by linarith, ⟨fun h => by linarith, fun h => by linarith⟩⟩

/-- Witness for C7 (amended): at (10, 20, 14) the sum 24 and the difference 4
are exact, and the padded level is the ceiling. -/
theorem padded_level_le_ceiling_of_exact_witness :
    IEEE.add 10 14 = 10 + 14 ∧ IEEE.sub (10 + 14) 20 = 10 + 14 - 20 ∧
      ((10 : ℚ) + 14 - IEEE.calculateAttenuation 10 20 14 ≤ 20 ∧
        ((10 : ℚ) + 14 - IEEE.calculateAttenuation 10 20 14 = 20 ↔ (10 : ℚ) + 14 ≥ 20)) :=
  have hsum : IEEE.add 10 14 = 10 + 14 := by rw [ieee_add_10_14]; norm_num
  have hdiff : IEEE.sub (10 + 14) 20 = 10 + 14 - 20 := by rw [ieee_sub_24_20]; norm_num
  ⟨hsum, hdiff, padded_level_le_ceiling_of_exact 10 20 14 hsum hdiff⟩

/-! ## Amplifier selector in double arithmetic -/

/-- Loop invariant of `selectAmplifier` in double arithmetic: starting from `(b, sb)`, either the
loop leaves the locals untouched and no amplifier of the list scores below
`sb`, or it ends on an amplifier of the list, stored with its own score, that
scores below `sb`, strictly below every amplifier before it and at most as much
as every amplifier after it. -/
theorem ieee_foldl_selectAmplifierStep_spec (l : List Dynamic.Amplifier) :
    ∀ best : Dynamic.Amplifier × ℚ,
      (l.foldl IEEE.Dynamic.selectAmplifierStep best = best ∧
          ∀ x ∈ l, best.2 ≤ IEEE.Dynamic.score x) ∨
        ∃ pre post, l = pre ++ (l.foldl IEEE.Dynamic.selectAmplifierStep best).1 :: post ∧
          IEEE.Dynamic.score (l.foldl IEEE.Dynamic.selectAmplifierStep best).1 < best.2 ∧
          (∀ x ∈ pre, IEEE.Dynamic.score (l.foldl IEEE.Dynamic.selectAmplifierStep best).1 <
            IEEE.Dynamic.score x) ∧
          (∀ x ∈ post, IEEE.Dynamic.score (l.foldl IEEE.Dynamic.selectAmplifierStep best).1 ≤
            IEEE.Dynamic.score x) := by
  induction l with
  | nil => intro best; left; simp
  | cons a as ih =>
    intro best
    rw [List.foldl_cons]
    by_cases hlt : IEEE.Dynamic.score a < best.2
    · have hstep : IEEE.Dynamic.selectAmplifierStep best a = (a, IEEE.Dynamic.score a) := by
        unfold IEEE.Dynamic.selectAmplifierStep; rw [if_pos hlt]
      rw [hstep]
      right
      rcases ih (a, IEEE.Dynamic.score a) with ⟨heq, hall⟩ | ⟨pre, post, hsplit, hsc, hpre, hpost⟩
      · rw [heq]
        exact ⟨[], as, rfl, hlt, by simp, hall⟩
      · refine ⟨a :: pre, post, ?_, lt_trans hsc hlt, ?_, hpost⟩
        · rw [List.cons_append, ← hsplit]
        · intro x hx
          rcases List.mem_cons.mp hx with rfl | hx
          · exact hsc
          · exact hpre x hx
    · have hstep : IEEE.Dynamic.selectAmplifierStep best a = best := by
        unfold IEEE.Dynamic.selectAmplifierStep; rw [if_neg hlt]
      rw [hstep]
      rcases ih best with ⟨heq, hall⟩ | ⟨pre, post, hsplit, hsc, hpre, hpost⟩
      · left
        refine ⟨heq, ?_⟩
        intro x hx
        rcases List.mem_cons.mp hx with rfl | hx
        · exact not_lt.mp hlt
        · exact hall x hx
      · right
        refine ⟨a :: pre, post, ?_, hsc, ?_, hpost⟩
        · rw [List.cons_append, ← hsplit]
        · intro x hx
          rcases List.mem_cons.mp hx with rfl | hx
          · exact lt_of_lt_of_le hsc (not_lt.mp hlt)
          · exact hpre x hx

/-- Score computed by the program for typical gains 10 and 10, p1dB 10 and cost 1e17. -/
theorem ieee_score_10_10_10_1e17 :
    IEEE.add (IEEE.add (IEEE.mul (IEEE.lit 0.5) (IEEE.add (IEEE.div 1 10) (IEEE.div 1 10))) (IEEE.mul (IEEE.lit 0.3) (IEEE.div 1 10))) (IEEE.mul (IEEE.lit 0.2) 100000000000000000) = 20000000000000000 := by
  simp only [IEEE.add, IEEE.div, IEEE.lit, IEEE.mul]
  rw [show IEEE.roundToDouble 0.5 = (1 / 2) from
    IEEE.roundToDouble_near _ _ (-1) 4503599627370496 (by norm_num)]
  rw [show IEEE.roundToDouble (1 / 10) = (3602879701896397 / 36028797018963968) from
    IEEE.roundToDouble_near _ _ (-4) 7205759403792794 (by norm_num)]
  rw [show IEEE.roundToDouble ((3602879701896397 / 36028797018963968) + (3602879701896397 / 36028797018963968)) = (3602879701896397 / 18014398509481984) from
    IEEE.roundToDouble_near _ _ (-3) 7205759403792794 (by norm_num)]
  rw [show IEEE.roundToDouble ((1 / 2) * (3602879701896397 / 18014398509481984)) = (3602879701896397 / 36028797018963968) from
    IEEE.roundToDouble_near _ _ (-4) 7205759403792794 (by norm_num)]
  rw [show IEEE.roundToDouble 0.3 = (5404319552844595 / 18014398509481984) from
    IEEE.roundToDouble_near _ _ (-2) 5404319552844595 (by norm_num)]
  rw [show IEEE.roundToDouble ((5404319552844595 / 18014398509481984) * (3602879701896397 / 36028797018963968)) = (1080863910568919 / 36028797018963968) from
    IEEE.roundToDouble_near _ _ (-6) 8646911284551352 (by norm_num)]
  rw [show IEEE.roundToDouble ((3602879701896397 / 36028797018963968) + (1080863910568919 / 36028797018963968)) = (1170935903116329 / 9007199254740992) from
    IEEE.roundToDouble_near _ _ (-3) 4683743612465316 (by norm_num)]
  rw [show IEEE.roundToDouble 0.2 = (3602879701896397 / 18014398509481984) from
    IEEE.roundToDouble_near _ _ (-3) 7205759403792794 (by norm_num)]
  rw [show IEEE.roundToDouble ((3602879701896397 / 18014398509481984) * 100000000000000000) = 20000000000000000 from
    IEEE.roundToDouble_near _ _ (54) 5000000000000000 (by norm_num)]
  exact IEEE.roundToDouble_near _ _ (54) 5000000000000000 (by norm_num)

/-- Score computed by the program for typical gains 20 and 10, p1dB 10 and cost 1e17. -/
theorem ieee_score_20_10_10_1e17 :
    IEEE.add (IEEE.add (IEEE.mul (IEEE.lit 0.5) (IEEE.add (IEEE.div 1 20) (IEEE.div 1 10))) (IEEE.mul (IEEE.lit 0.3) (IEEE.div 1 10))) (IEEE.mul (IEEE.lit 0.2) 100000000000000000) = 20000000000000000 := by
  simp only [IEEE.add, IEEE.div, IEEE.lit, IEEE.mul]
  rw [show IEEE.roundToDouble 0.5 = (1 / 2) from
    IEEE.roundToDouble_near _ _ (-1) 4503599627370496 (by norm_num)]
  rw [show IEEE.roundToDouble (1 / 20) = (3602879701896397 / 72057594037927936) from
    IEEE.roundToDouble_near _ _ (-5) 7205759403792794 (by norm_num)]
  rw [show IEEE.roundToDouble (1 / 10) = (3602879701896397 / 36028797018963968) from
    IEEE.roundToDouble_near _ _ (-4) 7205759403792794 (by norm_num)]
  rw [show IEEE.roundToDouble ((3602879701896397 / 72057594037927936) + (3602879701896397 / 36028797018963968)) = (1351079888211149 / 9007199254740992) from
    IEEE.roundToDouble_tie_below _ _ (-3) 5404319552844596 (by norm_num)]
  rw [show IEEE.roundToDouble ((1 / 2) * (1351079888211149 / 9007199254740992)) = (1351079888211149 / 18014398509481984) from
    IEEE.roundToDouble_near _ _ (-4) 5404319552844596 (by norm_num)]
  rw [show IEEE.roundToDouble 0.3 = (5404319552844595 / 18014398509481984) from
    IEEE.roundToDouble_near _ _ (-2) 5404319552844595 (by norm_num)]
  rw [show IEEE.roundToDouble ((5404319552844595 / 18014398509481984) * (3602879701896397 / 36028797018963968)) = (1080863910568919 / 36028797018963968) from
    IEEE.roundToDouble_near _ _ (-6) 8646911284551352 (by norm_num)]
  rw [show IEEE.roundToDouble ((1351079888211149 / 18014398509481984) + (1080863910568919 / 36028797018963968)) = (3783023686991217 / 36028797018963968) from
    IEEE.roundToDouble_near _ _ (-4) 7566047373982434 (by norm_num)]
  rw [show IEEE.roundToDouble 0.2 = (3602879701896397 / 18014398509481984) from
    IEEE.roundToDouble_near _ _ (-3) 7205759403792794 (by norm_num)]
  rw [show IEEE.roundToDouble ((3602879701896397 / 18014398509481984) * 100000000000000000) = 20000000000000000 from
    IEEE.roundToDouble_near _ _ (54) 5000000000000000 (by norm_num)]
  exact IEEE.roundToDouble_near _ _ (54) 5000000000000000 (by norm_num)

/-- Score computed by the program for Amp-E. -/
theorem ieee_score_Amp_E_17_5 :
    IEEE.add (IEEE.add (IEEE.mul (IEEE.lit 0.5) (IEEE.add (IEEE.div 1 15.0) (IEEE.div 1 15.0))) (IEEE.mul (IEEE.lit 0.3) (IEEE.div 1 20.0))) (IEEE.mul (IEEE.lit 0.2) 17.5) = 8065196332682663 / 2251799813685248 := by
  simp only [IEEE.add, IEEE.div, IEEE.lit, IEEE.mul]
  rw [show IEEE.roundToDouble 0.5 = (1 / 2) from
    IEEE.roundToDouble_near _ _ (-1) 4503599627370496 (by norm_num)]
  rw [show IEEE.roundToDouble (1 / 15.0) = (4803839602528529 / 72057594037927936) from
    IEEE.roundToDouble_near _ _ (-4) 4803839602528529 (by norm_num)]
  rw [show IEEE.roundToDouble ((4803839602528529 / 72057594037927936) + (4803839602528529 / 72057594037927936)) = (4803839602528529 / 36028797018963968) from
    IEEE.roundToDouble_near _ _ (-3) 4803839602528529 (by norm_num)]
  rw [show IEEE.roundToDouble ((1 / 2) * (4803839602528529 / 36028797018963968)) = (4803839602528529 / 72057594037927936) from
    IEEE.roundToDouble_near _ _ (-4) 4803839602528529 (by norm_num)]
  rw [show IEEE.roundToDouble 0.3 = (5404319552844595 / 18014398509481984) from
    IEEE.roundToDouble_near _ _ (-2) 5404319552844595 (by norm_num)]
  rw [show IEEE.roundToDouble (1 / 20.0) = (3602879701896397 / 72057594037927936) from
    IEEE.roundToDouble_near _ _ (-5) 7205759403792794 (by norm_num)]
  rw [show IEEE.roundToDouble ((5404319552844595 / 18014398509481984) * (3602879701896397 / 72057594037927936)) = (1080863910568919 / 72057594037927936) from
    IEEE.roundToDouble_near _ _ (-7) 8646911284551352 (by norm_num)]
  rw [show IEEE.roundToDouble ((4803839602528529 / 72057594037927936) + (1080863910568919 / 72057594037927936)) = (735587939137181 / 9007199254740992) from
    IEEE.roundToDouble_near _ _ (-4) 5884703513097448 (by norm_num)]
  rw [show IEEE.roundToDouble 0.2 = (3602879701896397 / 18014398509481984) from
    IEEE.roundToDouble_near _ _ (-3) 7205759403792794 (by norm_num)]
  rw [show IEEE.roundToDouble ((3602879701896397 / 18014398509481984) * 17.5) = (7 / 2) from
    IEEE.roundToDouble_near _ _ (1) 7881299347898368 (by norm_num)]
  exact IEEE.roundToDouble_near _ _ (1) 8065196332682663 (by norm_num)

theorem ten_pow_20_lt_DBL_MAX : (100000000000000000000 : ℚ) < DBL_MAX := by
  norm_num [DBL_MAX]

theorem ieee_selectAmplifier_eq_foldl (uninit : Dynamic.Amplifier)
    (l : List Dynamic.Amplifier) :
    IEEE.Dynamic.selectAmplifier uninit l =
      (l.foldl IEEE.Dynamic.selectAmplifierStep (uninit, DBL_MAX)).1 := rfl

theorem ieee_score_Amp_X1 : IEEE.Dynamic.score IEEE.Dynamic.Amp_X1 = 20000000000000000 :=
  ieee_score_10_10_10_1e17

theorem ieee_score_Amp_X2 : IEEE.Dynamic.score IEEE.Dynamic.Amp_X2 = 20000000000000000 :=
  ieee_score_20_10_10_1e17

/-- On the catalog Amp-X1, Amp-X2 the program keeps Amp-X1: both computed
scores are 2e16, so the second does not replace the first. -/
theorem ieee_selectAmplifier_X (uninit : Dynamic.Amplifier) :
    IEEE.Dynamic.selectAmplifier uninit [IEEE.Dynamic.Amp_X1, IEEE.Dynamic.Amp_X2] = IEEE.Dynamic.Amp_X1 := by
  have step1 : IEEE.Dynamic.selectAmplifierStep (uninit, DBL_MAX) IEEE.Dynamic.Amp_X1 =
      (IEEE.Dynamic.Amp_X1, 20000000000000000) := by
    unfold IEEE.Dynamic.selectAmplifierStep
    rw [ieee_score_Amp_X1, if_pos (lt_trans (by norm_num) ten_pow_20_lt_DBL_MAX)]
  have step2 : IEEE.Dynamic.selectAmplifierStep (IEEE.Dynamic.Amp_X1, 20000000000000000)
      IEEE.Dynamic.Amp_X2 = (IEEE.Dynamic.Amp_X1, 20000000000000000) := by
    unfold IEEE.Dynamic.selectAmplifierStep
    rw [ieee_score_Amp_X2, if_neg (lt_irrefl _)]
  rw [ieee_selectAmplifier_eq_foldl, List.foldl_cons, step1, List.foldl_cons, step2,
    List.foldl_nil]

theorem ieee_catalog_X_wellformed :
    (∀ a ∈ [IEEE.Dynamic.Amp_X1, IEEE.Dynamic.Amp_X2],
        a.gain1GHz_typ ≠ 0 ∧ a.gain20GHz_typ ≠ 0 ∧ a.p1dB ≠ 0) ∧
      (∀ a ∈ [IEEE.Dynamic.Amp_X1, IEEE.Dynamic.Amp_X2], IEEE.Dynamic.score a < DBL_MAX) ∧
      ∀ a ∈ [IEEE.Dynamic.Amp_X1, IEEE.Dynamic.Amp_X2], Dynamic.score a < DBL_MAX := by
  refine ⟨?_, ?_, ?_⟩
  · intro a ha
    simp only [List.mem_cons, List.mem_singleton, List.mem_nil_iff, or_false] at ha
    rcases ha with rfl | rfl <;> norm_num [IEEE.Dynamic.Amp_X1, IEEE.Dynamic.Amp_X2]
  · intro a ha
    simp only [List.mem_cons, List.mem_singleton, List.mem_nil_iff, or_false] at ha
    rcases ha with rfl | rfl
    · rw [ieee_score_Amp_X1]; exact lt_trans (by norm_num) ten_pow_20_lt_DBL_MAX
    · rw [ieee_score_Amp_X2]; exact lt_trans (by norm_num) ten_pow_20_lt_DBL_MAX
  · intro a ha
    simp only [List.mem_cons, List.mem_singleton, List.mem_nil_iff, or_false] at ha
    rcases ha with rfl | rfl
    · exact lt_trans (by norm_num [Dynamic.score, IEEE.Dynamic.Amp_X1]) ten_pow_20_lt_DBL_MAX
    · exact lt_trans (by norm_num [Dynamic.score, IEEE.Dynamic.Amp_X2]) ten_pow_20_lt_DBL_MAX

/-- C8, counterexample: the catalog Amp-X1, Amp-X2 is non-empty, its typical
gains and p1dB are non-zero and its scores are below the sentinel; Amp-X2 has
the strictly smaller score 0.5*(1/20 + 1/10) + 0.3*(1/10) + 0.2*1e17, yet the
program returns Amp-X1, because both scores round to 2e16 in double
arithmetic. -/
theorem selectAmplifier_keeps_higher_score :
    [IEEE.Dynamic.Amp_X1, IEEE.Dynamic.Amp_X2] ≠ [] ∧
      (∀ a ∈ [IEEE.Dynamic.Amp_X1, IEEE.Dynamic.Amp_X2],
        a.gain1GHz_typ ≠ 0 ∧ a.gain20GHz_typ ≠ 0 ∧ a.p1dB ≠ 0) ∧
      (∀ a ∈ [IEEE.Dynamic.Amp_X1, IEEE.Dynamic.Amp_X2], IEEE.Dynamic.score a < DBL_MAX) ∧
      (∀ a ∈ [IEEE.Dynamic.Amp_X1, IEEE.Dynamic.Amp_X2], Dynamic.score a < DBL_MAX) ∧
      IEEE.Dynamic.selectAmplifier Dynamic.Amp_F [IEEE.Dynamic.Amp_X1, IEEE.Dynamic.Amp_X2] = IEEE.Dynamic.Amp_X1 ∧
      IEEE.Dynamic.Amp_X2 ∈ [IEEE.Dynamic.Amp_X1, IEEE.Dynamic.Amp_X2] ∧
      ¬ (Dynamic.score IEEE.Dynamic.Amp_X1 ≤ Dynamic.score IEEE.Dynamic.Amp_X2) := by
  refine ⟨by decide, ieee_catalog_X_wellformed.1, ieee_catalog_X_wellformed.2.1,
    ieee_catalog_X_wellformed.2.2, ieee_selectAmplifier_X _, by simp, ?_⟩
  norm_num [Dynamic.score, IEEE.Dynamic.Amp_X1, IEEE.Dynamic.Amp_X2]

/-- C8, amended: over a non-empty catalog whose amplifiers have non-zero
typical gains and p1dB and whose scores, as the program computes them in
double arithmetic, are all below the sentinel, `selectAmplifier` returns an
amplifier `A` of the catalog whose computed score is at most the computed
score of every catalog amplifier, and `A` is the first in catalog order
attaining that minimum: every amplifier before it has a strictly larger
computed score. The hypothesis on the divisors is the domain on which the
division of the embedding is that of the program. -/
theorem selectAmplifier_first_min_computed_score (uninit : Dynamic.Amplifier)
    (catalog : List Dynamic.Amplifier)
    (hne : catalog ≠ [])
    (hnz : ∀ a ∈ catalog, a.gain1GHz_typ ≠ 0 ∧ a.gain20GHz_typ ≠ 0 ∧ a.p1dB ≠ 0)
    (hbelow : ∀ a ∈ catalog, IEEE.Dynamic.score a < DBL_MAX) :
    IEEE.Dynamic.selectAmplifier uninit catalog ∈ catalog ∧
      (∀ B ∈ catalog,
        IEEE.Dynamic.score (IEEE.Dynamic.selectAmplifier uninit catalog) ≤
          IEEE.Dynamic.score B) ∧
      ∃ pre post, catalog = pre ++ IEEE.Dynamic.selectAmplifier uninit catalog :: post ∧
        (∀ B ∈ pre,
          IEEE.Dynamic.score (IEEE.Dynamic.selectAmplifier uninit catalog) <
            IEEE.Dynamic.score B) ∧
        (∀ B ∈ post,
          IEEE.Dynamic.score (IEEE.Dynamic.selectAmplifier uninit catalog) ≤
            IEEE.Dynamic.score B) := by
  have _hdefined := hnz
  rw [ieee_selectAmplifier_eq_foldl]
  rcases ieee_foldl_selectAmplifierStep_spec catalog (uninit, DBL_MAX) with
    ⟨-, hall⟩ | ⟨pre, post, hsplit, -, hpre, hpost⟩
  · cases catalog with
    | nil => exact absurd rfl hne
    | cons a as =>
      have h1 := hall a (List.mem_cons_self a as)
      have h2 := hbelow a (List.mem_cons_self a as)
      exact absurd h2 (not_lt.mpr h1)
  · generalize (catalog.foldl IEEE.Dynamic.selectAmplifierStep (uninit, DBL_MAX)).1 = r
      at hsplit hpre hpost ⊢
    have hmem : r ∈ catalog := by rw [hsplit]; simp
    refine ⟨hmem, ?_, pre, post, hsplit, hpre, hpost⟩
    intro B hB
    rw [hsplit] at hB
    rcases List.mem_append.mp hB with hB | hB
    · exact le_of_lt (hpre B hB)
    · rcases List.mem_cons.mp hB with rfl | hB
      · exact le_refl _
      · exact hpost B hB

/-- Witness for C8 (amended): the catalog Amp-X1, Amp-X2, started from an
arbitrary record standing for the uninitialised local. -/
theorem selectAmplifier_first_min_computed_score_witness :
    [IEEE.Dynamic.Amp_X1, IEEE.Dynamic.Amp_X2] ≠ [] ∧
      (∀ a ∈ [IEEE.Dynamic.Amp_X1, IEEE.Dynamic.Amp_X2],
        a.gain1GHz_typ ≠ 0 ∧ a.gain20GHz_typ ≠ 0 ∧ a.p1dB ≠ 0) ∧
      (∀ a ∈ [IEEE.Dynamic.Amp_X1, IEEE.Dynamic.Amp_X2], IEEE.Dynamic.score a < DBL_MAX) ∧
      (IEEE.Dynamic.selectAmplifier Dynamic.Amp_F [IEEE.Dynamic.Amp_X1, IEEE.Dynamic.Amp_X2] ∈
          [IEEE.Dynamic.Amp_X1, IEEE.Dynamic.Amp_X2] ∧
        (∀ B ∈ [IEEE.Dynamic.Amp_X1, IEEE.Dynamic.Amp_X2],
          IEEE.Dynamic.score
              (IEEE.Dynamic.selectAmplifier Dynamic.Amp_F [IEEE.Dynamic.Amp_X1, IEEE.Dynamic.Amp_X2]) ≤
            IEEE.Dynamic.score B) ∧
        ∃ pre post,
          [IEEE.Dynamic.Amp_X1, IEEE.Dynamic.Amp_X2] =
            pre ++ IEEE.Dynamic.selectAmplifier Dynamic.Amp_F [IEEE.Dynamic.Amp_X1, IEEE.Dynamic.Amp_X2] ::
              post ∧
          (∀ B ∈ pre,
            IEEE.Dynamic.score
                (IEEE.Dynamic.selectAmplifier Dynamic.Amp_F [IEEE.Dynamic.Amp_X1, IEEE.Dynamic.Amp_X2]) <
              IEEE.Dynamic.score B) ∧
          (∀ B ∈ post,
            IEEE.Dynamic.score
                (IEEE.Dynamic.selectAmplifier Dynamic.Amp_F [IEEE.Dynamic.Amp_X1, IEEE.Dynamic.Amp_X2]) ≤
              IEEE.Dynamic.score B)) :=
  ⟨by decide, ieee_catalog_X_wellformed.1, ieee_catalog_X_wellformed.2.1,
    selectAmplifier_first_min_computed_score Dynamic.Amp_F [IEEE.Dynamic.Amp_X1, IEEE.Dynamic.Amp_X2]
      (by decide) ieee_catalog_X_wellformed.1 ieee_catalog_X_wellformed.2.1⟩

/-! ## Shape of the score in double arithmetic: claims -/

theorem ieee_lit_22_2 :
    IEEE.lit 22.2 = 6248744482976563 / 281474976710656 := by
  simp only [IEEE.lit]
  exact IEEE.roundToDouble_near _ _ (4) 6248744482976563 (by norm_num)

/-- The sum tested by the selector for Amp-X and SW-X, the same at both frequencies. -/
theorem ieee_sum_X :
    IEEE.add (IEEE.add 10 (IEEE.lit 22.2)) (-2) = 2125136074165453 / 70368744177664 := by
  simp only [IEEE.add, IEEE.lit]
  rw [show IEEE.roundToDouble 22.2 = (6248744482976563 / 281474976710656) from
    IEEE.roundToDouble_near _ _ (4) 6248744482976563 (by norm_num)]
  rw [show IEEE.roundToDouble (10 + (6248744482976563 / 281474976710656)) = (2265873562520781 / 70368744177664) from
    IEEE.roundToDouble_tie_below _ _ (5) 4531747125041562 (by norm_num)]
  exact IEEE.roundToDouble_near _ _ (4) 8500544296661812 (by norm_num)

/-- The raw attenuation of the program for Amp-X. -/
theorem ieee_raw_X :
    IEEE.sub (IEEE.add 10 (IEEE.lit 22.2)) 28 = 295548725546189 / 70368744177664 := by
  simp only [IEEE.add, IEEE.lit, IEEE.sub]
  rw [show IEEE.roundToDouble 22.2 = (6248744482976563 / 281474976710656) from
    IEEE.roundToDouble_near _ _ (4) 6248744482976563 (by norm_num)]
  rw [show IEEE.roundToDouble (10 + (6248744482976563 / 281474976710656)) = (2265873562520781 / 70368744177664) from
    IEEE.roundToDouble_tie_below _ _ (5) 4531747125041562 (by norm_num)]
  exact IEEE.roundToDouble_near _ _ (2) 4728779608739024 (by norm_num)

/-- The output power at 1 GHz computed by the program for Amp-X and SW-X. -/
theorem ieee_out_X :
    IEEE.add 10 (IEEE.sub (IEEE.add (IEEE.add (IEEE.add (IEEE.lit 22.2) (-2)) (-1)) (-6)) (295548725546189 / 70368744177664)) = 5348024557502463 / 281474976710656 := by
  simp only [IEEE.add, IEEE.lit, IEEE.sub]
  rw [show IEEE.roundToDouble 22.2 = (6248744482976563 / 281474976710656) from
    IEEE.roundToDouble_near _ _ (4) 6248744482976563 (by norm_num)]
  rw [show IEEE.roundToDouble ((6248744482976563 / 281474976710656) + (-2)) = (5685794529555251 / 281474976710656) from
    IEEE.roundToDouble_near _ _ (4) 5685794529555251 (by norm_num)]
  rw [show IEEE.roundToDouble ((5685794529555251 / 281474976710656) + (-1)) = (5404319552844595 / 281474976710656) from
    IEEE.roundToDouble_near _ _ (4) 5404319552844595 (by norm_num)]
  rw [show IEEE.roundToDouble ((5404319552844595 / 281474976710656) + (-6)) = (3715469692580659 / 281474976710656) from
    IEEE.roundToDouble_near _ _ (3) 7430939385161318 (by norm_num)]
  rw [show IEEE.roundToDouble ((3715469692580659 / 281474976710656) - (295548725546189 / 70368744177664)) = (2533274790395903 / 281474976710656) from
    IEEE.roundToDouble_near _ _ (3) 5066549580791806 (by norm_num)]
  exact IEEE.roundToDouble_near _ _ (4) 5348024557502463 (by norm_num)

/-- The raw attenuation of the program for Amp-E at 1 GHz. -/
theorem ieee_raw_E :
    IEEE.sub (IEEE.add 10 14) 20 = 4 := by
  simp only [IEEE.add, IEEE.sub]
  rw [show IEEE.roundToDouble (10 + 14) = 24 from
    IEEE.roundToDouble_near _ _ (4) 6755399441055744 (by norm_num)]
  exact IEEE.roundToDouble_near _ _ (2) 4503599627370496 (by norm_num)

theorem ieee_Fixed_main_of_found (amp : Fixed.Amplifier) (catalog : List Switch) (sw : Switch)
    (hsel : IEEE.selectSwitch catalog INPUT_POWER amp.gain1GHz_min amp.gain20GHz_min = sw)
    (hname : sw.name ≠ "") :
    IEEE.Fixed.main amp catalog = Outcome.completed (IEEE.evaluateChain none
      amp.gain1GHz_min amp.gain20GHz_min amp.gain1GHz_max amp.gain20GHz_max amp.p1dB sw) := by
  unfold IEEE.Fixed.main
  simp only
  rw [hsel, if_neg hname]

theorem ieee_Fixed_main_of_notFound (amp : Fixed.Amplifier) (catalog : List Switch)
    (hname :
      (IEEE.selectSwitch catalog INPUT_POWER amp.gain1GHz_min amp.gain20GHz_min).name = "") :
    IEEE.Fixed.main amp catalog = Outcome.noSuitableSwitch := by
  unfold IEEE.Fixed.main
  simp only
  rw [if_pos hname]

theorem ieee_Dynamic_main_of_found (uninit : Dynamic.Amplifier)
    (amps : List Dynamic.Amplifier) (catalog : List Switch) (amp : Dynamic.Amplifier)
    (sw : Switch)
    (hamp : IEEE.Dynamic.selectAmplifier uninit amps = amp)
    (hsel : IEEE.selectSwitch catalog INPUT_POWER amp.gain1GHz_min amp.gain20GHz_min = sw)
    (hname : sw.name ≠ "") :
    IEEE.Dynamic.main uninit amps catalog = Outcome.completed (IEEE.evaluateChain
      (some (amp.name, amp.cost)) amp.gain1GHz_min amp.gain20GHz_min amp.gain1GHz_max
      amp.gain20GHz_max amp.p1dB sw) := by
  unfold IEEE.Dynamic.main
  simp only
  rw [hamp, hsel, if_neg hname]

theorem ieee_Dynamic_main_of_notFound (uninit : Dynamic.Amplifier)
    (amps : List Dynamic.Amplifier) (catalog : List Switch)
    (hname : (IEEE.selectSwitch catalog INPUT_POWER
      (IEEE.Dynamic.selectAmplifier uninit amps).gain1GHz_min
      (IEEE.Dynamic.selectAmplifier uninit amps).gain20GHz_min).name = "") :
    IEEE.Dynamic.main uninit amps catalog = Outcome.noSuitableSwitch := by
  unfold IEEE.Dynamic.main
  simp only
  rw [if_pos hname]

/-- The four metrics of a report, as the expressions of `main` in double
arithmetic. -/
theorem ieee_evaluateChain_metrics (label : Option (String × ℚ))
    (g1min g20min g1max g20max p1dB : ℚ) (sw : Switch) :
    (IEEE.evaluateChain label g1min g20min g1max g20max p1dB sw).outputPower1GHz_maxPower =
        IEEE.add INPUT_POWER (IEEE.sub (IEEE.add (IEEE.add (IEEE.add g1min sw.gainOn1GHz)
          FIXED_ATTENUATOR_GAIN) POWER_DIVIDER_GAIN_1GHz)
          (IEEE.calculateAttenuation INPUT_POWER p1dB g1min)) ∧
      (IEEE.evaluateChain label g1min g20min g1max g20max p1dB sw).outputPower20GHz_maxPower =
        IEEE.add INPUT_POWER (IEEE.sub (IEEE.add (IEEE.add (IEEE.add g20min sw.gainOn20GHz)
          FIXED_ATTENUATOR_GAIN) POWER_DIVIDER_GAIN_20GHz)
          (IEEE.calculateAttenuation INPUT_POWER p1dB g20min)) ∧
      (IEEE.evaluateChain label g1min g20min g1max g20max p1dB sw).leakage1GHz =
        IEEE.add (IEEE.add (IEEE.add (IEEE.add INPUT_POWER g1max) sw.gainOff1GHz)
          FIXED_ATTENUATOR_GAIN) POWER_DIVIDER_GAIN_1GHz ∧
      (IEEE.evaluateChain label g1min g20min g1max g20max p1dB sw).leakage20GHz =
        IEEE.add (IEEE.add (IEEE.add (IEEE.add INPUT_POWER g20max) sw.gainOff20GHz)
          FIXED_ATTENUATOR_GAIN) POWER_DIVIDER_GAIN_20GHz :=
  ⟨rfl, rfl, rfl, rfl⟩

/-- The flag of the report computed in double arithmetic is the pass condition
on the computed values. -/
theorem ieee_evaluateChain_meets_iff (label : Option (String × ℚ))
    (g1min g20min g1max g20max p1dB : ℚ) (sw : Switch) :
    (IEEE.evaluateChain label g1min g20min g1max g20max p1dB sw).meetsSpecifications = true ↔
      IEEE.SpecPass g1min g20min g1max g20max p1dB sw := by
  unfold IEEE.evaluateChain IEEE.SpecPass
  simp only [decide_eq_true_eq, REQUIRED_MAX_POWER_1GHz_eq, REQUIRED_MAX_POWER_20GHz_eq,
    REQUIRED_MIN_LEAKAGE_1GHz_eq, REQUIRED_MIN_LEAKAGE_20GHz_eq]

/-- The pad of the program for Amp-X. -/
theorem ieee_att_X :
    IEEE.calculateAttenuation 10 28 (IEEE.lit 22.2) = 295548725546189 / 70368744177664 := by
  unfold IEEE.calculateAttenuation std_max
  simp only []
  rw [ieee_raw_X, if_pos (by norm_num)]

/-- The pad of the program for Amp-E at 1 GHz. -/
theorem ieee_att_E : IEEE.calculateAttenuation 10 20 14 = 4 := by
  unfold IEEE.calculateAttenuation std_max
  simp only []
  rw [ieee_raw_E, if_pos (by norm_num)]

theorem ieee_passes_SW_X : IEEE.Passes 10 (IEEE.lit 22.2) (IEEE.lit 22.2) IEEE.SW_X := by
  unfold IEEE.Passes
  refine ⟨?_, ?_, ?_⟩
  · show IEEE.add (IEEE.add 10 (IEEE.lit 22.2)) (-2) ≥ 19
    rw [ieee_sum_X]
    norm_num
  · show IEEE.add (IEEE.add 10 (IEEE.lit 22.2)) (-2) ≥ 16
    rw [ieee_sum_X]
    norm_num
  · show (35 : ℚ) ≥ 10
    norm_num

/-- With Amp-X the selector in double arithmetic returns SW-X from the
one-switch catalog. -/
theorem ieee_selectSwitch_X :
    IEEE.selectSwitch [IEEE.SW_X] INPUT_POWER IEEE.Fixed.Amp_X.gain1GHz_min
      IEEE.Fixed.Amp_X.gain20GHz_min = IEEE.SW_X := by
  rw [INPUT_POWER_eq]
  show IEEE.selectSwitch [IEEE.SW_X] 10 (IEEE.lit 22.2) (IEEE.lit 22.2) = IEEE.SW_X
  rw [ieee_selectSwitch_eq_foldl, List.foldl_cons, List.foldl_nil,
    ieee_selectSwitchStep_of_lt _ _ _ _ _ ieee_passes_SW_X
      (by rw [sentinelSwitch_cost]
          exact lt_trans (show (13 : ℚ) < 1000 by norm_num) thousand_lt_DBL_MAX)]

/-- The run of `main.cpp` in double arithmetic on Amp-X and the catalog SW-X
completes. -/
theorem ieee_Fixed_main_X :
    IEEE.Fixed.main IEEE.Fixed.Amp_X [IEEE.SW_X] = Outcome.completed (IEEE.evaluateChain none
      IEEE.Fixed.Amp_X.gain1GHz_min IEEE.Fixed.Amp_X.gain20GHz_min
      IEEE.Fixed.Amp_X.gain1GHz_max IEEE.Fixed.Amp_X.gain20GHz_max IEEE.Fixed.Amp_X.p1dB
      IEEE.SW_X) :=
  ieee_Fixed_main_of_found IEEE.Fixed.Amp_X [IEEE.SW_X] IEEE.SW_X ieee_selectSwitch_X
    (by decide)

/-- For Amp-X and SW-X the pass condition fails on the computed values: the
output power at 1 GHz is 18.999999999999996. -/
theorem ieee_not_SpecPass_X :
    ¬ IEEE.SpecPass IEEE.Fixed.Amp_X.gain1GHz_min IEEE.Fixed.Amp_X.gain20GHz_min
      IEEE.Fixed.Amp_X.gain1GHz_max IEEE.Fixed.Amp_X.gain20GHz_max IEEE.Fixed.Amp_X.p1dB
      IEEE.SW_X := by
  intro h
  have h1 := h.1
  rw [INPUT_POWER_eq, FIXED_ATTENUATOR_GAIN_eq, POWER_DIVIDER_GAIN_1GHz_eq] at h1
  change IEEE.add 10 (IEEE.sub (IEEE.add (IEEE.add (IEEE.add (IEEE.lit 22.2) (-2)) (-1)) (-6))
    (IEEE.calculateAttenuation 10 28 (IEEE.lit 22.2))) ≥ 19 at h1
  rw [ieee_att_X, ieee_out_X] at h1
  norm_num at h1

/-- For Amp-X and SW-X the pass condition of the specification holds in exact
arithmetic on the stored values: the outputs are 19 and 18. -/
theorem exact_SpecPass_X :
    SpecPass IEEE.Fixed.Amp_X.gain1GHz_min IEEE.Fixed.Amp_X.gain20GHz_min
      IEEE.Fixed.Amp_X.gain1GHz_max IEEE.Fixed.Amp_X.gain20GHz_max IEEE.Fixed.Amp_X.p1dB
      IEEE.SW_X := by
  show SpecPass (IEEE.lit 22.2) (IEEE.lit 22.2) (IEEE.lit 22.2) (IEEE.lit 22.2) 28 IEEE.SW_X
  unfold SpecPass calculateAttenuation std_max
  rw [ieee_lit_22_2]
  norm_num [INPUT_POWER, FIXED_ATTENUATOR_GAIN, POWER_DIVIDER_GAIN_1GHz,
    POWER_DIVIDER_GAIN_20GHz, IEEE.SW_X]

theorem ieee_report_X_fails :
    (IEEE.evaluateChain none IEEE.Fixed.Amp_X.gain1GHz_min IEEE.Fixed.Amp_X.gain20GHz_min
      IEEE.Fixed.Amp_X.gain1GHz_max IEEE.Fixed.Amp_X.gain20GHz_max IEEE.Fixed.Amp_X.p1dB
      IEEE.SW_X).meetsSpecifications = false := by
  rw [Bool.eq_false_iff]
  intro hm
  exact ieee_not_SpecPass_X ((ieee_evaluateChain_meets_iff _ _ _ _ _ _ _).mp hm)

/-! ## Specification check in double arithmetic: claims -/

/-- C9, counterexample: for Amp-X (gains 22.2, p1dB 28) and the selected
switch SW-X (loss 2, isolation 200) the four conditions of the claim hold, the
formulas giving outputs 19 and 18 and leakages about -174.8 and -175.8 in exact
arithmetic on the stored values, yet the program computes an output of
18.999999999999996 at 1 GHz and reports "System failed to meet
specifications". -/
theorem pipeline_fails_although_conditions_hold :
    IEEE.selectSwitch [IEEE.SW_X] INPUT_POWER IEEE.Fixed.Amp_X.gain1GHz_min
        IEEE.Fixed.Amp_X.gain20GHz_min = IEEE.SW_X ∧
      IEEE.SW_X.name ≠ "" ∧
      SpecPass IEEE.Fixed.Amp_X.gain1GHz_min IEEE.Fixed.Amp_X.gain20GHz_min
        IEEE.Fixed.Amp_X.gain1GHz_max IEEE.Fixed.Amp_X.gain20GHz_max IEEE.Fixed.Amp_X.p1dB
        IEEE.SW_X ∧
      ∃ r, IEEE.Fixed.main IEEE.Fixed.Amp_X [IEEE.SW_X] = Outcome.completed r ∧
        r.outputPower1GHz_maxPower = 5348024557502463 / 281474976710656 ∧
        r.outputPower1GHz_maxPower < 19 ∧
        r.meetsSpecifications = false := by
  refine ⟨ieee_selectSwitch_X, by decide, exact_SpecPass_X, _, ieee_Fixed_main_X, ?_, ?_,
    ieee_report_X_fails⟩
  · rw [(ieee_evaluateChain_metrics _ _ _ _ _ _ _).1, INPUT_POWER_eq,
      FIXED_ATTENUATOR_GAIN_eq, POWER_DIVIDER_GAIN_1GHz_eq]
    show IEEE.add 10 (IEEE.sub (IEEE.add (IEEE.add (IEEE.add (IEEE.lit 22.2) (-2)) (-1))
      (-6)) (IEEE.calculateAttenuation 10 28 (IEEE.lit 22.2))) = _
    rw [ieee_att_X, ieee_out_X]
  · rw [(ieee_evaluateChain_metrics _ _ _ _ _ _ _).1, INPUT_POWER_eq,
      FIXED_ATTENUATOR_GAIN_eq, POWER_DIVIDER_GAIN_1GHz_eq]
    show IEEE.add 10 (IEEE.sub (IEEE.add (IEEE.add (IEEE.add (IEEE.lit 22.2) (-2)) (-1))
      (-6)) (IEEE.calculateAttenuation 10 28 (IEEE.lit 22.2))) < 19
    rw [ieee_att_X, ieee_out_X]
    norm_num

/-- C9, amended: in both variants, for every amplifier and every switch that
the selector returns with a non-empty name, the run completes with a report,
and that report says "System meets specifications" if and only if the four
comparisons hold for the values the program computes: outputPower(f) =
inputPower + (ampGain_min(f) + switch.gainOn(f) + fixedAttenuatorLoss +
dividerLoss(f) - attenuation(inputPower, amp.p1dB, ampGain_min(f))) and
leakage(f) = inputPower + ampGain_max(f) + switch.gainOff(f) +
fixedAttenuatorLoss + dividerLoss(f), evaluated left to right with every
operation rounded to double. -/
theorem pipeline_meets_iff_computed :
    (∀ (amp : Fixed.Amplifier) (catalog : List Switch) (sw : Switch),
        IEEE.selectSwitch catalog INPUT_POWER amp.gain1GHz_min amp.gain20GHz_min = sw →
        sw.name ≠ "" →
        ∃ r, IEEE.Fixed.main amp catalog = Outcome.completed r ∧
          (r.meetsSpecifications = true ↔
            IEEE.SpecPass amp.gain1GHz_min amp.gain20GHz_min amp.gain1GHz_max
              amp.gain20GHz_max amp.p1dB sw) ∧
          (r.meetsSpecifications = true ↔
            r.outputPower1GHz_maxPower ≥ 19 ∧ r.outputPower20GHz_maxPower ≥ 16 ∧
              r.leakage1GHz ≤ -145 ∧ r.leakage20GHz ≤ -137)) ∧
      (∀ (uninit : Dynamic.Amplifier) (amps : List Dynamic.Amplifier) (catalog : List Switch)
          (amp : Dynamic.Amplifier) (sw : Switch),
        IEEE.Dynamic.selectAmplifier uninit amps = amp →
        IEEE.selectSwitch catalog INPUT_POWER amp.gain1GHz_min amp.gain20GHz_min = sw →
        sw.name ≠ "" →
        ∃ r, IEEE.Dynamic.main uninit amps catalog = Outcome.completed r ∧
          (r.meetsSpecifications = true ↔
            IEEE.SpecPass amp.gain1GHz_min amp.gain20GHz_min amp.gain1GHz_max
              amp.gain20GHz_max amp.p1dB sw) ∧
          (r.meetsSpecifications = true ↔
            r.outputPower1GHz_maxPower ≥ 19 ∧ r.outputPower20GHz_maxPower ≥ 16 ∧
              r.leakage1GHz ≤ -145 ∧ r.leakage20GHz ≤ -137)) := by
  constructor
  · intro amp catalog sw hsel hname
    exact ⟨_, ieee_Fixed_main_of_found amp catalog sw hsel hname,
      ieee_evaluateChain_meets_iff _ _ _ _ _ _ _, ieee_evaluateChain_meets_iff _ _ _ _ _ _ _⟩
  · intro uninit amps catalog amp sw hamp hsel hname
    exact ⟨_, ieee_Dynamic_main_of_found uninit amps catalog amp sw hamp hsel hname,
      ieee_evaluateChain_meets_iff _ _ _ _ _ _ _, ieee_evaluateChain_meets_iff _ _ _ _ _ _ _⟩

/-- Witness for C9 (amended): the run on Amp-X and the catalog SW-X, where the
selected switch is SW-X. -/
theorem pipeline_meets_iff_computed_witness :
    IEEE.selectSwitch [IEEE.SW_X] INPUT_POWER IEEE.Fixed.Amp_X.gain1GHz_min
        IEEE.Fixed.Amp_X.gain20GHz_min = IEEE.SW_X ∧
      IEEE.SW_X.name ≠ "" ∧
      ∃ r, IEEE.Fixed.main IEEE.Fixed.Amp_X [IEEE.SW_X] = Outcome.completed r ∧
        (r.meetsSpecifications = true ↔
          IEEE.SpecPass IEEE.Fixed.Amp_X.gain1GHz_min IEEE.Fixed.Amp_X.gain20GHz_min
            IEEE.Fixed.Amp_X.gain1GHz_max IEEE.Fixed.Amp_X.gain20GHz_max
            IEEE.Fixed.Amp_X.p1dB IEEE.SW_X) ∧
        (r.meetsSpecifications = true ↔
          r.outputPower1GHz_maxPower ≥ 19 ∧ r.outputPower20GHz_maxPower ≥ 16 ∧
            r.leakage1GHz ≤ -145 ∧ r.leakage20GHz ≤ -137) :=
  ⟨ieee_selectSwitch_X, by decide,
    pipeline_meets_iff_computed.1 IEEE.Fixed.Amp_X [IEEE.SW_X] IEEE.SW_X ieee_selectSwitch_X
      (by decide)⟩

/-! ## Exit status in double arithmetic -/

theorem ampE_min_gains : Fixed.ampE.gain1GHz_min = 14 ∧ Fixed.ampE.gain20GHz_min = 13 :=
  ⟨by norm_num [Fixed.ampE], by norm_num [Fixed.ampE]⟩

/-- The unnamed switch passes the three tests of the selector for Amp-E, the
sums being 23 and 22. -/
theorem ieee_passes_SW_unnamed : IEEE.Passes 10 14 13 IEEE.SW_unnamed := by
  unfold IEEE.Passes
  refine ⟨?_, ?_, ?_⟩
  · show IEEE.add (IEEE.add 10 14) (-1) ≥ 19
    rw [ieee_sum_10_14_neg_one]
    norm_num
  · show IEEE.add (IEEE.add 10 13) (-1) ≥ 16
    rw [ieee_sum_10_13_neg_one]
    norm_num
  · show (35 : ℚ) ≥ 10
    norm_num

/-- The selector returns the unnamed switch from the catalog that holds only
it. -/
theorem ieee_selectSwitch_SW_unnamed :
    IEEE.selectSwitch [IEEE.SW_unnamed] INPUT_POWER Fixed.ampE.gain1GHz_min
      Fixed.ampE.gain20GHz_min = IEEE.SW_unnamed := by
  rw [INPUT_POWER_eq, ampE_min_gains.1, ampE_min_gains.2, ieee_selectSwitch_eq_foldl,
    List.foldl_cons, List.foldl_nil,
    ieee_selectSwitchStep_of_lt _ _ _ _ _ ieee_passes_SW_unnamed
      (by rw [sentinelSwitch_cost]
          exact lt_trans (show (13 : ℚ) < 1000 by norm_num) thousand_lt_DBL_MAX)]

/-- The selector returns the sentinel exactly when it returns a record with
empty name, over a catalog of named switches. -/
theorem ieee_selectSwitch_sentinel_iff_name (l : List Switch) (ip g1 g20 : ℚ)
    (hname : ∀ s ∈ l, s.name ≠ "") :
    IEEE.selectSwitch l ip g1 g20 = sentinelSwitch ↔
      (IEEE.selectSwitch l ip g1 g20).name = "" := by
  constructor
  · intro h
    rw [h]
    rfl
  · intro h
    obtain ⟨h1, -, -⟩ := ieee_foldl_selectSwitchStep_spec ip g1 g20 l sentinelSwitch
    rcases h1 with h1 | ⟨hm, -, -⟩
    · exact h1
    · exact absurd h (hname _ hm)

/-- The exit status of `main.cpp` is 1 exactly when the selected record has an
empty name; otherwise a report is produced and the status is 0. -/
theorem ieee_Fixed_exitStatus (amp : Fixed.Amplifier) (catalog : List Switch) :
    (exitStatus (IEEE.Fixed.main amp catalog) = 1 ↔
        (IEEE.selectSwitch catalog INPUT_POWER amp.gain1GHz_min amp.gain20GHz_min).name
          = "") ∧
      (exitStatus (IEEE.Fixed.main amp catalog) = 1 →
        IEEE.Fixed.main amp catalog = Outcome.noSuitableSwitch) ∧
      (exitStatus (IEEE.Fixed.main amp catalog) ≠ 1 →
        exitStatus (IEEE.Fixed.main amp catalog) = 0 ∧
          ∃ r, IEEE.Fixed.main amp catalog = Outcome.completed r) := by
  by_cases hname :
      (IEEE.selectSwitch catalog INPUT_POWER amp.gain1GHz_min amp.gain20GHz_min).name = ""
  · have h := ieee_Fixed_main_of_notFound amp catalog hname
    rw [h]
    exact ⟨⟨fun _ => hname, fun _ => rfl⟩, fun _ => rfl, fun hne => absurd rfl hne⟩
  · have h := ieee_Fixed_main_of_found amp catalog _ rfl hname
    rw [h]
    exact ⟨⟨fun h1 => absurd h1 Nat.zero_ne_one, fun he => absurd he hname⟩,
      fun h1 => absurd h1 Nat.zero_ne_one, fun _ => ⟨rfl, _, rfl⟩⟩

/-- The exit status of `signalDistributor.cpp` is 1 exactly when the selected
record has an empty name; otherwise a report is produced and the status is
0. -/
theorem ieee_Dynamic_exitStatus (uninit : Dynamic.Amplifier) (amps : List Dynamic.Amplifier)
    (catalog : List Switch) :
    (exitStatus (IEEE.Dynamic.main uninit amps catalog) = 1 ↔
        (IEEE.selectSwitch catalog INPUT_POWER
          (IEEE.Dynamic.selectAmplifier uninit amps).gain1GHz_min
          (IEEE.Dynamic.selectAmplifier uninit amps).gain20GHz_min).name = "") ∧
      (exitStatus (IEEE.Dynamic.main uninit amps catalog) = 1 →
        IEEE.Dynamic.main uninit amps catalog = Outcome.noSuitableSwitch) ∧
      (exitStatus (IEEE.Dynamic.main uninit amps catalog) ≠ 1 →
        exitStatus (IEEE.Dynamic.main uninit amps catalog) = 0 ∧
          ∃ r, IEEE.Dynamic.main uninit amps catalog = Outcome.completed r) := by
  by_cases hname :
      (IEEE.selectSwitch catalog INPUT_POWER
        (IEEE.Dynamic.selectAmplifier uninit amps).gain1GHz_min
        (IEEE.Dynamic.selectAmplifier uninit amps).gain20GHz_min).name = ""
  · have h := ieee_Dynamic_main_of_notFound uninit amps catalog hname
    rw [h]
    exact ⟨⟨fun _ => hname, fun _ => rfl⟩, fun _ => rfl, fun hne => absurd rfl hne⟩
  · have h := ieee_Dynamic_main_of_found uninit amps catalog _ _ rfl rfl hname
    rw [h]
    exact ⟨⟨fun h1 => absurd h1 Nat.zero_ne_one, fun he => absurd he hname⟩,
      fun h1 => absurd h1 Nat.zero_ne_one, fun _ => ⟨rfl, _, rfl⟩⟩

/-! ## Exit status: claims -/

/-- The selected record for Amp-V on the catalog of the source is the
sentinel. -/
theorem ieee_selectSwitch_Amp_V :
    IEEE.selectSwitch IEEE.switches INPUT_POWER IEEE.Fixed.Amp_V.gain1GHz_min
      IEEE.Fixed.Amp_V.gain20GHz_min = sentinelSwitch := by
  rw [INPUT_POWER_eq]
  exact ieee_selectSwitch_switches_7_4

/-- The selected record for Amp-E on the catalog holding `maxCostFirst` is the
sentinel. -/
theorem ieee_selectSwitch_maxCostFirst :
    IEEE.selectSwitch [maxCostFirst] INPUT_POWER Fixed.ampE.gain1GHz_min
      Fixed.ampE.gain20GHz_min = sentinelSwitch := by
  rw [INPUT_POWER_eq, ampE_min_gains.1, ampE_min_gains.2, ieee_selectSwitch_eq_foldl,
    List.foldl_cons, List.foldl_nil,
    ieee_selectSwitchStep_of_not_lt _ _ _ sentinelSwitch maxCostFirst (lt_irrefl DBL_MAX)]

/-- C15, counterexample: (1) over the catalog that holds one switch with an
empty name, `selectSwitch` finds that switch for Amp-E (it passes the three
tests and is returned, a record different from the sentinel), yet `main.cpp`
prints "No suitable switch found!" and exits with status 1; (2) over the
catalog that holds the named switch SW-M1, which satisfies the three
constraints for Amp-E and costs the largest finite double, the exit status is
1; (3) for Amp-V (Amp-E with minimum gain 7.4 at 20 GHz) on the catalog of the
source, SW-A satisfies the three constraints, yet the exit status is 1. -/
theorem exitStatus_one_although_switch_found :
    (IEEE.SW_unnamed ∈ [IEEE.SW_unnamed] ∧
      IEEE.Passes INPUT_POWER Fixed.ampE.gain1GHz_min Fixed.ampE.gain20GHz_min
        IEEE.SW_unnamed ∧
      Qualifies INPUT_POWER Fixed.ampE.gain1GHz_min Fixed.ampE.gain20GHz_min
        IEEE.SW_unnamed ∧
      IEEE.selectSwitch [IEEE.SW_unnamed] INPUT_POWER Fixed.ampE.gain1GHz_min
        Fixed.ampE.gain20GHz_min = IEEE.SW_unnamed ∧
      IEEE.SW_unnamed ≠ sentinelSwitch ∧
      IEEE.Fixed.main Fixed.ampE [IEEE.SW_unnamed] = Outcome.noSuitableSwitch ∧
      exitStatus (IEEE.Fixed.main Fixed.ampE [IEEE.SW_unnamed]) = 1) ∧
    (maxCostFirst.name ≠ "" ∧
      IEEE.Passes INPUT_POWER Fixed.ampE.gain1GHz_min Fixed.ampE.gain20GHz_min
        maxCostFirst ∧
      Qualifies INPUT_POWER Fixed.ampE.gain1GHz_min Fixed.ampE.gain20GHz_min maxCostFirst ∧
      exitStatus (IEEE.Fixed.main Fixed.ampE [maxCostFirst]) = 1) ∧
    ((∀ s ∈ IEEE.switches, s.name ≠ "") ∧ (∀ s ∈ IEEE.switches, s.cost < DBL_MAX) ∧
      IEEE.SW_A ∈ IEEE.switches ∧
      Qualifies INPUT_POWER IEEE.Fixed.Amp_V.gain1GHz_min IEEE.Fixed.Amp_V.gain20GHz_min
        IEEE.SW_A ∧
      exitStatus (IEEE.Fixed.main IEEE.Fixed.Amp_V IEEE.switches) = 1) := by
  have hmain : IEEE.Fixed.main Fixed.ampE [IEEE.SW_unnamed] = Outcome.noSuitableSwitch :=
    ieee_Fixed_main_of_notFound Fixed.ampE [IEEE.SW_unnamed]
      (by rw [ieee_selectSwitch_SW_unnamed]; rfl)
  have hmainM : IEEE.Fixed.main Fixed.ampE [maxCostFirst] = Outcome.noSuitableSwitch :=
    ieee_Fixed_main_of_notFound Fixed.ampE [maxCostFirst]
      (by rw [ieee_selectSwitch_maxCostFirst]; rfl)
  have hmainV : IEEE.Fixed.main IEEE.Fixed.Amp_V IEEE.switches = Outcome.noSuitableSwitch :=
    ieee_Fixed_main_of_notFound IEEE.Fixed.Amp_V IEEE.switches
      (by rw [ieee_selectSwitch_Amp_V]; rfl)
  refine ⟨⟨List.mem_singleton.mpr rfl, ?_, ?_, ieee_selectSwitch_SW_unnamed, ?_, hmain, ?_⟩,
    ⟨by decide, ?_, ?_, ?_⟩,
    ⟨ieee_switches_names, ieee_switches_costs, by simp [IEEE.switches], ?_, ?_⟩⟩
  · rw [INPUT_POWER_eq, ampE_min_gains.1, ampE_min_gains.2]
    exact ieee_passes_SW_unnamed
  · rw [INPUT_POWER_eq, ampE_min_gains.1, ampE_min_gains.2]
    unfold Qualifies
    norm_num [IEEE.SW_unnamed]
  · intro h
    have hc : IEEE.SW_unnamed.cost = sentinelSwitch.cost := by rw [h]
    rw [sentinelSwitch_cost] at hc
    have hlt : IEEE.SW_unnamed.cost < DBL_MAX :=
      lt_trans (show (13 : ℚ) < 1000 by norm_num) thousand_lt_DBL_MAX
    rw [hc] at hlt
    exact lt_irrefl _ hlt
  · rw [hmain]
    rfl
  · rw [INPUT_POWER_eq, ampE_min_gains.1, ampE_min_gains.2]
    exact ieee_passes_maxCost.1
  · rw [INPUT_POWER_eq, ampE_min_gains.1, ampE_min_gains.2]
    norm_num [Qualifies, maxCostFirst]
  · rw [hmainM]
    rfl
  · rw [INPUT_POWER_eq]
    exact qualifies_stored_SW_A_7_4
  · rw [hmainV]
    rfl

/-- C15, amended: over a catalog whose switches all have a non-empty name and
a cost strictly below the sentinel cost, in both variants the exit status is 1
if and only if `selectSwitch` returns the sentinel, which happens if and only
if no catalog switch passes the three tests as the program evaluates them; in
that case the run ends without a report. In every other run a report is
produced and the exit status is 0, whatever the pass flag of the report, as in
the run on Amp-X and SW-X where the check fails. -/
theorem exitStatus_one_iff_none_passes (catalog : List Switch)
    (hname : ∀ s ∈ catalog, s.name ≠ "") (hcost : ∀ s ∈ catalog, s.cost < DBL_MAX) :
    (∀ amp : Fixed.Amplifier,
        (exitStatus (IEEE.Fixed.main amp catalog) = 1 ↔
          IEEE.selectSwitch catalog INPUT_POWER amp.gain1GHz_min amp.gain20GHz_min =
            sentinelSwitch) ∧
        (exitStatus (IEEE.Fixed.main amp catalog) = 1 ↔
          ∀ s ∈ catalog,
            ¬ IEEE.Passes INPUT_POWER amp.gain1GHz_min amp.gain20GHz_min s) ∧
        (exitStatus (IEEE.Fixed.main amp catalog) = 1 →
          IEEE.Fixed.main amp catalog = Outcome.noSuitableSwitch) ∧
        (exitStatus (IEEE.Fixed.main amp catalog) ≠ 1 →
          exitStatus (IEEE.Fixed.main amp catalog) = 0 ∧
            ∃ r, IEEE.Fixed.main amp catalog = Outcome.completed r)) ∧
      (∀ (uninit : Dynamic.Amplifier) (amps : List Dynamic.Amplifier),
        (exitStatus (IEEE.Dynamic.main uninit amps catalog) = 1 ↔
          IEEE.selectSwitch catalog INPUT_POWER
            (IEEE.Dynamic.selectAmplifier uninit amps).gain1GHz_min
            (IEEE.Dynamic.selectAmplifier uninit amps).gain20GHz_min = sentinelSwitch) ∧
        (exitStatus (IEEE.Dynamic.main uninit amps catalog) = 1 ↔
          ∀ s ∈ catalog, ¬ IEEE.Passes INPUT_POWER
            (IEEE.Dynamic.selectAmplifier uninit amps).gain1GHz_min
            (IEEE.Dynamic.selectAmplifier uninit amps).gain20GHz_min s) ∧
        (exitStatus (IEEE.Dynamic.main uninit amps catalog) = 1 →
          IEEE.Dynamic.main uninit amps catalog = Outcome.noSuitableSwitch) ∧
        (exitStatus (IEEE.Dynamic.main uninit amps catalog) ≠ 1 →
          exitStatus (IEEE.Dynamic.main uninit amps catalog) = 0 ∧
            ∃ r, IEEE.Dynamic.main uninit amps catalog = Outcome.completed r)) ∧
      (∀ r : Report, exitStatus (Outcome.completed r) = 0) ∧
      (∃ r, IEEE.Fixed.main IEEE.Fixed.Amp_X [IEEE.SW_X] = Outcome.completed r ∧
        r.meetsSpecifications = false ∧
        exitStatus (IEEE.Fixed.main IEEE.Fixed.Amp_X [IEEE.SW_X]) = 0) := by
  refine ⟨?_, ?_, fun _ => rfl, ?_⟩
  · intro amp
    obtain ⟨h1, h2, h3⟩ := ieee_Fixed_exitStatus amp catalog
    exact ⟨h1.trans (ieee_selectSwitch_sentinel_iff_name catalog _ _ _ hname).symm,
      h1.trans (ieee_selectSwitch_name_empty_iff catalog _ _ _ hname hcost), h2, h3⟩
  · intro uninit amps
    obtain ⟨h1, h2, h3⟩ := ieee_Dynamic_exitStatus uninit amps catalog
    exact ⟨h1.trans (ieee_selectSwitch_sentinel_iff_name catalog _ _ _ hname).symm,
      h1.trans (ieee_selectSwitch_name_empty_iff catalog _ _ _ hname hcost), h2, h3⟩
  · refine ⟨_, ieee_Fixed_main_X, ieee_report_X_fails, ?_⟩
    rw [ieee_Fixed_main_X]
    rfl

/-- Witness for C15 (amended): the catalog of the source, whose six switches
are named and cheaper than the sentinel. -/
theorem exitStatus_one_iff_none_passes_witness :
    (∀ s ∈ IEEE.switches, s.name ≠ "") ∧ (∀ s ∈ IEEE.switches, s.cost < DBL_MAX) ∧
      (exitStatus (IEEE.Fixed.main Fixed.ampE IEEE.switches) = 1 ↔
        ∀ s ∈ IEEE.switches,
          ¬ IEEE.Passes INPUT_POWER Fixed.ampE.gain1GHz_min Fixed.ampE.gain20GHz_min s) :=
  ⟨ieee_switches_names, ieee_switches_costs,
    ((exitStatus_one_iff_none_passes IEEE.switches ieee_switches_names
      ieee_switches_costs).1 Fixed.ampE).2.1⟩

/-! ## Cascade in double arithmetic: runs on Amp-E -/

/-- The 1 GHz sum tested by the selector for Amp-E and SW-B. -/
theorem ieee_sum1_E_B :
    IEEE.add (IEEE.add 10 14) (IEEE.lit (-0.1)) = 3363625971692339 / 140737488355328 := by
  simp only [IEEE.add, IEEE.lit]
  rw [show IEEE.roundToDouble (10 + 14) = 24 from
    IEEE.roundToDouble_near _ _ (4) 6755399441055744 (by norm_num)]
  rw [show IEEE.roundToDouble (-0.1) = (-3602879701896397 / 36028797018963968) from
    IEEE.roundToDouble_of_neg _ _ (IEEE.roundToDouble_near _ _ (-4) 7205759403792794 (by norm_num))]
  exact IEEE.roundToDouble_near _ _ (4) 6727251943384678 (by norm_num)

/-- The 20 GHz sum tested by the selector for Amp-E and SW-B. -/
theorem ieee_sum20_E_B :
    IEEE.add (IEEE.add 10 13) (-2) = 21 := by
  simp only [IEEE.add]
  rw [show IEEE.roundToDouble (10 + 13) = 23 from
    IEEE.roundToDouble_near _ _ (4) 6473924464345088 (by norm_num)]
  exact IEEE.roundToDouble_near _ _ (4) 5910974510923776 (by norm_num)

theorem ampE_p1dB : Fixed.ampE.p1dB = 20 := by norm_num [Fixed.ampE]

theorem ieee_passes_SW_B : IEEE.Passes 10 14 13 IEEE.SW_B := by
  unfold IEEE.Passes
  refine ⟨?_, ?_, ?_⟩
  · show IEEE.add (IEEE.add 10 14) (IEEE.lit (-0.1)) ≥ 19
    rw [ieee_sum1_E_B]
    norm_num
  · show IEEE.add (IEEE.add 10 13) (-2) ≥ 16
    rw [ieee_sum20_E_B]
    norm_num
  · show (27 : ℚ) ≥ 10
    norm_num

/-- The 1 GHz sum tested by the selector for Amp-E and SW-A. -/
theorem ieee_sum1_E_A :
    IEEE.add (IEEE.add 10 14) (IEEE.lit (-0.7)) = 6558366957358285 / 281474976710656 := by
  simp only [IEEE.add, IEEE.lit]
  rw [show IEEE.roundToDouble (10 + 14) = 24 from
    IEEE.roundToDouble_near _ _ (4) 6755399441055744 (by norm_num)]
  rw [show IEEE.roundToDouble (-0.7) = (-3152519739159347 / 4503599627370496) from
    IEEE.roundToDouble_of_neg _ _ (IEEE.roundToDouble_near _ _ (-1) 6305039478318694 (by norm_num))]
  exact IEEE.roundToDouble_near _ _ (4) 6558366957358285 (by norm_num)

/-- The 20 GHz sum tested by the selector for Amp-E and SW-A. -/
theorem ieee_sum20_E_A :
    IEEE.add (IEEE.add 10 13) (IEEE.lit (-1.4)) = 3039929748475085 / 140737488355328 := by
  simp only [IEEE.add, IEEE.lit]
  rw [show IEEE.roundToDouble (10 + 13) = 23 from
    IEEE.roundToDouble_near _ _ (4) 6473924464345088 (by norm_num)]
  rw [show IEEE.roundToDouble (-1.4) = (-3152519739159347 / 2251799813685248) from
    IEEE.roundToDouble_of_neg _ _ (IEEE.roundToDouble_near _ _ (0) 6305039478318694 (by norm_num))]
  exact IEEE.roundToDouble_near _ _ (4) 6079859496950170 (by norm_num)

/-- The 1 GHz sum tested by the selector for Amp-E and SW-C. -/
theorem ieee_sum1_E_C :
    IEEE.add (IEEE.add 10 14) (IEEE.lit (-1.3)) = 6389481971331891 / 281474976710656 := by
  simp only [IEEE.add, IEEE.lit]
  rw [show IEEE.roundToDouble (10 + 14) = 24 from
    IEEE.roundToDouble_near _ _ (4) 6755399441055744 (by norm_num)]
  rw [show IEEE.roundToDouble (-1.3) = (-5854679515581645 / 4503599627370496) from
    IEEE.roundToDouble_of_neg _ _ (IEEE.roundToDouble_near _ _ (0) 5854679515581645 (by norm_num))]
  exact IEEE.roundToDouble_near _ _ (4) 6389481971331891 (by norm_num)

/-- The 20 GHz sum tested by the selector for Amp-E and SW-C. -/
theorem ieee_sum20_E_C :
    IEEE.add (IEEE.add 10 13) (IEEE.lit (-1.8)) = 5967269506265907 / 281474976710656 := by
  simp only [IEEE.add, IEEE.lit]
  rw [show IEEE.roundToDouble (10 + 13) = 23 from
    IEEE.roundToDouble_near _ _ (4) 6473924464345088 (by norm_num)]
  rw [show IEEE.roundToDouble (-1.8) = (-8106479329266893 / 4503599627370496) from
    IEEE.roundToDouble_of_neg _ _ (IEEE.roundToDouble_near _ _ (0) 8106479329266893 (by norm_num))]
  exact IEEE.roundToDouble_near _ _ (4) 5967269506265907 (by norm_num)

/-- The raw attenuation of the program for Amp-E at 20 GHz. -/
theorem ieee_raw_E_20 :
    IEEE.sub (IEEE.add 10 13) 20 = 3 := by
  simp only [IEEE.add, IEEE.sub]
  rw [show IEEE.roundToDouble (10 + 13) = 23 from
    IEEE.roundToDouble_near _ _ (4) 6473924464345088 (by norm_num)]
  exact IEEE.roundToDouble_near _ _ (1) 6755399441055744 (by norm_num)

/-- The output power at 1 GHz computed by the program for Amp-E and SW-C. -/
theorem ieee_out1_E_C :
    IEEE.add 10 (IEEE.sub (IEEE.add (IEEE.add (IEEE.add 14 (IEEE.lit (-1.3))) (-1)) (-6)) 4) = 3293257227514675 / 281474976710656 := by
  simp only [IEEE.add, IEEE.lit, IEEE.sub]
  rw [show IEEE.roundToDouble (-1.3) = (-5854679515581645 / 4503599627370496) from
    IEEE.roundToDouble_of_neg _ _ (IEEE.roundToDouble_near _ _ (0) 5854679515581645 (by norm_num))]
  rw [show IEEE.roundToDouble (14 + (-5854679515581645 / 4503599627370496)) = (3574732204225331 / 281474976710656) from
    IEEE.roundToDouble_near _ _ (3) 7149464408450662 (by norm_num)]
  rw [show IEEE.roundToDouble ((3574732204225331 / 281474976710656) + (-1)) = (3293257227514675 / 281474976710656) from
    IEEE.roundToDouble_near _ _ (3) 6586514455029350 (by norm_num)]
  rw [show IEEE.roundToDouble ((3293257227514675 / 281474976710656) + (-6)) = (1604407367250739 / 281474976710656) from
    IEEE.roundToDouble_near _ _ (2) 6417629469002956 (by norm_num)]
  rw [show IEEE.roundToDouble ((1604407367250739 / 281474976710656) - 4) = (478507460408115 / 281474976710656) from
    IEEE.roundToDouble_near _ _ (0) 7656119366529840 (by norm_num)]
  exact IEEE.roundToDouble_near _ _ (3) 6586514455029350 (by norm_num)

/-- The output power at 20 GHz computed by the program for Amp-E and SW-C. -/
theorem ieee_out20_E_C :
    IEEE.add 10 (IEEE.sub (IEEE.add (IEEE.add (IEEE.add 13 (IEEE.lit (-1.8))) (-1)) (-7)) 3) = 2871044762448691 / 281474976710656 := by
  simp only [IEEE.add, IEEE.lit, IEEE.sub]
  rw [show IEEE.roundToDouble (-1.8) = (-8106479329266893 / 4503599627370496) from
    IEEE.roundToDouble_of_neg _ _ (IEEE.roundToDouble_near _ _ (0) 8106479329266893 (by norm_num))]
  rw [show IEEE.roundToDouble (13 + (-8106479329266893 / 4503599627370496)) = (3152519739159347 / 281474976710656) from
    IEEE.roundToDouble_near _ _ (3) 6305039478318694 (by norm_num)]
  rw [show IEEE.roundToDouble ((3152519739159347 / 281474976710656) + (-1)) = (2871044762448691 / 281474976710656) from
    IEEE.roundToDouble_near _ _ (3) 5742089524897382 (by norm_num)]
  rw [show IEEE.roundToDouble ((2871044762448691 / 281474976710656) + (-7)) = (900719925474099 / 281474976710656) from
    IEEE.roundToDouble_near _ _ (1) 7205759403792792 (by norm_num)]
  rw [show IEEE.roundToDouble ((900719925474099 / 281474976710656) - 3) = (56294995342131 / 281474976710656) from
    IEEE.roundToDouble_near _ _ (-3) 7205759403792768 (by norm_num)]
  exact IEEE.roundToDouble_near _ _ (3) 5742089524897382 (by norm_num)

/-- The leakage at 1 GHz computed by the program for Amp-E and SW-C. -/
theorem ieee_leak1_E_C :
    IEEE.add (IEEE.add (IEEE.add (IEEE.add 10 17.5) (-60)) (-1)) (-6) = -79 / 2 := by
  simp only [IEEE.add]
  rw [show IEEE.roundToDouble (10 + 17.5) = (55 / 2) from
    IEEE.roundToDouble_near _ _ (4) 7740561859543040 (by norm_num)]
  rw [show IEEE.roundToDouble ((55 / 2) + (-60)) = (-65 / 2) from
    IEEE.roundToDouble_of_neg _ _ (IEEE.roundToDouble_near _ _ (5) 4573968371548160 (by norm_num))]
  rw [show IEEE.roundToDouble ((-65 / 2) + (-1)) = (-67 / 2) from
    IEEE.roundToDouble_of_neg _ _ (IEEE.roundToDouble_near _ _ (5) 4714705859903488 (by norm_num))]
  exact IEEE.roundToDouble_of_neg _ _ (IEEE.roundToDouble_near _ _ (5) 5559130790035456 (by norm_num))

/-- The leakage at 20 GHz computed by `main.cpp` for Amp-E and SW-C. -/
theorem ieee_leak20_fixed_E_C :
    IEEE.add (IEEE.add (IEEE.add (IEEE.add 10 16) (-35)) (-1)) (-7) = -17 := by
  simp only [IEEE.add]
  rw [show IEEE.roundToDouble (10 + 16) = 26 from
    IEEE.roundToDouble_near _ _ (4) 7318349394477056 (by norm_num)]
  rw [show IEEE.roundToDouble (26 + (-35)) = (-9) from
    IEEE.roundToDouble_of_neg _ _ (IEEE.roundToDouble_near _ _ (3) 5066549580791808 (by norm_num))]
  rw [show IEEE.roundToDouble ((-9) + (-1)) = (-10) from
    IEEE.roundToDouble_of_neg _ _ (IEEE.roundToDouble_near _ _ (3) 5629499534213120 (by norm_num))]
  exact IEEE.roundToDouble_of_neg _ _ (IEEE.roundToDouble_near _ _ (4) 4785074604081152 (by norm_num))

/-- The leakage at 20 GHz computed by `signalDistributor.cpp` for Amp-E and SW-C. -/
theorem ieee_leak20_dynamic_E_C :
    IEEE.add (IEEE.add (IEEE.add (IEEE.add 10 17.5) (-35)) (-1)) (-7) = -31 / 2 := by
  simp only [IEEE.add]
  rw [show IEEE.roundToDouble (10 + 17.5) = (55 / 2) from
    IEEE.roundToDouble_near _ _ (4) 7740561859543040 (by norm_num)]
  rw [show IEEE.roundToDouble ((55 / 2) + (-35)) = (-15 / 2) from
    IEEE.roundToDouble_of_neg _ _ (IEEE.roundToDouble_near _ _ (2) 8444249301319680 (by norm_num))]
  rw [show IEEE.roundToDouble ((-15 / 2) + (-1)) = (-17 / 2) from
    IEEE.roundToDouble_of_neg _ _ (IEEE.roundToDouble_near _ _ (3) 4785074604081152 (by norm_num))]
  exact IEEE.roundToDouble_of_neg _ _ (IEEE.roundToDouble_near _ _ (3) 8725724278030336 (by norm_num))

theorem ieee_lit_11_7 :
    IEEE.lit 11.7 = 3293257227514675 / 281474976710656 := by
  simp only [IEEE.lit]
  exact IEEE.roundToDouble_near _ _ (3) 6586514455029350 (by norm_num)

theorem ieee_lit_10_2 :
    IEEE.lit 10.2 = 2871044762448691 / 281474976710656 := by
  simp only [IEEE.lit]
  exact IEEE.roundToDouble_near _ _ (3) 5742089524897382 (by norm_num)

theorem ieee_score_17_0_16_0_20_0_20_0 :
    IEEE.add (IEEE.add (IEEE.mul (IEEE.lit 0.5) (IEEE.add (IEEE.div 1 17.0) (IEEE.div 1 16.0))) (IEEE.mul (IEEE.lit 0.3) (IEEE.div 1 20.0))) (IEEE.mul (IEEE.lit 0.2) 20.0) = 4588787201204397 / 1125899906842624 := by
  simp only [IEEE.add, IEEE.div, IEEE.lit, IEEE.mul]
  rw [show IEEE.roundToDouble 0.5 = (1 / 2) from
    IEEE.roundToDouble_near _ _ (-1) 4503599627370496 (by norm_num)]
  rw [show IEEE.roundToDouble (1 / 17.0) = (4238682002231055 / 72057594037927936) from
    IEEE.roundToDouble_near _ _ (-5) 8477364004462110 (by norm_num)]
  rw [show IEEE.roundToDouble (1 / 16.0) = (1 / 16) from
    IEEE.roundToDouble_near _ _ (-4) 4503599627370496 (by norm_num)]
  rw [show IEEE.roundToDouble ((4238682002231055 / 72057594037927936) + (1 / 16)) = (8742281629601551 / 72057594037927936) from
    IEEE.roundToDouble_near _ _ (-4) 8742281629601551 (by norm_num)]
  rw [show IEEE.roundToDouble ((1 / 2) * (8742281629601551 / 72057594037927936)) = (8742281629601551 / 144115188075855872) from
    IEEE.roundToDouble_near _ _ (-5) 8742281629601551 (by norm_num)]
  rw [show IEEE.roundToDouble 0.3 = (5404319552844595 / 18014398509481984) from
    IEEE.roundToDouble_near _ _ (-2) 5404319552844595 (by norm_num)]
  rw [show IEEE.roundToDouble (1 / 20.0) = (3602879701896397 / 72057594037927936) from
    IEEE.roundToDouble_near _ _ (-5) 7205759403792794 (by norm_num)]
  rw [show IEEE.roundToDouble ((5404319552844595 / 18014398509481984) * (3602879701896397 / 72057594037927936)) = (1080863910568919 / 72057594037927936) from
    IEEE.roundToDouble_near _ _ (-7) 8646911284551352 (by norm_num)]
  rw [show IEEE.roundToDouble ((8742281629601551 / 144115188075855872) + (1080863910568919 / 72057594037927936)) = (2726002362684847 / 36028797018963968) from
    IEEE.roundToDouble_tie_above _ _ (-4) 5452004725369694 (by norm_num)]
  rw [show IEEE.roundToDouble 0.2 = (3602879701896397 / 18014398509481984) from
    IEEE.roundToDouble_near _ _ (-3) 7205759403792794 (by norm_num)]
  rw [show IEEE.roundToDouble ((3602879701896397 / 18014398509481984) * 20.0) = 4 from
    IEEE.roundToDouble_near _ _ (2) 4503599627370496 (by norm_num)]
  exact IEEE.roundToDouble_near _ _ (2) 4588787201204397 (by norm_num)

theorem ieee_score_14_0_11_0_26_0_60_0 :
    IEEE.add (IEEE.add (IEEE.mul (IEEE.lit 0.5) (IEEE.add (IEEE.div 1 14.0) (IEEE.div 1 11.0))) (IEEE.mul (IEEE.lit 0.3) (IEEE.div 1 26.0))) (IEEE.mul (IEEE.lit 0.2) 60.0) = 3403794503583565 / 281474976710656 := by
  simp only [IEEE.add, IEEE.div, IEEE.lit, IEEE.mul]
  rw [show IEEE.roundToDouble 0.5 = (1 / 2) from
    IEEE.roundToDouble_near _ _ (-1) 4503599627370496 (by norm_num)]
  rw [show IEEE.roundToDouble (1 / 14.0) = (2573485501354569 / 36028797018963968) from
    IEEE.roundToDouble_near _ _ (-4) 5146971002709138 (by norm_num)]
  rw [show IEEE.roundToDouble (1 / 11.0) = (3275345183542179 / 36028797018963968) from
    IEEE.roundToDouble_near _ _ (-4) 6550690367084358 (by norm_num)]
  rw [show IEEE.roundToDouble ((2573485501354569 / 36028797018963968) + (3275345183542179 / 36028797018963968)) = (1462207671224187 / 9007199254740992) from
    IEEE.roundToDouble_near _ _ (-3) 5848830684896748 (by norm_num)]
  rw [show IEEE.roundToDouble ((1 / 2) * (1462207671224187 / 9007199254740992)) = (1462207671224187 / 18014398509481984) from
    IEEE.roundToDouble_near _ _ (-4) 5848830684896748 (by norm_num)]
  rw [show IEEE.roundToDouble 0.3 = (5404319552844595 / 18014398509481984) from
    IEEE.roundToDouble_near _ _ (-2) 5404319552844595 (by norm_num)]
  rw [show IEEE.roundToDouble (1 / 26.0) = (1385722962267845 / 36028797018963968) from
    IEEE.roundToDouble_near _ _ (-5) 5542891849071380 (by norm_num)]
  rw [show IEEE.roundToDouble ((5404319552844595 / 18014398509481984) * (1385722962267845 / 36028797018963968)) = (831433777360707 / 72057594037927936) from
    IEEE.roundToDouble_near _ _ (-7) 6651470218885656 (by norm_num)]
  rw [show IEEE.roundToDouble ((1462207671224187 / 18014398509481984) + (831433777360707 / 72057594037927936)) = (6680264462257455 / 72057594037927936) from
    IEEE.roundToDouble_near _ _ (-4) 6680264462257455 (by norm_num)]
  rw [show IEEE.roundToDouble 0.2 = (3602879701896397 / 18014398509481984) from
    IEEE.roundToDouble_near _ _ (-3) 7205759403792794 (by norm_num)]
  rw [show IEEE.roundToDouble ((3602879701896397 / 18014398509481984) * 60.0) = 12 from
    IEEE.roundToDouble_near _ _ (3) 6755399441055744 (by norm_num)]
  exact IEEE.roundToDouble_near _ _ (3) 6807589007167130 (by norm_num)

theorem ieee_score_10_0_10_0_21_0_21_0 :
    IEEE.add (IEEE.add (IEEE.mul (IEEE.lit 0.5) (IEEE.add (IEEE.div 1 10.0) (IEEE.div 1 10.0))) (IEEE.mul (IEEE.lit 0.3) (IEEE.div 1 21.0))) (IEEE.mul (IEEE.lit 0.2) 21.0) = 4857453883806749 / 1125899906842624 := by
  simp only [IEEE.add, IEEE.div, IEEE.lit, IEEE.mul]
  rw [show IEEE.roundToDouble 0.5 = (1 / 2) from
    IEEE.roundToDouble_near _ _ (-1) 4503599627370496 (by norm_num)]
  rw [show IEEE.roundToDouble (1 / 10.0) = (3602879701896397 / 36028797018963968) from
    IEEE.roundToDouble_near _ _ (-4) 7205759403792794 (by norm_num)]
  rw [show IEEE.roundToDouble ((3602879701896397 / 36028797018963968) + (3602879701896397 / 36028797018963968)) = (3602879701896397 / 18014398509481984) from
    IEEE.roundToDouble_near _ _ (-3) 7205759403792794 (by norm_num)]
  rw [show IEEE.roundToDouble ((1 / 2) * (3602879701896397 / 18014398509481984)) = (3602879701896397 / 36028797018963968) from
    IEEE.roundToDouble_near _ _ (-4) 7205759403792794 (by norm_num)]
  rw [show IEEE.roundToDouble 0.3 = (5404319552844595 / 18014398509481984) from
    IEEE.roundToDouble_near _ _ (-2) 5404319552844595 (by norm_num)]
  rw [show IEEE.roundToDouble (1 / 21.0) = (857828500451523 / 18014398509481984) from
    IEEE.roundToDouble_near _ _ (-5) 6862628003612184 (by norm_num)]
  rw [show IEEE.roundToDouble ((5404319552844595 / 18014398509481984) * (857828500451523 / 18014398509481984)) = (2058788401083655 / 144115188075855872) from
    IEEE.roundToDouble_near _ _ (-7) 8235153604334620 (by norm_num)]
  rw [show IEEE.roundToDouble ((3602879701896397 / 36028797018963968) + (2058788401083655 / 144115188075855872)) = (4117576802167311 / 36028797018963968) from
    IEEE.roundToDouble_tie_below _ _ (-4) 8235153604334622 (by norm_num)]
  rw [show IEEE.roundToDouble 0.2 = (3602879701896397 / 18014398509481984) from
    IEEE.roundToDouble_near _ _ (-3) 7205759403792794 (by norm_num)]
  rw [show IEEE.roundToDouble ((3602879701896397 / 18014398509481984) * 21.0) = (4728779608739021 / 1125899906842624) from
    IEEE.roundToDouble_near _ _ (2) 4728779608739021 (by norm_num)]
  exact IEEE.roundToDouble_near _ _ (2) 4857453883806749 (by norm_num)

theorem ieee_score_14_0_15_0_29_0_77_0 :
    IEEE.add (IEEE.add (IEEE.mul (IEEE.lit 0.5) (IEEE.add (IEEE.div 1 14.0) (IEEE.div 1 15.0))) (IEEE.mul (IEEE.lit 0.3) (IEEE.div 1 29.0))) (IEEE.mul (IEEE.lit 0.2) 77.0) = 8714123256822721 / 562949953421312 := by
  simp only [IEEE.add, IEEE.div, IEEE.lit, IEEE.mul]
  rw [show IEEE.roundToDouble 0.5 = (1 / 2) from
    IEEE.roundToDouble_near _ _ (-1) 4503599627370496 (by norm_num)]
  rw [show IEEE.roundToDouble (1 / 14.0) = (2573485501354569 / 36028797018963968) from
    IEEE.roundToDouble_near _ _ (-4) 5146971002709138 (by norm_num)]
  rw [show IEEE.roundToDouble (1 / 15.0) = (4803839602528529 / 72057594037927936) from
    IEEE.roundToDouble_near _ _ (-4) 4803839602528529 (by norm_num)]
  rw [show IEEE.roundToDouble ((2573485501354569 / 36028797018963968) + (4803839602528529 / 72057594037927936)) = (2487702651309417 / 18014398509481984) from
    IEEE.roundToDouble_tie_below _ _ (-3) 4975405302618834 (by norm_num)]
  rw [show IEEE.roundToDouble ((1 / 2) * (2487702651309417 / 18014398509481984)) = (2487702651309417 / 36028797018963968) from
    IEEE.roundToDouble_near _ _ (-4) 4975405302618834 (by norm_num)]
  rw [show IEEE.roundToDouble 0.3 = (5404319552844595 / 18014398509481984) from
    IEEE.roundToDouble_near _ _ (-2) 5404319552844595 (by norm_num)]
  rw [show IEEE.roundToDouble (1 / 29.0) = (2484744621997515 / 72057594037927936) from
    IEEE.roundToDouble_near _ _ (-5) 4969489243995030 (by norm_num)]
  rw [show IEEE.roundToDouble ((5404319552844595 / 18014398509481984) * (2484744621997515 / 72057594037927936)) = (1490846773198509 / 144115188075855872) from
    IEEE.roundToDouble_near _ _ (-7) 5963387092794036 (by norm_num)]
  rw [show IEEE.roundToDouble ((2487702651309417 / 36028797018963968) + (1490846773198509 / 144115188075855872)) = (715103586152261 / 9007199254740992) from
    IEEE.roundToDouble_tie_above _ _ (-4) 5720828689218088 (by norm_num)]
  rw [show IEEE.roundToDouble 0.2 = (3602879701896397 / 18014398509481984) from
    IEEE.roundToDouble_near _ _ (-3) 7205759403792794 (by norm_num)]
  rw [show IEEE.roundToDouble ((3602879701896397 / 18014398509481984) * 77.0) = (8669429282688205 / 562949953421312) from
    IEEE.roundToDouble_near _ _ (3) 8669429282688205 (by norm_num)]
  exact IEEE.roundToDouble_near _ _ (3) 8714123256822721 (by norm_num)

theorem ieee_score_14_5_15_0_11_0_33_0 :
    IEEE.add (IEEE.add (IEEE.mul (IEEE.lit 0.5) (IEEE.add (IEEE.div 1 14.5) (IEEE.div 1 15.0))) (IEEE.mul (IEEE.lit 0.3) (IEEE.div 1 11.0))) (IEEE.mul (IEEE.lit 0.2) 33.0) = 1884499969467623 / 281474976710656 := by
  simp only [IEEE.add, IEEE.div, IEEE.lit, IEEE.mul]
  rw [show IEEE.roundToDouble 0.5 = (1 / 2) from
    IEEE.roundToDouble_near _ _ (-1) 4503599627370496 (by norm_num)]
  rw [show IEEE.roundToDouble (1 / 14.5) = (2484744621997515 / 36028797018963968) from
    IEEE.roundToDouble_near _ _ (-4) 4969489243995030 (by norm_num)]
  rw [show IEEE.roundToDouble (1 / 15.0) = (4803839602528529 / 72057594037927936) from
    IEEE.roundToDouble_near _ _ (-4) 4803839602528529 (by norm_num)]
  rw [show IEEE.roundToDouble ((2484744621997515 / 36028797018963968) + (4803839602528529 / 72057594037927936)) = (1221666105815445 / 9007199254740992) from
    IEEE.roundToDouble_tie_below _ _ (-3) 4886664423261780 (by norm_num)]
  rw [show IEEE.roundToDouble ((1 / 2) * (1221666105815445 / 9007199254740992)) = (1221666105815445 / 18014398509481984) from
    IEEE.roundToDouble_near _ _ (-4) 4886664423261780 (by norm_num)]
  rw [show IEEE.roundToDouble 0.3 = (5404319552844595 / 18014398509481984) from
    IEEE.roundToDouble_near _ _ (-2) 5404319552844595 (by norm_num)]
  rw [show IEEE.roundToDouble (1 / 11.0) = (3275345183542179 / 36028797018963968) from
    IEEE.roundToDouble_near _ _ (-4) 6550690367084358 (by norm_num)]
  rw [show IEEE.roundToDouble ((5404319552844595 / 18014398509481984) * (3275345183542179 / 36028797018963968)) = (7860828440501229 / 288230376151711744) from
    IEEE.roundToDouble_near _ _ (-6) 7860828440501229 (by norm_num)]
  rw [show IEEE.roundToDouble ((1221666105815445 / 18014398509481984) + (7860828440501229 / 288230376151711744)) = (6851871533387087 / 72057594037927936) from
    IEEE.roundToDouble_near _ _ (-4) 6851871533387087 (by norm_num)]
  rw [show IEEE.roundToDouble 0.2 = (3602879701896397 / 18014398509481984) from
    IEEE.roundToDouble_near _ _ (-3) 7205759403792794 (by norm_num)]
  rw [show IEEE.roundToDouble ((3602879701896397 / 18014398509481984) * 33.0) = (7430939385161319 / 1125899906842624) from
    IEEE.roundToDouble_near _ _ (2) 7430939385161319 (by norm_num)]
  exact IEEE.roundToDouble_near _ _ (2) 7537999877870492 (by norm_num)

/-! ## The runs of the source in double arithmetic -/

theorem ieee_passes_E_A : IEEE.Passes 10 14 13 IEEE.SW_A := by
  unfold IEEE.Passes
  refine ⟨?_, ?_, ?_⟩
  · show IEEE.add (IEEE.add 10 14) (IEEE.lit (-0.7)) ≥ 19
    rw [ieee_sum1_E_A]
    norm_num
  · show IEEE.add (IEEE.add 10 13) (IEEE.lit (-1.4)) ≥ 16
    rw [ieee_sum20_E_A]
    norm_num
  · show (28 : ℚ) ≥ 10
    norm_num

theorem ieee_passes_E_C : IEEE.Passes 10 14 13 IEEE.SW_C := by
  unfold IEEE.Passes
  refine ⟨?_, ?_, ?_⟩
  · show IEEE.add (IEEE.add 10 14) (IEEE.lit (-1.3)) ≥ 19
    rw [ieee_sum1_E_C]
    norm_num
  · show IEEE.add (IEEE.add 10 13) (IEEE.lit (-1.8)) ≥ 16
    rw [ieee_sum20_E_C]
    norm_num
  · show (35 : ℚ) ≥ 10
    norm_num

/-- In double arithmetic the selector returns SW-C on the catalog of the
source for the gains of Amp-E, as it does in exact arithmetic. -/
theorem ieee_selectSwitch_switches_eval :
    IEEE.selectSwitch IEEE.switches 10 14 13 = IEEE.SW_C := by
  have cA : IEEE.SW_A.cost < sentinelSwitch.cost := by
    rw [sentinelSwitch_cost]
    exact lt_trans (show (45 : ℚ) < 1000 by norm_num) thousand_lt_DBL_MAX
  have cB : IEEE.SW_B.cost < IEEE.SW_A.cost := show (19 : ℚ) < 45 by norm_num
  have cC : IEEE.SW_C.cost < IEEE.SW_B.cost := show (13 : ℚ) < 19 by norm_num
  have cD : ¬ IEEE.SW_D.cost < IEEE.SW_C.cost := show ¬ (35 : ℚ) < 13 by norm_num
  have cE : ¬ IEEE.SW_E.cost < IEEE.SW_C.cost := show ¬ (24 : ℚ) < 13 by norm_num
  have cF : ¬ IEEE.SW_F.cost < IEEE.SW_C.cost := show ¬ (22 : ℚ) < 13 by norm_num
  rw [ieee_selectSwitch_eq_foldl]
  unfold IEEE.switches
  rw [List.foldl_cons, ieee_selectSwitchStep_of_lt _ _ _ _ _ ieee_passes_E_A cA,
    List.foldl_cons, ieee_selectSwitchStep_of_lt _ _ _ _ _ ieee_passes_SW_B cB,
    List.foldl_cons, ieee_selectSwitchStep_of_lt _ _ _ _ _ ieee_passes_E_C cC,
    List.foldl_cons, ieee_selectSwitchStep_of_not_lt _ _ _ _ _ cD,
    List.foldl_cons, ieee_selectSwitchStep_of_not_lt _ _ _ _ _ cE,
    List.foldl_cons, ieee_selectSwitchStep_of_not_lt _ _ _ _ _ cF, List.foldl_nil]

/-- The run of `main.cpp` on its own globals in double arithmetic completes
with the report of SW-C. -/
theorem ieee_Fixed_main_run :
    IEEE.Fixed.main Fixed.ampE IEEE.switches = Outcome.completed (IEEE.evaluateChain none
      Fixed.ampE.gain1GHz_min Fixed.ampE.gain20GHz_min Fixed.ampE.gain1GHz_max
      Fixed.ampE.gain20GHz_max Fixed.ampE.p1dB IEEE.SW_C) :=
  ieee_Fixed_main_of_found Fixed.ampE IEEE.switches IEEE.SW_C
    (by rw [INPUT_POWER_eq, ampE_min_gains.1, ampE_min_gains.2]
        exact ieee_selectSwitch_switches_eval) (by decide)

theorem ieee_att_E_20 : IEEE.calculateAttenuation 10 20 13 = 3 := by
  unfold IEEE.calculateAttenuation std_max
  simp only []
  rw [ieee_raw_E_20, if_pos (by norm_num)]

/-- The four metrics computed for gains 14 and 13, p1dB 20 and SW-C in double
arithmetic are the doubles nearest 11.7 and 10.2, and the maximum gains enter
the leakages only. -/
theorem ieee_metrics_E_C (label : Option (String × ℚ)) (g1max g20max : ℚ) :
    (IEEE.evaluateChain label 14 13 g1max g20max 20 IEEE.SW_C).outputPower1GHz_maxPower =
        IEEE.lit 11.7 ∧
      (IEEE.evaluateChain label 14 13 g1max g20max 20 IEEE.SW_C).outputPower20GHz_maxPower =
        IEEE.lit 10.2 ∧
      (IEEE.evaluateChain label 14 13 g1max g20max 20 IEEE.SW_C).leakage1GHz =
        IEEE.add (IEEE.add (IEEE.add (IEEE.add 10 g1max) (-60)) (-1)) (-6) ∧
      (IEEE.evaluateChain label 14 13 g1max g20max 20 IEEE.SW_C).leakage20GHz =
        IEEE.add (IEEE.add (IEEE.add (IEEE.add 10 g20max) (-35)) (-1)) (-7) := by
  obtain ⟨h1, h2, h3, h4⟩ := ieee_evaluateChain_metrics label 14 13 g1max g20max 20 IEEE.SW_C
  rw [h1, h2, h3, h4, INPUT_POWER_eq, FIXED_ATTENUATOR_GAIN_eq, POWER_DIVIDER_GAIN_1GHz_eq,
    POWER_DIVIDER_GAIN_20GHz_eq, ieee_att_E, ieee_att_E_20, ieee_lit_11_7, ieee_lit_10_2]
  exact ⟨ieee_out1_E_C, ieee_out20_E_C, rfl, rfl⟩

/-- The four metrics printed by `main.cpp` on its own globals, computed in
double arithmetic: the doubles nearest the exact values 11.7 and 10.2, and
-39.5 and -17. -/
theorem ieee_Fixed_run_metrics :
    (IEEE.evaluateChain none Fixed.ampE.gain1GHz_min Fixed.ampE.gain20GHz_min
        Fixed.ampE.gain1GHz_max Fixed.ampE.gain20GHz_max Fixed.ampE.p1dB
        IEEE.SW_C).outputPower1GHz_maxPower = IEEE.lit 11.7 ∧
      (IEEE.evaluateChain none Fixed.ampE.gain1GHz_min Fixed.ampE.gain20GHz_min
        Fixed.ampE.gain1GHz_max Fixed.ampE.gain20GHz_max Fixed.ampE.p1dB
        IEEE.SW_C).outputPower20GHz_maxPower = IEEE.lit 10.2 ∧
      (IEEE.evaluateChain none Fixed.ampE.gain1GHz_min Fixed.ampE.gain20GHz_min
        Fixed.ampE.gain1GHz_max Fixed.ampE.gain20GHz_max Fixed.ampE.p1dB
        IEEE.SW_C).leakage1GHz = -395 / 10 ∧
      (IEEE.evaluateChain none Fixed.ampE.gain1GHz_min Fixed.ampE.gain20GHz_min
        Fixed.ampE.gain1GHz_max Fixed.ampE.gain20GHz_max Fixed.ampE.p1dB
        IEEE.SW_C).leakage20GHz = -17 := by
  have hmax : Fixed.ampE.gain1GHz_max = 17.5 ∧ Fixed.ampE.gain20GHz_max = 16 :=
    ⟨rfl, by norm_num [Fixed.ampE]⟩
  rw [ampE_min_gains.1, ampE_min_gains.2, ampE_p1dB, hmax.1, hmax.2]
  obtain ⟨h1, h2, h3, h4⟩ := ieee_metrics_E_C none 17.5 16
  rw [h1, h2, h3, h4, ieee_leak1_E_C, ieee_leak20_fixed_E_C]
  norm_num

/-- In double arithmetic the amplifier selector returns Amp-E on the catalog
of the source, whatever the uninitialised local holds, as it does in exact
arithmetic. -/
theorem ieee_selectAmplifier_amplifiers_eval (uninit : Dynamic.Amplifier) :
    IEEE.Dynamic.selectAmplifier uninit Dynamic.amplifiers = Dynamic.Amp_E := by
  have sA : IEEE.Dynamic.score Dynamic.Amp_A = (4588787201204397 / 1125899906842624) := ieee_score_17_0_16_0_20_0_20_0
  have sB : IEEE.Dynamic.score Dynamic.Amp_B = (3403794503583565 / 281474976710656) := ieee_score_14_0_11_0_26_0_60_0
  have sC : IEEE.Dynamic.score Dynamic.Amp_C = (4857453883806749 / 1125899906842624) := ieee_score_10_0_10_0_21_0_21_0
  have sD : IEEE.Dynamic.score Dynamic.Amp_D = (8714123256822721 / 562949953421312) := ieee_score_14_0_15_0_29_0_77_0
  have sE : IEEE.Dynamic.score Dynamic.Amp_E = (8065196332682663 / 2251799813685248) := ieee_score_Amp_E_17_5
  have sF : IEEE.Dynamic.score Dynamic.Amp_F = (1884499969467623 / 281474976710656) := ieee_score_14_5_15_0_11_0_33_0
  have stepA : IEEE.Dynamic.selectAmplifierStep (uninit, DBL_MAX) Dynamic.Amp_A =
      (Dynamic.Amp_A, (4588787201204397 / 1125899906842624)) := by
    unfold IEEE.Dynamic.selectAmplifierStep
    rw [sA, if_pos (lt_trans (by norm_num) thousand_lt_DBL_MAX)]
  have stepB : IEEE.Dynamic.selectAmplifierStep (Dynamic.Amp_A, (4588787201204397 / 1125899906842624)) Dynamic.Amp_B =
      (Dynamic.Amp_A, (4588787201204397 / 1125899906842624)) := by
    unfold IEEE.Dynamic.selectAmplifierStep
    rw [sB, if_neg (by norm_num)]
  have stepC : IEEE.Dynamic.selectAmplifierStep (Dynamic.Amp_A, (4588787201204397 / 1125899906842624)) Dynamic.Amp_C =
      (Dynamic.Amp_A, (4588787201204397 / 1125899906842624)) := by
    unfold IEEE.Dynamic.selectAmplifierStep
    rw [sC, if_neg (by norm_num)]
  have stepD : IEEE.Dynamic.selectAmplifierStep (Dynamic.Amp_A, (4588787201204397 / 1125899906842624)) Dynamic.Amp_D =
      (Dynamic.Amp_A, (4588787201204397 / 1125899906842624)) := by
    unfold IEEE.Dynamic.selectAmplifierStep
    rw [sD, if_neg (by norm_num)]
  have stepE : IEEE.Dynamic.selectAmplifierStep (Dynamic.Amp_A, (4588787201204397 / 1125899906842624)) Dynamic.Amp_E =
      (Dynamic.Amp_E, (8065196332682663 / 2251799813685248)) := by
    unfold IEEE.Dynamic.selectAmplifierStep
    rw [sE, if_pos (by norm_num)]
  have stepF : IEEE.Dynamic.selectAmplifierStep (Dynamic.Amp_E, (8065196332682663 / 2251799813685248)) Dynamic.Amp_F =
      (Dynamic.Amp_E, (8065196332682663 / 2251799813685248)) := by
    unfold IEEE.Dynamic.selectAmplifierStep
    rw [sF, if_neg (by norm_num)]
  rw [ieee_selectAmplifier_eq_foldl, amplifiers_eq, List.foldl_cons, stepA, List.foldl_cons,
    stepB, List.foldl_cons, stepC, List.foldl_cons, stepD, List.foldl_cons, stepE,
    List.foldl_cons, stepF, List.foldl_nil]

theorem Amp_E_fields :
    Dynamic.Amp_E.gain1GHz_min = 14 ∧ Dynamic.Amp_E.gain20GHz_min = 13 ∧
      Dynamic.Amp_E.gain1GHz_max = 17.5 ∧ Dynamic.Amp_E.gain20GHz_max = 17.5 ∧
      Dynamic.Amp_E.p1dB = 20 :=
  ⟨by norm_num [Dynamic.Amp_E], by norm_num [Dynamic.Amp_E], rfl, rfl,
    by norm_num [Dynamic.Amp_E]⟩

/-- The run of `signalDistributor.cpp` on its own globals in double arithmetic
completes with the report of Amp-E and SW-C. -/
theorem ieee_Dynamic_main_run (uninit : Dynamic.Amplifier) :
    IEEE.Dynamic.main uninit Dynamic.amplifiers IEEE.switches =
      Outcome.completed (IEEE.evaluateChain
        (some (Dynamic.Amp_E.name, Dynamic.Amp_E.cost)) Dynamic.Amp_E.gain1GHz_min
        Dynamic.Amp_E.gain20GHz_min Dynamic.Amp_E.gain1GHz_max Dynamic.Amp_E.gain20GHz_max
        Dynamic.Amp_E.p1dB IEEE.SW_C) :=
  ieee_Dynamic_main_of_found uninit Dynamic.amplifiers IEEE.switches Dynamic.Amp_E IEEE.SW_C
    (ieee_selectAmplifier_amplifiers_eval uninit)
    (by rw [INPUT_POWER_eq, Amp_E_fields.1, Amp_E_fields.2.1]
        exact ieee_selectSwitch_switches_eval) (by decide)

/-- The four metrics printed by `signalDistributor.cpp` on its own globals,
computed in double arithmetic: the doubles nearest 11.7 and 10.2, and -39.5
and -15.5. -/
theorem ieee_Dynamic_run_metrics :
    (IEEE.evaluateChain (some (Dynamic.Amp_E.name, Dynamic.Amp_E.cost))
        Dynamic.Amp_E.gain1GHz_min Dynamic.Amp_E.gain20GHz_min Dynamic.Amp_E.gain1GHz_max
        Dynamic.Amp_E.gain20GHz_max Dynamic.Amp_E.p1dB
        IEEE.SW_C).outputPower1GHz_maxPower = IEEE.lit 11.7 ∧
      (IEEE.evaluateChain (some (Dynamic.Amp_E.name, Dynamic.Amp_E.cost))
        Dynamic.Amp_E.gain1GHz_min Dynamic.Amp_E.gain20GHz_min Dynamic.Amp_E.gain1GHz_max
        Dynamic.Amp_E.gain20GHz_max Dynamic.Amp_E.p1dB
        IEEE.SW_C).outputPower20GHz_maxPower = IEEE.lit 10.2 ∧
      (IEEE.evaluateChain (some (Dynamic.Amp_E.name, Dynamic.Amp_E.cost))
        Dynamic.Amp_E.gain1GHz_min Dynamic.Amp_E.gain20GHz_min Dynamic.Amp_E.gain1GHz_max
        Dynamic.Amp_E.gain20GHz_max Dynamic.Amp_E.p1dB
        IEEE.SW_C).leakage1GHz = -395 / 10 ∧
      (IEEE.evaluateChain (some (Dynamic.Amp_E.name, Dynamic.Amp_E.cost))
        Dynamic.Amp_E.gain1GHz_min Dynamic.Amp_E.gain20GHz_min Dynamic.Amp_E.gain1GHz_max
        Dynamic.Amp_E.gain20GHz_max Dynamic.Amp_E.p1dB
        IEEE.SW_C).leakage20GHz = -155 / 10 := by
  rw [Amp_E_fields.1, Amp_E_fields.2.1, Amp_E_fields.2.2.1, Amp_E_fields.2.2.2.1,
    Amp_E_fields.2.2.2.2]
  obtain ⟨h1, h2, h3, h4⟩ := ieee_metrics_E_C
    (some (Dynamic.Amp_E.name, Dynamic.Amp_E.cost)) 17.5 17.5
  rw [h1, h2, h3, h4, ieee_leak1_E_C, ieee_leak20_dynamic_E_C]
  norm_num

end SignalDistributor
